import Mathlib

/-!
# OpenBiohazard2: the room-script interpreter

A shallow embedding of `script/script.go` (the bytecode interpreter that runs
the init and room scripts of a level) and theorems about it.

Conventions of the embedding

* Go `int` values are Lean `Int`.  Program counters, block lengths and the
  counters of the control state stay far away from the 64-bit range on every
  input considered here, so no wrap-around is modelled.
* A Go slice is a `List`; reading or writing it outside its bounds is the
  run-time panic `Fault.panic`.  `log.Fatal` is `Fault.fatal`.  The interpreter
  loops are `for true` loops, so the functions that embed them take a fuel
  argument and answer `Fault.timeout` when it runs out.
* The package-level variable `scriptThread` (a pointer to the thread being
  run) becomes an explicit argument: thread handlers take and return the
  thread, the dispatcher takes the index of the thread in the pool.
* `scriptDeltaTime` is a `float64` in the source.  It is embedded as a rational
  number; on the inputs evaluated below (small dyadic fractions, with sums
  away from the threshold 1/30) float64 arithmetic is exact, so both agree
  there.
-/

namespace OpenBiohazard2

/-- The ways a call can fail to return. -/
inductive Fault where
  | fatal
  | panic
  | timeout
  deriving DecidableEq, Repr

deriving instance DecidableEq for Except

/-- Slice read `xs[i]` with Go's bounds check. -/
def index {α : Type} (xs : List α) (i : Int) : Except Fault α :=
  if i < 0 then .error .panic
  else match xs[i.toNat]? with
    | some x => .ok x
    | none => .error .panic

/-- Slice write `xs[i] = x`; only used after `index xs i` succeeded. -/
def store {α : Type} (xs : List α) (i : Int) (x : α) : List α :=
  xs.set i.toNat x

/-! ## Data model -/

/-- Modelled from the spec: the declaration of `LoopState` (script_thread.go) is
not among the sources; the fields are the ones script.go reads and writes,
as listed in the data model of the specification. -/
structure LoopState where
  Counter : Int
  Break : Int
  StackValue : Int
  LevelIfCounter : Int
  deriving DecidableEq, Repr

/-- Modelled from the spec: the declaration of `LevelState` is not among the
sources.  The handlers update a level through a local alias
(`curLevelState := scriptThread.LevelState[...]`), so the elements of
`ScriptThread.LevelState` and of `LoopState` are references; the embedding
writes the updated element back into its list. -/
structure LevelState where
  IfElseCounter : Int
  LoopLevel : Int
  ReturnAddress : Int
  Stack : List Int
  LoopState : List LoopState
  deriving DecidableEq, Repr

/-- Modelled from the spec: the declaration of `ScriptThread` is not among the
sources; the fields are the ones script.go uses. -/
structure ScriptThread where
  RunStatus : Bool
  WorkSetComponent : Int
  WorkSetIndex : Int
  ProgramCounter : Int
  StackIndex : Int
  SubLevel : Int
  LevelState : List LevelState
  OverrideProgramCounter : Bool
  deriving DecidableEq, Repr

/-- The record `fileio.ScriptFunction`: the instruction stream (a Go map from
program counter to raw bytes, an absent key reading as the empty slice) and
the table of entry points (`none` for an entry that does not exist). -/
structure ScriptFunction where
  Instructions : Int → List Nat
  StartProgramCounter : Int → Option Int

/-- Lookup `scriptData.StartProgramCounter[event]`. -/
def ScriptFunction.start (scriptData : ScriptFunction) (event : Int) : Except Fault Int :=
  match scriptData.StartProgramCounter event with
  | some pc => .ok pc
  | none => .error .panic

/-! ### Decoded instructions

Modelled from the spec: the instruction layouts of package `fileio` are not
among the sources.  Each record below holds the fields that script.go reads
from the decoded instruction, converted with `int(...)`. -/

structure ScriptInstrEventExec where
  ThreadNum : Int
  Event : Int
  deriving DecidableEq, Repr

structure ScriptInstrIfElseStart where
  BlockLength : Int
  deriving DecidableEq, Repr

structure ScriptInstrElseStart where
  BlockLength : Int
  deriving DecidableEq, Repr

structure ScriptInstrSleep where
  Count : Int
  deriving DecidableEq, Repr

structure ScriptInstrForStart where
  BlockLength : Int
  Count : Int
  deriving DecidableEq, Repr

structure ScriptInstrSwitch where
  VarId : Int
  BlockLength : Int
  deriving DecidableEq, Repr

structure ScriptInstrSwitchCase where
  BlockLength : Int
  Value : Int
  deriving DecidableEq, Repr

structure ScriptInstrGoSub where
  Event : Int
  deriving DecidableEq, Repr

structure ScriptInstrCheckBitTest where
  BitArray : Int
  Number : Int
  Value : Int
  deriving DecidableEq, Repr

structure ScriptInstrSetBit where
  BitArray : Int
  BitNumber : Int
  Operation : Int
  deriving DecidableEq, Repr

structure ScriptInstrCompare where
  VarId : Int
  Operation : Int
  Value : Int
  deriving DecidableEq, Repr

structure ScriptInstrSave where
  VarId : Int
  Value : Int
  deriving DecidableEq, Repr

structure ScriptInstrCopy where
  DestVarId : Int
  SourceVarId : Int
  deriving DecidableEq, Repr

structure ScriptInstrCalc where
  Operation : Int
  VarId : Int
  Value : Int
  deriving DecidableEq, Repr

structure ScriptInstrCalc2 where
  Operation : Int
  VarId : Int
  SourceVarId : Int
  deriving DecidableEq, Repr

structure ScriptInstrCutChg where
  CameraId : Int
  deriving DecidableEq, Repr

structure ScriptInstrWorkSet where
  Component : Int
  Index : Int
  deriving DecidableEq, Repr

structure ScriptInstrPosSet where
  X : Int
  Y : Int
  Z : Int
  deriving DecidableEq, Repr

structure ScriptInstrMemberSet where
  MemberIndex : Int
  Value : Int
  deriving DecidableEq, Repr

structure ScriptInstrScaIdSet where
  Id : Int
  Flag : Int
  deriving DecidableEq, Repr

/-! ### The game and render collaborators -/

/-- A call forwarded to the game or render collaborator whose effect lies
outside the interpreter; the embedding records it with its integer operands. -/
inductive Call where
  | ChangeCamera (cameraId : Int)
  | SetItemEntity (lineData : List Nat)
  | SetPlayerPosition (x y z : Int)
  | SetPlayerRotation (value : Int)
  | SetObjectRotation (workSetIndex value : Int)
  | RemoveCollisionEntity (id : Int)
  | AddScriptSprite (lineData : List Nat)
  | AddSprite (lineData : List Nat)
  deriving DecidableEq, Repr

/-- Modelled from the spec: packages `game` and `render` are not among the
sources.  The state is what the interpreter reads back (script variables and
the two-dimensional bit array, each as a total store), the number of model
objects the render collaborator holds, and the record of forwarded calls,
latest first. -/
structure GameDef where
  ScriptVariable : Int → Int
  BitArray : Int → Int → Int
  ModelObjectCount : Int
  Calls : List Call

def GameDef.GetScriptVariable (gameDef : GameDef) (id : Int) : Int :=
  gameDef.ScriptVariable id

def GameDef.SetScriptVariable (gameDef : GameDef) (id value : Int) : GameDef :=
  { gameDef with ScriptVariable := fun k => if k = id then value else gameDef.ScriptVariable k }

def GameDef.GetBitArray (gameDef : GameDef) (bitArray number : Int) : Int :=
  gameDef.BitArray bitArray number

def GameDef.SetBitArray (gameDef : GameDef) (bitArray number value : Int) : GameDef :=
  { gameDef with
    BitArray := fun a n => if a = bitArray ∧ n = number then value else gameDef.BitArray a n }

def GameDef.call (gameDef : GameDef) (c : Call) : GameDef :=
  { gameDef with Calls := c :: gameDef.Calls }

/-! ## What the sources import but do not contain -/

/-- Modelled from the spec: the opcode constants, the instruction-size table
and the little-endian decoders of package `fileio`, and the handlers of the
AOT family (defined in a file of package `script` that is not among the
sources), are taken as parameters.  `InstructionSize` is the static table
indexed by opcode; a decoder maps the raw bytes of one instruction to its
fields; `ScriptAot` is given the opcode and the raw bytes and answers the new
game state and the control signal. -/
structure Env where
  OP_EVT_END : Nat
  OP_EVT_EXEC : Nat
  OP_IF_START : Nat
  OP_ELSE_START : Nat
  OP_END_IF : Nat
  OP_SLEEP : Nat
  OP_SLEEPING : Nat
  OP_FOR : Nat
  OP_FOR_END : Nat
  OP_SWITCH : Nat
  OP_CASE : Nat
  OP_DEFAULT : Nat
  OP_END_SWITCH : Nat
  OP_GOTO : Nat
  OP_GOSUB : Nat
  OP_BREAK : Nat
  OP_CHECK : Nat
  OP_SET_BIT : Nat
  OP_COMPARE : Nat
  OP_SAVE : Nat
  OP_COPY : Nat
  OP_CALC : Nat
  OP_CALC2 : Nat
  OP_CUT_CHG : Nat
  OP_AOT_SET : Nat
  OP_OBJ_MODEL_SET : Nat
  OP_WORK_SET : Nat
  OP_POS_SET : Nat
  OP_MEMBER_SET : Nat
  OP_SCA_ID_SET : Nat
  OP_SCE_ESPR_ON : Nat
  OP_DOOR_AOT_SET : Nat
  OP_MEMBER_CMP : Nat
  OP_PLC_MOTION : Nat
  OP_PLC_DEST : Nat
  OP_PLC_NECK : Nat
  OP_SCE_EM_SET : Nat
  OP_AOT_RESET : Nat
  OP_SCE_ESPR_KILL : Nat
  OP_ITEM_AOT_SET : Nat
  OP_SCE_BGM_CONTROL : Nat
  OP_AOT_SET_4P : Nat
  OP_DOOR_AOT_SET_4P : Nat
  OP_ITEM_AOT_SET_4P : Nat
  InstructionSize : Nat → Int
  readEventExec : List Nat → ScriptInstrEventExec
  readIfElseStart : List Nat → ScriptInstrIfElseStart
  readElseStart : List Nat → ScriptInstrElseStart
  readSleep : List Nat → ScriptInstrSleep
  readForStart : List Nat → ScriptInstrForStart
  readSwitch : List Nat → ScriptInstrSwitch
  readSwitchCase : List Nat → ScriptInstrSwitchCase
  readGoSub : List Nat → ScriptInstrGoSub
  readCheckBitTest : List Nat → ScriptInstrCheckBitTest
  readSetBit : List Nat → ScriptInstrSetBit
  readCompare : List Nat → ScriptInstrCompare
  readSave : List Nat → ScriptInstrSave
  readCopy : List Nat → ScriptInstrCopy
  readCalc : List Nat → ScriptInstrCalc
  readCalc2 : List Nat → ScriptInstrCalc2
  readCutChg : List Nat → ScriptInstrCutChg
  readWorkSet : List Nat → ScriptInstrWorkSet
  readPosSet : List Nat → ScriptInstrPosSet
  readMemberSet : List Nat → ScriptInstrMemberSet
  readScaIdSet : List Nat → ScriptInstrScaIdSet
  ScriptAot : Nat → List Nat → GameDef → Except Fault (GameDef × Int)

/-- The opcode byte `lineData[0]`. -/
def opcodeOf (lineData : List Nat) : Except Fault Nat :=
  match lineData with
  | [] => .error .panic
  | opcode :: _ => .ok opcode

def WORKSET_PLAYER : Int := 1

def WORKSET_ENEMY : Int := 3

def WORKSET_OBJECT : Int := 4

/-! ## Handlers of the control-flow group (script.go, lines 216-476) -/

/-- Modelled from the spec: `ScriptThread.IncrementProgramCounter` is not among
the sources; it advances the program counter by the fixed size of the
instruction. -/
def ScriptThread.IncrementProgramCounter (E : Env) (t : ScriptThread) (opcode : Nat) :
    ScriptThread :=
  { t with ProgramCounter := t.ProgramCounter + E.InstructionSize opcode }

def ScriptEvtEnd (t : ScriptThread) : Except Fault (ScriptThread × Int) :=
  if t.SubLevel ≠ 0 then do
    let levelState ← index t.LevelState t.SubLevel
    let ifElseCounter := levelState.IfElseCounter
    let subLevel := t.SubLevel - 1
    let caller ← index t.LevelState subLevel
    pure ({ t with
              SubLevel := subLevel
              ProgramCounter := caller.ReturnAddress
              OverrideProgramCounter := true
              StackIndex := ifElseCounter + 1 }, 1)
  else
    pure ({ t with RunStatus := false }, 2)

def ScriptIfBlockStart (E : Env) (lineData : List Nat) (t : ScriptThread) :
    Except Fault (ScriptThread × Int) := do
  let conditional := E.readIfElseStart lineData
  let opcode ← opcodeOf lineData
  let levelState ← index t.LevelState t.SubLevel
  let levelState1 := { levelState with IfElseCounter := levelState.IfElseCounter + 1 }
  let newPosition := (t.ProgramCounter + E.InstructionSize opcode) + conditional.BlockLength
  let _ ← index levelState1.Stack t.StackIndex
  let levelState2 := { levelState1 with Stack := store levelState1.Stack t.StackIndex newPosition }
  pure ({ t with
            LevelState := store t.LevelState t.SubLevel levelState2
            StackIndex := t.StackIndex + 1 }, 1)

def ScriptElseCheck (E : Env) (lineData : List Nat) (t : ScriptThread) :
    Except Fault (ScriptThread × Int) := do
  let conditional := E.readElseStart lineData
  let levelState ← index t.LevelState t.SubLevel
  let levelState1 := { levelState with IfElseCounter := levelState.IfElseCounter - 1 }
  pure ({ t with
            StackIndex := t.StackIndex - 1
            ProgramCounter := t.ProgramCounter + conditional.BlockLength
            LevelState := store t.LevelState t.SubLevel levelState1
            OverrideProgramCounter := true }, 1)

def ScriptEndIf (t : ScriptThread) : Except Fault (ScriptThread × Int) := do
  let levelState ← index t.LevelState t.SubLevel
  let levelState1 := { levelState with IfElseCounter := levelState.IfElseCounter - 1 }
  pure ({ t with
            StackIndex := t.StackIndex - 1
            LevelState := store t.LevelState t.SubLevel levelState1 }, 1)

def ScriptSleep (E : Env) (lineData : List Nat) (t : ScriptThread) :
    Except Fault (ScriptThread × Int) := do
  let instruction := E.readSleep lineData
  let curLevelState ← index t.LevelState t.SubLevel
  let newLoopLevel := curLevelState.LoopLevel + 1
  let loopState ← index curLevelState.LoopState newLoopLevel
  let curLevelState1 := { curLevelState with
    LoopLevel := newLoopLevel
    LoopState := store curLevelState.LoopState newLoopLevel
      { loopState with Counter := instruction.Count } }
  pure ({ t with
            ProgramCounter := t.ProgramCounter + 1
            OverrideProgramCounter := true
            LevelState := store t.LevelState t.SubLevel curLevelState1 }, 1)

def ScriptSleeping (E : Env) (lineData : List Nat) (t : ScriptThread) :
    Except Fault (ScriptThread × Int) := do
  let opcode ← opcodeOf lineData
  let curLevelState ← index t.LevelState t.SubLevel
  let curLoopState ← index curLevelState.LoopState curLevelState.LoopLevel
  let curLoopState1 := { curLoopState with Counter := curLoopState.Counter - 1 }
  let loopState1 := store curLevelState.LoopState curLevelState.LoopLevel curLoopState1
  if curLoopState1.Counter = 0 then
    pure ({ t with
              ProgramCounter := t.ProgramCounter + E.InstructionSize opcode
              LevelState := store t.LevelState t.SubLevel
                { curLevelState with
                  LoopState := loopState1
                  LoopLevel := curLevelState.LoopLevel - 1 }
              OverrideProgramCounter := true }, 2)
  else
    pure ({ t with
              LevelState := store t.LevelState t.SubLevel
                { curLevelState with LoopState := loopState1 }
              OverrideProgramCounter := true }, 2)

def ScriptForLoopBegin (E : Env) (lineData : List Nat) (t : ScriptThread) :
    Except Fault (ScriptThread × Int) := do
  let instruction := E.readForStart lineData
  let opcode ← opcodeOf lineData
  if instruction.Count ≠ 0 then
    let newProgramCounter := t.ProgramCounter + E.InstructionSize opcode
    let curLevelState ← index t.LevelState t.SubLevel
    let newLoopLevel := curLevelState.LoopLevel + 1
    let _ ← index curLevelState.LoopState newLoopLevel
    let newLoopState : LoopState :=
      { Counter := instruction.Count
        Break := newProgramCounter + instruction.BlockLength
        StackValue := newProgramCounter
        LevelIfCounter := curLevelState.IfElseCounter }
    let curLevelState1 := { curLevelState with
      LoopLevel := newLoopLevel
      LoopState := store curLevelState.LoopState newLoopLevel newLoopState }
    pure ({ t with
              LevelState := store t.LevelState t.SubLevel curLevelState1
              ProgramCounter := newProgramCounter
              OverrideProgramCounter := true }, 1)
  else
    let newProgramCounter :=
      (t.ProgramCounter + E.InstructionSize opcode) + instruction.BlockLength
    pure ({ t with
              ProgramCounter := newProgramCounter
              OverrideProgramCounter := true }, 1)

def ScriptForLoopEnd (E : Env) (lineData : List Nat) (t : ScriptThread) :
    Except Fault (ScriptThread × Int) := do
  let opcode ← opcodeOf lineData
  let curLevelState ← index t.LevelState t.SubLevel
  let curLoopState ← index curLevelState.LoopState curLevelState.LoopLevel
  let curLoopState1 := { curLoopState with Counter := curLoopState.Counter - 1 }
  let loopState1 := store curLevelState.LoopState curLevelState.LoopLevel curLoopState1
  if curLoopState1.Counter ≠ 0 then
    pure ({ t with
              LevelState := store t.LevelState t.SubLevel
                { curLevelState with LoopState := loopState1 }
              ProgramCounter := curLoopState1.StackValue
              OverrideProgramCounter := true }, 1)
  else
    pure ({ t with
              LevelState := store t.LevelState t.SubLevel
                { curLevelState with
                  LoopState := loopState1
                  LoopLevel := curLevelState.LoopLevel - 1 }
              ProgramCounter := t.ProgramCounter + E.InstructionSize opcode
              OverrideProgramCounter := true }, 1)

/-- The scan loop of `ScriptSwitchBegin` (script.go, lines 394-425), started at
`newProgramCounter`.  It answers the program counter the handler stores and
whether the scan ended on `end_switch` (the handler then takes the level
back by one). -/
def switchScan (E : Env) (instructions : Int → List Nat) (gameDef : GameDef)
    (switchConditional : ScriptInstrSwitch) : Nat → Int → Except Fault (Int × Bool)
  | 0, _ => .error .timeout
  | fuel + 1, newProgramCounter => do
    let newLineData := instructions newProgramCounter
    let newOpcode ← opcodeOf newLineData
    if newOpcode = E.OP_CASE then
      let caseInstruction := E.readSwitchCase newLineData
      let switchValue := gameDef.GetScriptVariable switchConditional.VarId
      if caseInstruction.Value = switchValue then
        pure (newProgramCounter + E.InstructionSize newOpcode, false)
      else
        switchScan E instructions gameDef switchConditional fuel
          (newProgramCounter + (E.InstructionSize newOpcode + caseInstruction.BlockLength))
    else if newOpcode = E.OP_DEFAULT then
      pure (newProgramCounter + E.InstructionSize newOpcode, false)
    else if newOpcode = E.OP_END_SWITCH then
      pure (newProgramCounter + E.InstructionSize newOpcode, true)
    else
      .error .fatal

def ScriptSwitchBegin (E : Env) (fuel : Nat) (lineData : List Nat)
    (instructions : Int → List Nat) (gameDef : GameDef) (t : ScriptThread) :
    Except Fault (ScriptThread × Int) := do
  let switchConditional := E.readSwitch lineData
  let opcode ← opcodeOf lineData
  let curLevelState ← index t.LevelState t.SubLevel
  let newLoopLevel := curLevelState.LoopLevel + 1
  let newProgramCounter := t.ProgramCounter + E.InstructionSize opcode
  let loopState ← index curLevelState.LoopState newLoopLevel
  let loopState1 := store curLevelState.LoopState newLoopLevel
    { loopState with
      Break := newProgramCounter + switchConditional.BlockLength
      LevelIfCounter := curLevelState.IfElseCounter }
  let (programCounter, ended) ←
    switchScan E instructions gameDef switchConditional fuel newProgramCounter
  let curLevelState1 := { curLevelState with
    LoopLevel := if ended then newLoopLevel - 1 else newLoopLevel
    LoopState := loopState1 }
  pure ({ t with
            LevelState := store t.LevelState t.SubLevel curLevelState1
            ProgramCounter := programCounter
            OverrideProgramCounter := true }, 1)

def ScriptSwitchEnd (t : ScriptThread) : Except Fault (ScriptThread × Int) := do
  let levelState ← index t.LevelState t.SubLevel
  pure ({ t with
            LevelState := store t.LevelState t.SubLevel
              { levelState with LoopLevel := levelState.LoopLevel - 1 } }, 1)

/-- The body of `ScriptGoto` is commented out in the source; what is left
decodes the instruction and returns 1. -/
def ScriptGoto (t : ScriptThread) : Except Fault (ScriptThread × Int) :=
  pure (t, 1)

def ScriptGoSub (E : Env) (lineData : List Nat) (scriptData : ScriptFunction)
    (t : ScriptThread) : Except Fault (ScriptThread × Int) := do
  let instruction := E.readGoSub lineData
  let opcode ← opcodeOf lineData
  let levelState ← index t.LevelState t.SubLevel
  let levels1 := store t.LevelState t.SubLevel
    { levelState with ReturnAddress := t.ProgramCounter + E.InstructionSize opcode }
  let callee ← index levels1 (t.SubLevel + 1)
  let levels2 := store levels1 (t.SubLevel + 1)
    { callee with IfElseCounter := -1, LoopLevel := -1 }
  let programCounter ← scriptData.start instruction.Event
  pure ({ t with
            LevelState := levels2
            StackIndex := 0
            SubLevel := t.SubLevel + 1
            ProgramCounter := programCounter
            OverrideProgramCounter := true }, 1)

def ScriptBreak (t : ScriptThread) : Except Fault (ScriptThread × Int) := do
  let curLevelState ← index t.LevelState t.SubLevel
  let curLoopState ← index curLevelState.LoopState curLevelState.LoopLevel
  pure ({ t with
            OverrideProgramCounter := true
            ProgramCounter := curLoopState.Break
            LevelState := store t.LevelState t.SubLevel
              { curLevelState with
                IfElseCounter := curLoopState.LevelIfCounter
                LoopLevel := curLevelState.LoopLevel - 1 } }, 1)

def ScriptWorkSet (E : Env) (lineData : List Nat) (t : ScriptThread) :
    Except Fault (ScriptThread × Int) :=
  let instruction := E.readWorkSet lineData
  pure ({ t with
            WorkSetComponent := instruction.Component
            WorkSetIndex := instruction.Index }, 1)

/-! ## Handlers of the state and query group (script.go, lines 478-788) -/

def ScriptCheckBit (E : Env) (lineData : List Nat) (gameDef : GameDef) :
    Except Fault (GameDef × Int) :=
  let bitTest := E.readCheckBitTest lineData
  if gameDef.GetBitArray bitTest.BitArray bitTest.Number = bitTest.Value then
    pure (gameDef, 1)
  else
    pure (gameDef, 0)

def ScriptSetBit (E : Env) (lineData : List Nat) (gameDef : GameDef) :
    Except Fault (GameDef × Int) :=
  let instruction := E.readSetBit lineData
  if instruction.Operation = 0 then
    pure (gameDef.SetBitArray instruction.BitArray instruction.BitNumber 0, 1)
  else if instruction.Operation = 1 then
    pure (gameDef.SetBitArray instruction.BitArray instruction.BitNumber 1, 1)
  else if instruction.Operation = 7 then
    let currentBit := gameDef.GetBitArray instruction.BitArray instruction.BitNumber
    pure (gameDef.SetBitArray instruction.BitArray instruction.BitNumber
      (Int.xor currentBit 1), 1)
  else
    .error .fatal

def ScriptCompare (E : Env) (lineData : List Nat) (gameDef : GameDef) :
    Except Fault (GameDef × Int) :=
  let instruction := E.readCompare lineData
  let variableValue := gameDef.GetScriptVariable instruction.VarId
  let otherValue := instruction.Value
  if instruction.Operation = 0 then
    if variableValue = otherValue then pure (gameDef, 1) else pure (gameDef, 0)
  else if instruction.Operation = 1 then
    if variableValue > otherValue then pure (gameDef, 1) else pure (gameDef, 0)
  else if instruction.Operation = 2 then
    if variableValue ≥ otherValue then pure (gameDef, 1) else pure (gameDef, 0)
  else if instruction.Operation = 3 then
    if variableValue < otherValue then pure (gameDef, 1) else pure (gameDef, 0)
  else if instruction.Operation = 4 then
    if variableValue ≤ otherValue then pure (gameDef, 1) else pure (gameDef, 0)
  else if instruction.Operation = 5 then
    if variableValue ≠ otherValue then pure (gameDef, 1) else pure (gameDef, 0)
  else if instruction.Operation = 6 then
    if Int.land variableValue otherValue ≠ 0 then pure (gameDef, 1) else pure (gameDef, 0)
  else
    pure (gameDef, 1)

def ScriptSave (E : Env) (lineData : List Nat) (gameDef : GameDef) :
    Except Fault (GameDef × Int) :=
  let instruction := E.readSave lineData
  pure (gameDef.SetScriptVariable instruction.VarId instruction.Value, 1)

def ScriptCopy (E : Env) (lineData : List Nat) (gameDef : GameDef) :
    Except Fault (GameDef × Int) :=
  let instruction := E.readCopy lineData
  let sourceValue := gameDef.GetScriptVariable instruction.SourceVarId
  pure (gameDef.SetScriptVariable instruction.DestVarId sourceValue, 1)

/-- A result of 64-bit signed arithmetic: the value of the same residue
modulo 2^64 that lies in the range of Go's `int`. -/
def wrap64 (x : Int) : Int :=
  (x + 2 ^ 63) % 2 ^ 64 - 2 ^ 63

/-- Go's shift by a signed count: a negative count is a run-time panic, a
count of 64 or more shifts every bit out. -/
def shiftCount (n : Int) : Except Fault Nat :=
  if n < 0 then .error .panic else .ok n.toNat

def ScriptVariableCalculator (operation leftValue rightValue : Int) : Except Fault Int :=
  if operation = 0 then pure (wrap64 (leftValue + rightValue))
  else if operation = 1 then pure (wrap64 (leftValue - rightValue))
  else if operation = 2 then pure (wrap64 (leftValue * rightValue))
  else if operation = 3 then
    if rightValue = 0 then .error .panic else pure (wrap64 (Int.tdiv leftValue rightValue))
  else if operation = 4 then
    if rightValue = 0 then .error .panic else pure (Int.tmod leftValue rightValue)
  else if operation = 5 then pure (Int.lor leftValue rightValue)
  else if operation = 6 then pure (Int.land leftValue rightValue)
  else if operation = 7 then pure (Int.xor leftValue rightValue)
  else if operation = 8 then pure (Int.not leftValue)
  else if operation = 9 then do
    let n ← shiftCount (Int.tmod rightValue 32)
    pure (wrap64 (leftValue * 2 ^ n))
  else if operation = 10 then do
    let n ← shiftCount (Int.tmod rightValue 32)
    pure (Int.shiftRight leftValue n)
  else if operation = 11 then do
    let n ← shiftCount (Int.tmod rightValue 32)
    pure (Int.shiftRight leftValue n)
  else
    .error .fatal

def ScriptCalc (E : Env) (lineData : List Nat) (gameDef : GameDef) :
    Except Fault (GameDef × Int) := do
  let instruction := E.readCalc lineData
  let leftValue := gameDef.GetScriptVariable instruction.VarId
  let rightValue := instruction.Value
  let result ← ScriptVariableCalculator instruction.Operation leftValue rightValue
  pure (gameDef.SetScriptVariable instruction.VarId result, 1)

def ScriptCalc2 (E : Env) (lineData : List Nat) (gameDef : GameDef) :
    Except Fault (GameDef × Int) := do
  let instruction := E.readCalc2 lineData
  let leftValue := gameDef.GetScriptVariable instruction.VarId
  let rightValue := gameDef.GetScriptVariable instruction.SourceVarId
  let result ← ScriptVariableCalculator instruction.Operation leftValue rightValue
  pure (gameDef.SetScriptVariable instruction.VarId result, 1)

def ScriptCameraChange (E : Env) (lineData : List Nat) (gameDef : GameDef) :
    Except Fault (GameDef × Int) :=
  let instruction := E.readCutChg lineData
  pure (gameDef.call (.ChangeCamera instruction.CameraId), 1)

def ScriptObjectModelSet (lineData : List Nat) (gameDef : GameDef) :
    Except Fault (GameDef × Int) :=
  pure (gameDef.call (.SetItemEntity lineData), 1)

def ScriptPositionSet (E : Env) (lineData : List Nat) (t : ScriptThread)
    (gameDef : GameDef) : Except Fault (GameDef × Int) :=
  let instruction := E.readPosSet lineData
  if t.WorkSetComponent = WORKSET_PLAYER then
    pure (gameDef.call (.SetPlayerPosition instruction.X instruction.Y instruction.Z), 1)
  else
    pure (gameDef, 1)

/-- The rotation written by `ScriptMemberSet` is `(value / 4096) * 360` in
float32; the embedding records the raw fixed-point value. -/
def ScriptMemberSet (E : Env) (lineData : List Nat) (t : ScriptThread)
    (gameDef : GameDef) : Except Fault (GameDef × Int) :=
  let instruction := E.readMemberSet lineData
  if t.WorkSetComponent = WORKSET_PLAYER then
    if instruction.MemberIndex = 15 then
      pure (gameDef.call (.SetPlayerRotation instruction.Value), 1)
    else
      pure (gameDef, 1)
  else if t.WorkSetComponent = WORKSET_OBJECT then
    if t.WorkSetIndex < 0 ∨ gameDef.ModelObjectCount ≤ t.WorkSetIndex then
      .error .panic
    else if instruction.MemberIndex = 15 then
      pure (gameDef.call (.SetObjectRotation t.WorkSetIndex instruction.Value), 1)
    else
      pure (gameDef, 1)
  else
    pure (gameDef, 1)

def ScriptScaIdSet (E : Env) (lineData : List Nat) (gameDef : GameDef) :
    Except Fault (GameDef × Int) :=
  let instruction := E.readScaIdSet lineData
  if instruction.Flag = 0 then
    pure (gameDef.call (.RemoveCollisionEntity instruction.Id), 1)
  else
    pure (gameDef, 1)

def ScriptSceEsprOn (lineData : List Nat) (gameDef : GameDef) :
    Except Fault (GameDef × Int) :=
  pure ((gameDef.call (.AddScriptSprite lineData)).call (.AddSprite lineData), 1)

/-! ## The engine (script.go, lines 27-214 and 232-257) -/

structure ScriptDef where
  ScriptThreads : List ScriptThread
  deriving DecidableEq, Repr

/-- Pool read `scriptDef.ScriptThreads[i]`. -/
def ScriptDef.thread (scriptDef : ScriptDef) (i : Nat) : Except Fault ScriptThread :=
  match scriptDef.ScriptThreads[i]? with
  | some t => .ok t
  | none => .error .panic

/-- Write through the pointer `scriptDef.ScriptThreads[i]`. -/
def ScriptDef.setThread (scriptDef : ScriptDef) (i : Nat) (t : ScriptThread) : ScriptDef :=
  { scriptDef with ScriptThreads := scriptDef.ScriptThreads.set i t }

def InitScript (scriptDef : ScriptDef) (scriptData : ScriptFunction) (threadNum : Nat)
    (startFunction : Int) : Except Fault ScriptDef := do
  let t ← scriptDef.thread threadNum
  let programCounter ← scriptData.start startFunction
  pure (scriptDef.setThread threadNum
    { t with RunStatus := true, ProgramCounter := programCounter })

/-- The search loop of `ScriptEvtExec` (script.go, lines 244-249), seen from
index `i` on: the index of the first thread that is not running, and 0 (the
initial value of `nextThreadNum`) when every thread runs. -/
def nextAvailable : List ScriptThread → Nat → Nat
  | [], _ => 0
  | t :: rest, i => if t.RunStatus = false then i else nextAvailable rest (i + 1)

def ScriptEvtExec (E : Env) (lineData : List Nat) (scriptData : ScriptFunction)
    (scriptDef : ScriptDef) : Except Fault (ScriptDef × Int) := do
  let instruction := E.readEventExec lineData
  let nextThreadNum : Nat :=
    if 0 ≤ instruction.ThreadNum ∧ instruction.ThreadNum < scriptDef.ScriptThreads.length then
      instruction.ThreadNum.toNat
    else
      nextAvailable scriptDef.ScriptThreads 0
  let t ← scriptDef.thread nextThreadNum
  let programCounter ← scriptData.start instruction.Event
  let levelState ← index t.LevelState 0
  pure (scriptDef.setThread nextThreadNum
    { t with
      RunStatus := true
      ProgramCounter := programCounter
      LevelState := store t.LevelState 0
        { levelState with IfElseCounter := -1, LoopLevel := -1 } }, 1)

/-- Everything a call of the engine can change: the thread pool, the
package-level accumulator `scriptDeltaTime`, and the game and render state. -/
structure Machine where
  scriptDef : ScriptDef
  scriptDeltaTime : ℚ
  gameDef : GameDef

def SCRIPT_FRAMES_PER_SECOND : ℚ := 30

/-- Run a handler that works on the current thread (`scriptThread`). -/
def onThread (cur : Nat) (m : Machine)
    (handler : ScriptThread → Except Fault (ScriptThread × Int)) :
    Except Fault (Machine × Int) := do
  let t ← m.scriptDef.thread cur
  let (t1, returnValue) ← handler t
  pure ({ m with scriptDef := m.scriptDef.setThread cur t1 }, returnValue)

/-- Run a handler that works on the game and render state. -/
def onGame (m : Machine) (handler : GameDef → Except Fault (GameDef × Int)) :
    Except Fault (Machine × Int) := do
  let (gameDef, returnValue) ← handler m.gameDef
  pure ({ m with gameDef := gameDef }, returnValue)

/-- The `switch opcode` of `RunScriptThread` (script.go, lines 94-185). -/
def dispatch (E : Env) (scriptData : ScriptFunction) (fuel : Nat) (cur : Nat)
    (opcode : Nat) (lineData : List Nat) (m : Machine) : Except Fault (Machine × Int) :=
  if opcode = E.OP_EVT_END then onThread cur m ScriptEvtEnd
  else if opcode = E.OP_EVT_EXEC then do
    let (scriptDef, returnValue) ← ScriptEvtExec E lineData scriptData m.scriptDef
    pure ({ m with scriptDef := scriptDef }, returnValue)
  else if opcode = E.OP_IF_START then onThread cur m (ScriptIfBlockStart E lineData)
  else if opcode = E.OP_ELSE_START then onThread cur m (ScriptElseCheck E lineData)
  else if opcode = E.OP_END_IF then onThread cur m ScriptEndIf
  else if opcode = E.OP_SLEEP then onThread cur m (ScriptSleep E lineData)
  else if opcode = E.OP_SLEEPING then onThread cur m (ScriptSleeping E lineData)
  else if opcode = E.OP_FOR then onThread cur m (ScriptForLoopBegin E lineData)
  else if opcode = E.OP_FOR_END then onThread cur m (ScriptForLoopEnd E lineData)
  else if opcode = E.OP_SWITCH then
    onThread cur m (ScriptSwitchBegin E fuel lineData scriptData.Instructions m.gameDef)
  else if opcode = E.OP_CASE then pure (m, 1)
  else if opcode = E.OP_DEFAULT then pure (m, 1)
  else if opcode = E.OP_END_SWITCH then onThread cur m ScriptSwitchEnd
  else if opcode = E.OP_GOTO then onThread cur m ScriptGoto
  else if opcode = E.OP_GOSUB then onThread cur m (ScriptGoSub E lineData scriptData)
  else if opcode = E.OP_BREAK then onThread cur m ScriptBreak
  else if opcode = E.OP_CHECK then onGame m (ScriptCheckBit E lineData)
  else if opcode = E.OP_SET_BIT then onGame m (ScriptSetBit E lineData)
  else if opcode = E.OP_COMPARE then onGame m (ScriptCompare E lineData)
  else if opcode = E.OP_SAVE then onGame m (ScriptSave E lineData)
  else if opcode = E.OP_COPY then onGame m (ScriptCopy E lineData)
  else if opcode = E.OP_CALC then onGame m (ScriptCalc E lineData)
  else if opcode = E.OP_CALC2 then onGame m (ScriptCalc E lineData)
  else if opcode = E.OP_CUT_CHG then onGame m (ScriptCameraChange E lineData)
  else if opcode = E.OP_AOT_SET then onGame m (E.ScriptAot opcode lineData)
  else if opcode = E.OP_OBJ_MODEL_SET then onGame m (ScriptObjectModelSet lineData)
  else if opcode = E.OP_WORK_SET then onThread cur m (ScriptWorkSet E lineData)
  else if opcode = E.OP_POS_SET then do
    let t ← m.scriptDef.thread cur
    onGame m (ScriptPositionSet E lineData t)
  else if opcode = E.OP_MEMBER_SET then do
    let t ← m.scriptDef.thread cur
    onGame m (ScriptMemberSet E lineData t)
  else if opcode = E.OP_SCA_ID_SET then onGame m (ScriptScaIdSet E lineData)
  else if opcode = E.OP_SCE_ESPR_ON then onGame m (ScriptSceEsprOn lineData)
  else if opcode = E.OP_DOOR_AOT_SET then onGame m (E.ScriptAot opcode lineData)
  else if opcode = E.OP_MEMBER_CMP then pure (m, 1)
  else if opcode = E.OP_PLC_MOTION then pure (m, 1)
  else if opcode = E.OP_PLC_DEST then pure (m, 1)
  else if opcode = E.OP_PLC_NECK then pure (m, 1)
  else if opcode = E.OP_SCE_EM_SET then pure (m, 1)
  else if opcode = E.OP_AOT_RESET then onGame m (E.ScriptAot opcode lineData)
  else if opcode = E.OP_SCE_ESPR_KILL then pure (m, 1)
  else if opcode = E.OP_ITEM_AOT_SET then onGame m (E.ScriptAot opcode lineData)
  else if opcode = E.OP_SCE_BGM_CONTROL then pure (m, 1)
  else if opcode = E.OP_AOT_SET_4P then onGame m (E.ScriptAot opcode lineData)
  else if opcode = E.OP_DOOR_AOT_SET_4P then onGame m (E.ScriptAot opcode lineData)
  else if opcode = E.OP_ITEM_AOT_SET_4P then onGame m (E.ScriptAot opcode lineData)
  else pure (m, 1)

/-- One turn of the inner loop of `RunScriptThread` (script.go, lines 88-190):
fetch, clear the override flag, dispatch, advance the program counter unless
the handler set the flag, clear the flag.  The answer carries the control
signal of the handler. -/
def execInstruction (E : Env) (scriptData : ScriptFunction) (fuel : Nat) (cur : Nat)
    (m : Machine) : Except Fault (Machine × Int) := do
  let t ← m.scriptDef.thread cur
  let lineData := scriptData.Instructions t.ProgramCounter
  let opcode ← opcodeOf lineData
  let m0 := { m with
    scriptDef := m.scriptDef.setThread cur { t with OverrideProgramCounter := false } }
  let (m1, returnValue) ← dispatch E scriptData fuel cur opcode lineData m0
  let t1 ← m1.scriptDef.thread cur
  let t2 := if ¬ t1.OverrideProgramCounter then t1.IncrementProgramCounter E opcode else t1
  pure ({ m1 with
            scriptDef := m1.scriptDef.setThread cur
              { t2 with OverrideProgramCounter := false } }, returnValue)

/-- The two nested `for true` loops of `RunScriptThread` (script.go, lines
85-213).  A turn executes one instruction; on the signal 1 the inner loop goes
on, on any other signal the outer loop either ends the pass or pops one block
and goes on. -/
def runLoop (E : Env) (scriptData : ScriptFunction) (cur : Nat) :
    Nat → Machine → Except Fault Machine
  | 0, _ => .error .timeout
  | fuel + 1, m => do
    let (m1, returnValue) ← execInstruction E scriptData fuel cur m
    if returnValue = 1 then
      runLoop E scriptData cur fuel m1
    else if returnValue = 2 then
      pure m1
    else
      let t ← m1.scriptDef.thread cur
      let levelState ← index t.LevelState t.SubLevel
      if levelState.IfElseCounter < 0 then
        pure m1
      else if t.StackIndex = 0 then
        .error .fatal
      else
        let stackIndex := t.StackIndex - 1
        let stackTop ← index levelState.Stack stackIndex
        let t1 := { t with
          StackIndex := stackIndex
          ProgramCounter := stackTop
          LevelState := store t.LevelState t.SubLevel
            { levelState with IfElseCounter := levelState.IfElseCounter - 1 } }
        runLoop E scriptData cur fuel { m1 with scriptDef := m1.scriptDef.setThread cur t1 }

def RunScriptThread (E : Env) (scriptData : ScriptFunction) (fuel : Nat) (cur : Nat)
    (timeElapsedSeconds : ℚ) (m : Machine) : Except Fault Machine :=
  let m1 := { m with scriptDeltaTime := m.scriptDeltaTime + timeElapsedSeconds }
  if m1.scriptDeltaTime > 1 / SCRIPT_FRAMES_PER_SECOND then do
    let m2 := { m1 with scriptDeltaTime := 0 }
    let t ← m2.scriptDef.thread cur
    if t.RunStatus = false then
      pure m2
    else
      runLoop E scriptData cur fuel m2
  else
    pure m1

/-- The loop of `RunScript` (script.go, lines 61-63) over the thread indices
still to be served. -/
def runThreads (E : Env) (scriptData : ScriptFunction) (fuel : Nat)
    (timeElapsedSeconds : ℚ) : List Nat → Machine → Except Fault Machine
  | [], m => pure m
  | i :: rest, m => do
    let m1 ← RunScriptThread E scriptData fuel i timeElapsedSeconds m
    runThreads E scriptData fuel timeElapsedSeconds rest m1

def RunScript (E : Env) (scriptData : ScriptFunction) (fuel : Nat)
    (timeElapsedSeconds : ℚ) (m : Machine) : Except Fault Machine :=
  runThreads E scriptData fuel timeElapsedSeconds
    (List.range m.scriptDef.ScriptThreads.length) m

/-! ## Observations and repeated execution -/

/-- The control state of the current subroutine level,
`scriptThread.LevelState[scriptThread.SubLevel]`. -/
def ScriptThread.level (t : ScriptThread) : Except Fault OpenBiohazard2.LevelState :=
  index t.LevelState t.SubLevel

/-- The loop frame on top, `curLevelState.LoopState[curLevelState.LoopLevel]`. -/
def ScriptThread.frame (t : ScriptThread) : Except Fault LoopState := do
  let levelState ← t.level
  index levelState.LoopState levelState.LoopLevel

/-- The first `k` rounds of a for-loop: each round runs the loop body and then
`ScriptForLoopEnd` on the `for_end` instruction `forEnd`. -/
def forRounds (E : Env) (forEnd : List Nat) (body : ScriptThread → ScriptThread) :
    Nat → ScriptThread → Except Fault (ScriptThread × Int)
  | 0, t => pure (t, 1)
  | k + 1, t => do
    let (t1, _) ← forRounds E forEnd body k t
    ScriptForLoopEnd E forEnd (body t1)

/-- The first `k` executions of `ScriptSleeping` on the instruction `sleeping`,
one per tick; the answer carries the signal of the last one. -/
def sleepingTicks (E : Env) (sleeping : List Nat) :
    Nat → ScriptThread → Except Fault (ScriptThread × Int)
  | 0, t => pure (t, 2)
  | k + 1, t => do
    let (t1, _) ← sleepingTicks E sleeping k t
    ScriptSleeping E sleeping t1

/-! ## A concrete environment

The opcode numbers are those noted in the comments of script.go (0xa
sleeping, 0x21 check to 0x27 calc2, 0x3f to 0x51) completed with the numbering
of the SCD format; sizes and layouts are those of that format.  It serves to
evaluate the definitions on concrete scripts. -/

def byteAt (lineData : List Nat) (i : Nat) : Int :=
  (lineData.getD i 0 : Nat)

def wordAt (lineData : List Nat) (i : Nat) : Int :=
  byteAt lineData i + 256 * byteAt lineData (i + 1)

def sampleSize (opcode : Nat) : Int :=
  if opcode = 0x01 then 2 else if opcode = 0x04 then 4 else if opcode = 0x06 then 4
  else if opcode = 0x07 then 4 else if opcode = 0x08 then 2 else if opcode = 0x09 then 4
  else if opcode = 0x0a then 3 else if opcode = 0x0d then 6 else if opcode = 0x0f then 2
  else if opcode = 0x13 then 4 else if opcode = 0x14 then 6 else if opcode = 0x15 then 2
  else if opcode = 0x16 then 2 else if opcode = 0x17 then 6 else if opcode = 0x18 then 2
  else if opcode = 0x1a then 2 else if opcode = 0x21 then 4 else if opcode = 0x22 then 4
  else if opcode = 0x23 then 6 else if opcode = 0x24 then 4 else if opcode = 0x25 then 3
  else if opcode = 0x26 then 6 else if opcode = 0x27 then 4 else if opcode = 0x29 then 2
  else if opcode = 0x2e then 3 else if opcode = 0x32 then 8 else if opcode = 0x34 then 4
  else if opcode = 0x37 then 4 else 1

def sampleEnv : Env where
  OP_EVT_END := 0x01
  OP_EVT_EXEC := 0x04
  OP_IF_START := 0x06
  OP_ELSE_START := 0x07
  OP_END_IF := 0x08
  OP_SLEEP := 0x09
  OP_SLEEPING := 0x0a
  OP_FOR := 0x0d
  OP_FOR_END := 0x0f
  OP_SWITCH := 0x13
  OP_CASE := 0x14
  OP_DEFAULT := 0x15
  OP_END_SWITCH := 0x16
  OP_GOTO := 0x17
  OP_GOSUB := 0x18
  OP_BREAK := 0x1a
  OP_CHECK := 0x21
  OP_SET_BIT := 0x22
  OP_COMPARE := 0x23
  OP_SAVE := 0x24
  OP_COPY := 0x25
  OP_CALC := 0x26
  OP_CALC2 := 0x27
  OP_CUT_CHG := 0x29
  OP_AOT_SET := 0x2c
  OP_OBJ_MODEL_SET := 0x2d
  OP_WORK_SET := 0x2e
  OP_POS_SET := 0x32
  OP_MEMBER_SET := 0x34
  OP_SCA_ID_SET := 0x37
  OP_SCE_ESPR_ON := 0x3a
  OP_DOOR_AOT_SET := 0x3b
  OP_MEMBER_CMP := 0x3e
  OP_PLC_MOTION := 0x3f
  OP_PLC_DEST := 0x40
  OP_PLC_NECK := 0x41
  OP_SCE_EM_SET := 0x44
  OP_AOT_RESET := 0x46
  OP_SCE_ESPR_KILL := 0x4c
  OP_ITEM_AOT_SET := 0x4e
  OP_SCE_BGM_CONTROL := 0x51
  OP_AOT_SET_4P := 0x67
  OP_DOOR_AOT_SET_4P := 0x68
  OP_ITEM_AOT_SET_4P := 0x69
  InstructionSize := sampleSize
  readEventExec := fun l => { ThreadNum := byteAt l 1, Event := byteAt l 3 }
  readIfElseStart := fun l => { BlockLength := wordAt l 2 }
  readElseStart := fun l => { BlockLength := wordAt l 2 }
  readSleep := fun l => { Count := wordAt l 2 }
  readForStart := fun l => { BlockLength := wordAt l 2, Count := wordAt l 4 }
  readSwitch := fun l => { VarId := byteAt l 1, BlockLength := wordAt l 2 }
  readSwitchCase := fun l => { BlockLength := wordAt l 2, Value := wordAt l 4 }
  readGoSub := fun l => { Event := byteAt l 1 }
  readCheckBitTest := fun l => { BitArray := byteAt l 1, Number := byteAt l 2, Value := byteAt l 3 }
  readSetBit := fun l => { BitArray := byteAt l 1, BitNumber := byteAt l 2, Operation := byteAt l 3 }
  readCompare := fun l => { VarId := byteAt l 2, Operation := byteAt l 3, Value := wordAt l 4 }
  readSave := fun l => { VarId := byteAt l 1, Value := wordAt l 2 }
  readCopy := fun l => { DestVarId := byteAt l 1, SourceVarId := byteAt l 2 }
  readCalc := fun l => { Operation := byteAt l 2, VarId := byteAt l 3, Value := wordAt l 4 }
  readCalc2 := fun l => { Operation := byteAt l 1, VarId := byteAt l 2, SourceVarId := byteAt l 3 }
  readCutChg := fun l => { CameraId := byteAt l 1 }
  readWorkSet := fun l => { Component := byteAt l 1, Index := byteAt l 2 }
  readPosSet := fun l => { X := wordAt l 2, Y := wordAt l 4, Z := wordAt l 6 }
  readMemberSet := fun l => { MemberIndex := byteAt l 1, Value := wordAt l 2 }
  readScaIdSet := fun l => { Id := byteAt l 1, Flag := wordAt l 2 }
  ScriptAot := fun _ _ gameDef => pure (gameDef, 1)

/-- An idle level: no open if-block, no open loop, `stackSize` slots of block
stack and `loopSize` loop frames. -/
def idleLevel (stackSize loopSize : Nat) : LevelState where
  IfElseCounter := -1
  LoopLevel := -1
  ReturnAddress := 0
  Stack := List.replicate stackSize 0
  LoopState := List.replicate loopSize
    { Counter := 0, Break := 0, StackValue := 0, LevelIfCounter := 0 }

/-- A thread with four idle levels of eight stack slots and four loop frames,
at program counter `programCounter`. -/
def sampleThread (runStatus : Bool) (programCounter : Int) : ScriptThread where
  RunStatus := runStatus
  WorkSetComponent := 0
  WorkSetIndex := 0
  ProgramCounter := programCounter
  StackIndex := 0
  SubLevel := 0
  LevelState := List.replicate 4 (idleLevel 8 4)
  OverrideProgramCounter := false

def sampleGame : GameDef where
  ScriptVariable := fun _ => 0
  BitArray := fun _ _ => 0
  ModelObjectCount := 0
  Calls := []

/-- A script given by the list of its instructions with their addresses and
the list of its entry points. -/
def sampleScript (instructions : List (Int × List Nat)) (starts : List Int) :
    ScriptFunction where
  Instructions := fun programCounter => (instructions.lookup programCounter).getD []
  StartProgramCounter := fun event => if event < 0 then none else starts[event.toNat]?

/-- The layout of a chain of case entries: from `address` on there are `k` case
entries whose literal differs from `value`, the block length of each leading
to the next entry; the answer is the address the last one leads to. -/
def skipCases (E : Env) (instructions : Int → List Nat) (value : Int) :
    Nat → Int → Option Int
  | 0, address => some address
  | k + 1, address =>
    match instructions address with
    | [] => none
    | opcode :: _ =>
      if opcode = E.OP_CASE ∧ (E.readSwitchCase (instructions address)).Value ≠ value then
        skipCases E instructions value k
          (address + (E.InstructionSize opcode
            + (E.readSwitchCase (instructions address)).BlockLength))
      else
        none

/-- The switch of the example in the specification, on script variable 5:
the switch instruction at address 0, case 1 at 4 (its body at 10), case 2 at 12
(its body at 18), default at 20 (its body at 22), end_switch at 24. -/
def switchScript : ScriptFunction :=
  sampleScript
    [(0, [0x13, 5, 22, 0]), (4, [0x14, 0, 2, 0, 1, 0]), (10, [0x1a, 0]),
      (12, [0x14, 0, 2, 0, 2, 0]), (18, [0x1a, 0]), (20, [0x15, 0]), (22, [0x1a, 0]),
      (24, [0x16, 0])]
    [0]

/-- The same switch without a default entry: end_switch at 20. -/
def switchScriptNoDefault : ScriptFunction :=
  sampleScript
    [(0, [0x13, 5, 18, 0]), (4, [0x14, 0, 2, 0, 1, 0]), (10, [0x1a, 0]),
      (12, [0x14, 0, 2, 0, 2, 0]), (18, [0x1a, 0]), (20, [0x16, 0])]
    [0]

/-- A game state whose script variable `id` holds `value`. -/
def gameWith (id value : Int) : GameDef :=
  sampleGame.SetScriptVariable id value

/-- A script with a subroutine: entry 0 at address 0, entry 1 at address 100. -/
def gosubScript : ScriptFunction :=
  sampleScript [(0, [0x18, 1]), (2, [0x01, 0]), (100, [0x01, 0])] [0, 100]

/-- A machine with the given pool and accumulated time, and the game state
`sampleGame`. -/
def sampleMachine (threads : List ScriptThread) (time : ℚ) : Machine where
  scriptDef := { ScriptThreads := threads }
  scriptDeltaTime := time
  gameDef := sampleGame

/-- A script whose entry 0 is a single evt_end instruction at address 0. -/
def haltScript : ScriptFunction :=
  sampleScript [(0, [0x01, 0])] [0]

/-- A pool of twenty threads at program counter 0; the threads whose index is
in `running` have RunStatus true. -/
def samplePool (running : List Nat) : List ScriptThread :=
  (List.range 20).map fun i => sampleThread (decide (i ∈ running)) 0

/-- A script with an if-block: if_start at address 0 (block length 6, so the
block ends at 10), inside it a check of bit (0, 0) against 1 at address 4 and
an evt_end at 8; after the block an evt_end at 10. -/
def ifScript : ScriptFunction :=
  sampleScript
    [(0, [0x06, 0, 6, 0]), (4, [0x21, 0, 0, 1]), (8, [0x01, 0]), (10, [0x01, 0])] [0]

/-- A running thread at level 0 inside one open if-block whose resume address
10 is in slot 0 of the block stack (IfElseCounter 0), with the given program
counter and block-stack index.  With index 1 this is the state `ScriptIfBlockStart`
leaves; with index 0 the block stack counts as empty although a block is
open. -/
def openBlockThread (programCounter stackIndex : Int) : ScriptThread :=
  { sampleThread true programCounter with
    StackIndex := stackIndex
    LevelState :=
      { idleLevel 8 4 with IfElseCounter := 0, Stack := 10 :: List.replicate 7 0 }
        :: List.replicate 3 (idleLevel 8 4) }

/-- A script whose entry 0 is a calc2 instruction (operation 0, destination
variable 1, source variable 2) followed by evt_end. -/
def calc2Script : ScriptFunction :=
  sampleScript [(0, [0x27, 0, 1, 2]), (4, [0x01, 0])] [0]

/-- A switch whose chain is broken: the switch instruction at address 0 on
script variable 5, case 1 at 4 (its body at 10), and at 12, where the block
length of the case leads, a save instruction instead of a case entry. -/
def badSwitchScript : ScriptFunction :=
  sampleScript
    [(0, [0x13, 5, 18, 0]), (4, [0x14, 0, 2, 0, 1, 0]), (10, [0x1a, 0]),
      (12, [0x24, 1, 9, 0]), (16, [0x16, 0])]
    [0]

/-- The opcodes that have a case in the `switch opcode` of `RunScriptThread`
(script.go, lines 95-182), in the order of the source. -/
def Env.handlerOpcodes (E : Env) : List Nat :=
  [E.OP_EVT_END, E.OP_EVT_EXEC, E.OP_IF_START, E.OP_ELSE_START, E.OP_END_IF, E.OP_SLEEP,
    E.OP_SLEEPING, E.OP_FOR, E.OP_FOR_END, E.OP_SWITCH, E.OP_CASE, E.OP_DEFAULT,
    E.OP_END_SWITCH, E.OP_GOTO, E.OP_GOSUB, E.OP_BREAK, E.OP_CHECK, E.OP_SET_BIT,
    E.OP_COMPARE, E.OP_SAVE, E.OP_COPY, E.OP_CALC, E.OP_CALC2, E.OP_CUT_CHG, E.OP_AOT_SET,
    E.OP_OBJ_MODEL_SET, E.OP_WORK_SET, E.OP_POS_SET, E.OP_MEMBER_SET, E.OP_SCA_ID_SET,
    E.OP_SCE_ESPR_ON, E.OP_DOOR_AOT_SET, E.OP_MEMBER_CMP, E.OP_PLC_MOTION, E.OP_PLC_DEST,
    E.OP_PLC_NECK, E.OP_SCE_EM_SET, E.OP_AOT_RESET, E.OP_SCE_ESPR_KILL, E.OP_ITEM_AOT_SET,
    E.OP_SCE_BGM_CONTROL, E.OP_AOT_SET_4P, E.OP_DOOR_AOT_SET_4P, E.OP_ITEM_AOT_SET_4P]

/-- A script whose entry 0 starts with the byte 0xff, which is no opcode of
the dispatcher (one byte long in the sample size table), followed by evt_end
at address 1. -/
def unknownOpcodeScript : ScriptFunction :=
  sampleScript [(0, [0xff]), (1, [0x01, 0])] [0]

/-- A script whose entry 0 is a goto instruction (six bytes) followed by
evt_end at address 6. -/
def gotoScript : ScriptFunction :=
  sampleScript [(0, [0x17, 0, 1, 0, 20, 0]), (6, [0x01, 0])] [0]

/-- A script with an if/else: if_start at address 0 (block length 6), an
else instruction at 4 with block length 6, evt_end at 8 and at 10. -/
def elseScript : ScriptFunction :=
  sampleScript [(0, [0x06, 0, 6, 0]), (4, [0x07, 0, 6, 0]), (8, [0x01, 0]), (10, [0x01, 0])] [0]

/-- A script whose entry 0 is a sleep instruction of count 3 at address 0 (four
bytes, the second of which is the sleeping opcode at address 1) followed by
evt_end at address 4. -/
def sleepScript : ScriptFunction :=
  sampleScript [(0, [0x09, 0x0a, 3, 0]), (1, [0x0a, 3, 0]), (4, [0x01, 0])] [0]

/-- The program counter and the counter of the top loop frame of thread
`curScriptThreadNum`, read from the result of a dispatch pass. -/
def sleepState (curScriptThreadNum : Nat) (result : Except Fault Machine) :
    Except Fault (Int × Int) := do
  let m ← result
  let t ← m.scriptDef.thread curScriptThreadNum
  let f ← t.frame
  pure (t.ProgramCounter, f.Counter)

/-- The block-stack relation of the if family: the current level exists and
`StackIndex` is one more than its `IfElseCounter`. -/
def blockStackInvariant (t : ScriptThread) : Prop :=
  t.level.map (fun l => l.IfElseCounter + 1) = .ok t.StackIndex

instance (t : ScriptThread) : Decidable (blockStackInvariant t) :=
  inferInstanceAs (Decidable (_ = _))

/-- The thread after `k` if_start instructions `opcode :: rest` in a row, each
run by `ScriptIfBlockStart` and followed by the dispatcher's advance of the
program counter. -/
def openIfBlocks (E : Env) (opcode : Nat) (rest : List Nat) :
    Nat → ScriptThread → Except Fault ScriptThread
  | 0, t => pure t
  | k + 1, t => do
    let (t1, _) ← ScriptIfBlockStart E (opcode :: rest) t
    openIfBlocks E opcode rest k (t1.IncrementProgramCounter E opcode)

/-- One loop left by break from inside `k` if-blocks: `ScriptForLoopBegin` on
the instruction `forStart`, then `k` if-blocks opened in the loop body, then
`ScriptBreak`. -/
def breakRound (E : Env) (forStart : List Nat) (opcode : Nat) (rest : List Nat) (k : Nat)
    (t : ScriptThread) : Except Fault ScriptThread := do
  let (t1, _) ← ScriptForLoopBegin E forStart t
  let t2 ← openIfBlocks E opcode rest k t1
  let (t3, _) ← ScriptBreak t2
  pure t3

/-- The thread after `j` such loops, one after the other. -/
def breakRounds (E : Env) (forStart : List Nat) (opcode : Nat) (rest : List Nat) (k : Nat) :
    Nat → ScriptThread → Except Fault ScriptThread
  | 0, t => pure t
  | j + 1, t => do
    let t1 ← breakRounds E forStart opcode rest k j t
    breakRound E forStart opcode rest k t1

/-- A pool of twenty running threads whose thread 0 is inside a subroutine
with two if-blocks open: program counter 50, SubLevel 1, StackIndex 2. -/
def busyPool : List ScriptThread :=
  (samplePool (List.range 20)).set 0 { sampleThread true 50 with SubLevel := 1, StackIndex := 2 }

/-! ## Slices -/


theorem index_ok_iff {α : Type} (xs : List α) (i : Int) (x : α) :
    index xs i = .ok x ↔ 0 ≤ i ∧ xs[i.toNat]? = some x := by
  unfold index
  split
  · constructor
    · intro h; cases h
    · intro h; omega
  · rename_i hi
    have h0 : 0 ≤ i := by omega
    cases hx : xs[i.toNat]? with
    | none => simp
    | some y => simp [h0]

theorem index_store_same {α : Type} (xs : List α) (i : Int) (x y : α)
    (h : index xs i = .ok x) : index (store xs i y) i = .ok y := by
  rw [index_ok_iff] at h ⊢
  refine ⟨h.1, ?_⟩
  have hlt : i.toNat < xs.length := by
    have := h.2
    rw [List.getElem?_eq_some] at this
    exact this.1
  simp [store, List.getElem?_set, hlt]

theorem ScriptForLoopBegin_enter (E : Env) (opcode : Nat) (rest : List Nat)
    (t : ScriptThread) (l : LevelState) (f : LoopState)
    (hcount : (E.readForStart (opcode :: rest)).Count ≠ 0)
    (hl : t.level = .ok l) (hf : index l.LoopState (l.LoopLevel + 1) = .ok f) :
    ScriptForLoopBegin E (opcode :: rest) t =
      .ok ({ t with
              LevelState := store t.LevelState t.SubLevel
                { l with
                  LoopLevel := l.LoopLevel + 1
                  LoopState := store l.LoopState (l.LoopLevel + 1)
                    { Counter := (E.readForStart (opcode :: rest)).Count
                      Break := t.ProgramCounter + E.InstructionSize opcode
                        + (E.readForStart (opcode :: rest)).BlockLength
                      StackValue := t.ProgramCounter + E.InstructionSize opcode
                      LevelIfCounter := l.IfElseCounter } }
              ProgramCounter := t.ProgramCounter + E.InstructionSize opcode
              OverrideProgramCounter := true }, 1) := by
  unfold ScriptThread.level at hl
  simp [ScriptForLoopBegin, opcodeOf, hcount, bind, Except.bind, pure, Except.pure, hl, hf]

theorem ScriptForLoopEnd_again (E : Env) (opcode : Nat) (rest : List Nat)
    (u : ScriptThread) (l : LevelState) (f : LoopState)
    (hl : u.level = .ok l) (hf : index l.LoopState l.LoopLevel = .ok f)
    (hc : f.Counter - 1 ≠ 0) :
    ScriptForLoopEnd E (opcode :: rest) u =
      .ok ({ u with
              LevelState := store u.LevelState u.SubLevel
                { l with
                  LoopState := store l.LoopState l.LoopLevel
                    { f with Counter := f.Counter - 1 } }
              ProgramCounter := f.StackValue
              OverrideProgramCounter := true }, 1) := by
  unfold ScriptThread.level at hl
  simp [ScriptForLoopEnd, opcodeOf, hc, bind, Except.bind, pure, Except.pure, hl, hf]

theorem ScriptForLoopEnd_exit (E : Env) (opcode : Nat) (rest : List Nat)
    (u : ScriptThread) (l : LevelState) (f : LoopState)
    (hl : u.level = .ok l) (hf : index l.LoopState l.LoopLevel = .ok f)
    (hc : f.Counter - 1 = 0) :
    ScriptForLoopEnd E (opcode :: rest) u =
      .ok ({ u with
              LevelState := store u.LevelState u.SubLevel
                { l with
                  LoopState := store l.LoopState l.LoopLevel
                    { f with Counter := f.Counter - 1 }
                  LoopLevel := l.LoopLevel - 1 }
              ProgramCounter := u.ProgramCounter + E.InstructionSize opcode
              OverrideProgramCounter := true }, 1) := by
  unfold ScriptThread.level at hl
  simp [ScriptForLoopEnd, opcodeOf, hc, bind, Except.bind, pure, Except.pure, hl, hf]


theorem level_store (u : ScriptThread) (l l1 : LevelState) (pc : Int) (b : Bool)
    (hl : u.level = .ok l) :
    ScriptThread.level { u with
      LevelState := store u.LevelState u.SubLevel l1
      ProgramCounter := pc
      OverrideProgramCounter := b } = .ok l1 := by
  unfold ScriptThread.level at hl ⊢
  exact index_store_same _ _ _ _ hl

theorem ScriptForLoopEnd_again_spec (E : Env) (opcode : Nat) (rest : List Nat)
    (u : ScriptThread) (l : LevelState) (f : LoopState)
    (hl : u.level = .ok l) (hf : index l.LoopState l.LoopLevel = .ok f)
    (hc : f.Counter - 1 ≠ 0) :
    ∃ u1 l1, ScriptForLoopEnd E (opcode :: rest) u = .ok (u1, 1) ∧
      u1.ProgramCounter = f.StackValue ∧ u1.level = .ok l1 ∧
      l1.LoopLevel = l.LoopLevel ∧
      index l1.LoopState l1.LoopLevel = .ok { f with Counter := f.Counter - 1 } :=
  ⟨_, _, ScriptForLoopEnd_again E opcode rest u l f hl hf hc, rfl,
    level_store _ _ _ _ _ hl, rfl, index_store_same _ _ _ _ hf⟩

theorem ScriptForLoopEnd_exit_spec (E : Env) (opcode : Nat) (rest : List Nat)
    (u : ScriptThread) (l : LevelState) (f : LoopState)
    (hl : u.level = .ok l) (hf : index l.LoopState l.LoopLevel = .ok f)
    (hc : f.Counter - 1 = 0) :
    ∃ u1 l1, ScriptForLoopEnd E (opcode :: rest) u = .ok (u1, 1) ∧
      u1.ProgramCounter = u.ProgramCounter + E.InstructionSize opcode ∧
      u1.level = .ok l1 ∧ l1.LoopLevel = l.LoopLevel - 1 :=
  ⟨_, _, ScriptForLoopEnd_exit E opcode rest u l f hl hf hc, rfl,
    level_store _ _ _ _ _ hl, rfl⟩

theorem forRounds_invariant (E : Env) (opEnd : Nat) (restEnd : List Nat)
    (body : ScriptThread → ScriptThread) (t0 : ScriptThread) (l0 : LevelState)
    (f0 : LoopState) (n : Nat) (start q : Int)
    (hl0 : t0.level = .ok l0) (hf0 : index l0.LoopState l0.LoopLevel = .ok f0)
    (hc0 : f0.Counter = n) (hs0 : f0.StackValue = start) (hp0 : t0.ProgramCounter = start)
    (hbody : ∀ u lu, u.level = .ok lu → u.ProgramCounter = start →
      (body u).ProgramCounter = q ∧
      ∃ lb, (body u).level = .ok lb ∧ lb.LoopLevel = lu.LoopLevel ∧
        lb.LoopState = lu.LoopState) :
    ∀ k, k < n → ∃ tk lk fk, forRounds E (opEnd :: restEnd) body k t0 = .ok (tk, 1) ∧
      tk.ProgramCounter = start ∧ tk.level = .ok lk ∧ lk.LoopLevel = l0.LoopLevel ∧
      index lk.LoopState lk.LoopLevel = .ok fk ∧ fk.Counter = (n : Int) - k ∧
      fk.StackValue = start := by
  intro k
  induction k with
  | zero =>
    intro _
    exact ⟨t0, l0, f0, rfl, hp0, hl0, rfl, hf0, by simp [hc0], hs0⟩
  | succ k ih =>
    intro hk
    obtain ⟨tk, lk, fk, hrun, hpc, hlk, hll, hfk, hck, hsk⟩ := ih (by omega)
    obtain ⟨-, lb, hlb, hbl, hbs⟩ := hbody tk lk hlk hpc
    have hfb : index lb.LoopState lb.LoopLevel = .ok fk := by rw [hbl, hbs]; exact hfk
    have hne : fk.Counter - 1 ≠ 0 := by rw [hck]; omega
    obtain ⟨u1, l1, hstep, hpc1, hl1, hll1, hf1⟩ :=
      ScriptForLoopEnd_again_spec E opEnd restEnd (body tk) lb fk hlb hfb hne
    refine ⟨u1, l1, { fk with Counter := fk.Counter - 1 }, ?_, ?_, hl1, ?_, hf1, ?_, hsk⟩
    · simp [forRounds, hrun, bind, Except.bind, hstep]
    · rw [hpc1, hsk]
    · rw [hll1, hbl, hll]
    · simp [hck]; ring


/-- C3. For-loop iteration count.  A for instruction with count `n >= 1` enters
the body at the address after the instruction; with a body that leaves the loop
state of the level alone and ends at the `for_end` instruction at `q`, each of
the rounds 1 to n-1 ends with `ScriptForLoopEnd` jumping back to the start of
the body with the loop still open, and round n falls through to the address
after `for_end` with `LoopLevel` back at its value before the for instruction;
every execution returns 1. -/
theorem for_loop_runs_body_count_times (E : Env) (opFor : Nat) (restFor : List Nat)
    (opEnd : Nat) (restEnd : List Nat) (body : ScriptThread → ScriptThread)
    (t : ScriptThread) (l : LevelState) (f : LoopState) (n : Nat) (q : Int)
    (hn : 1 ≤ n)
    (hcount : (E.readForStart (opFor :: restFor)).Count = n)
    (hl : t.level = .ok l)
    (hf : index l.LoopState (l.LoopLevel + 1) = .ok f)
    (hbody : ∀ u lu, u.level = .ok lu →
      u.ProgramCounter = t.ProgramCounter + E.InstructionSize opFor →
      (body u).ProgramCounter = q ∧
      ∃ lb, (body u).level = .ok lb ∧ lb.LoopLevel = lu.LoopLevel ∧
        lb.LoopState = lu.LoopState) :
    ∃ t0, ScriptForLoopBegin E (opFor :: restFor) t = .ok (t0, 1) ∧
      t0.ProgramCounter = t.ProgramCounter + E.InstructionSize opFor ∧
      (∀ k, 1 ≤ k → k < n → ∃ tk lk,
        forRounds E (opEnd :: restEnd) body k t0 = .ok (tk, 1) ∧
        tk.ProgramCounter = t.ProgramCounter + E.InstructionSize opFor ∧
        tk.level = .ok lk ∧ lk.LoopLevel = l.LoopLevel + 1) ∧
      ∃ tn ln, forRounds E (opEnd :: restEnd) body n t0 = .ok (tn, 1) ∧
        tn.ProgramCounter = q + E.InstructionSize opEnd ∧
        tn.level = .ok ln ∧ ln.LoopLevel = l.LoopLevel := by
  have hne : (E.readForStart (opFor :: restFor)).Count ≠ 0 := by rw [hcount]; omega
  have hbegin := ScriptForLoopBegin_enter E opFor restFor t l f hne hl hf
  refine ⟨_, hbegin, rfl, ?_⟩
  have hl0 := level_store t l
    { l with
      LoopLevel := l.LoopLevel + 1
      LoopState := store l.LoopState (l.LoopLevel + 1)
        { Counter := (E.readForStart (opFor :: restFor)).Count
          Break := t.ProgramCounter + E.InstructionSize opFor
            + (E.readForStart (opFor :: restFor)).BlockLength
          StackValue := t.ProgramCounter + E.InstructionSize opFor
          LevelIfCounter := l.IfElseCounter } }
    (t.ProgramCounter + E.InstructionSize opFor) true hl
  have hinv := forRounds_invariant E opEnd restEnd body _ _ _ n
    (t.ProgramCounter + E.InstructionSize opFor) q hl0
    (index_store_same _ _ _ _ hf) hcount rfl rfl hbody
  constructor
  · intro k _ hk
    obtain ⟨tk, lk, fk, hrun, hpc, hlk, hll, -, -, -⟩ := hinv k hk
    exact ⟨tk, lk, hrun, hpc, hlk, hll⟩
  · obtain ⟨m, rfl⟩ : ∃ m, n = m + 1 := ⟨n - 1, by omega⟩
    obtain ⟨tk, lk, fk, hrun, hpc, hlk, hll, hfk, hck, -⟩ := hinv m (by omega)
    obtain ⟨hq, lb, hlb, hbl, hbs⟩ := hbody tk lk hlk hpc
    have hfb : index lb.LoopState lb.LoopLevel = .ok fk := by rw [hbl, hbs]; exact hfk
    have hz : fk.Counter - 1 = 0 := by rw [hck]; push_cast; ring
    obtain ⟨u1, l1, hstep, hpc1, hl1, hll1⟩ :=
      ScriptForLoopEnd_exit_spec E opEnd restEnd (body tk) lb fk hlb hfb hz
    refine ⟨u1, l1, ?_, ?_, hl1, ?_⟩
    · simp [forRounds, hrun, bind, Except.bind, hstep]
    · rw [hpc1, hq]
    · rw [hll1, hbl, hll]; simp


/-- C4. For-loop with count 0: `ScriptForLoopBegin` sets the program counter to
p + InstructionSize[for] + L, sets the override flag, returns 1 and changes
nothing else in the thread (no level and no loop frame). -/
theorem ScriptForLoopBegin_count_zero (E : Env) (opcode : Nat) (rest : List Nat)
    (t : ScriptThread) (hcount : (E.readForStart (opcode :: rest)).Count = 0) :
    ScriptForLoopBegin E (opcode :: rest) t =
      .ok ({ t with
              ProgramCounter := t.ProgramCounter + E.InstructionSize opcode
                + (E.readForStart (opcode :: rest)).BlockLength
              OverrideProgramCounter := true }, 1) := by
  simp [ScriptForLoopBegin, opcodeOf, hcount, bind, Except.bind, pure, Except.pure]

theorem ScriptForLoopBegin_count_zero_witness :
    (sampleEnv.readForStart [0x0d, 0, 8, 0, 0, 0]).Count = 0 ∧
    ScriptForLoopBegin sampleEnv [0x0d, 0, 8, 0, 0, 0] (sampleThread true 10) =
      .ok ({ sampleThread true 10 with
              ProgramCounter := (sampleThread true 10).ProgramCounter
                + sampleEnv.InstructionSize 0x0d
                + (sampleEnv.readForStart [0x0d, 0, 8, 0, 0, 0]).BlockLength
              OverrideProgramCounter := true }, 1) :=
  ⟨by decide, ScriptForLoopBegin_count_zero sampleEnv 0x0d [0, 8, 0, 0, 0]
    (sampleThread true 10) (by decide)⟩


theorem for_loop_runs_body_count_times_witness :
    (1 ≤ 3) ∧ (sampleEnv.readForStart [0x0d, 0, 8, 0, 3, 0]).Count = (3 : Nat) ∧
    (sampleThread true 10).level = .ok (idleLevel 8 4) ∧
    ∃ t0, ScriptForLoopBegin sampleEnv (0x0d :: [0, 8, 0, 3, 0]) (sampleThread true 10)
        = .ok (t0, 1) ∧
      t0.ProgramCounter = (sampleThread true 10).ProgramCounter + sampleEnv.InstructionSize 0x0d ∧
      (∀ k, 1 ≤ k → k < 3 → ∃ tk lk,
        forRounds sampleEnv (0x0f :: [0]) (fun u => { u with ProgramCounter := 22 }) k t0
          = .ok (tk, 1) ∧
        tk.ProgramCounter
          = (sampleThread true 10).ProgramCounter + sampleEnv.InstructionSize 0x0d ∧
        tk.level = .ok lk ∧ lk.LoopLevel = (idleLevel 8 4).LoopLevel + 1) ∧
      ∃ tn ln, forRounds sampleEnv (0x0f :: [0]) (fun u => { u with ProgramCounter := 22 }) 3 t0
          = .ok (tn, 1) ∧
        tn.ProgramCounter = 22 + sampleEnv.InstructionSize 0x0f ∧
        tn.level = .ok ln ∧ ln.LoopLevel = (idleLevel 8 4).LoopLevel :=
  ⟨by decide, by decide, by decide,
    for_loop_runs_body_count_times sampleEnv 0x0d [0, 8, 0, 3, 0] 0x0f [0]
      (fun u => { u with ProgramCounter := 22 }) (sampleThread true 10)
      (idleLevel 8 4) ⟨0, 0, 0, 0⟩ 3 22 (by decide) (by decide) (by decide) (by decide)
      (fun _ lu hu _ => ⟨rfl, lu, hu, rfl, rfl⟩)⟩

theorem index_store_other {α : Type} (xs : List α) (i j : Int) (y : α)
    (hi : 0 ≤ i) (hj : 0 ≤ j) (hij : i ≠ j) : index (store xs i y) j = index xs j := by
  have hne : i.toNat ≠ j.toNat := by omega
  simp [index, store, List.getElem?_set_ne hne]

theorem index_nonneg {α : Type} (xs : List α) (i : Int) (x : α)
    (h : index xs i = .ok x) : 0 ≤ i :=
  ((index_ok_iff xs i x).1 h).1

theorem ScriptGoSub_spec (E : Env) (opcode : Nat) (rest : List Nat)
    (scriptData : ScriptFunction) (t : ScriptThread) (l c : LevelState) (pc : Int)
    (hl : t.level = .ok l) (hc : index t.LevelState (t.SubLevel + 1) = .ok c)
    (hpc : scriptData.start (E.readGoSub (opcode :: rest)).Event = .ok pc) :
    ScriptGoSub E (opcode :: rest) scriptData t =
      .ok ({ t with
              LevelState := store (store t.LevelState t.SubLevel
                  { l with ReturnAddress := t.ProgramCounter + E.InstructionSize opcode })
                (t.SubLevel + 1) { c with IfElseCounter := -1, LoopLevel := -1 }
              StackIndex := 0
              SubLevel := t.SubLevel + 1
              ProgramCounter := pc
              OverrideProgramCounter := true }, 1) := by
  unfold ScriptThread.level at hl
  have h0 := index_nonneg _ _ _ hl
  have hc1 : index (store t.LevelState t.SubLevel
      { l with ReturnAddress := t.ProgramCounter + E.InstructionSize opcode })
      (t.SubLevel + 1) = .ok c := by
    rw [index_store_other _ _ _ _ h0 (by omega) (by omega)]; exact hc
  simp [ScriptGoSub, opcodeOf, bind, Except.bind, pure, Except.pure, hl, hc1, hpc]

theorem ScriptEvtEnd_return (t2 : ScriptThread) (c2 l2 : LevelState)
    (hsub : t2.SubLevel ≠ 0)
    (hc2 : index t2.LevelState t2.SubLevel = .ok c2)
    (hl2 : index t2.LevelState (t2.SubLevel - 1) = .ok l2) :
    ScriptEvtEnd t2 =
      .ok ({ t2 with
              SubLevel := t2.SubLevel - 1
              ProgramCounter := l2.ReturnAddress
              OverrideProgramCounter := true
              StackIndex := c2.IfElseCounter + 1 }, 1) := by
  simp [ScriptEvtEnd, hsub, bind, Except.bind, pure, Except.pure, hc2, hl2]

/-- C8. Gosub and return.  `ScriptGoSub` at level s (with level s+1 present and
an existing entry point) saves p + InstructionSize[gosub] in level s and goes
to level s+1; `ScriptEvtEnd` in any later state that is at level s+1 and still
holds that saved address in level s (the state right after the gosub is one)
sets the program counter to exactly p + InstructionSize[gosub] with the
override flag set, takes SubLevel back to s, returns 1 and leaves RunStatus
as it is. -/
theorem gosub_evt_end_round_trip (E : Env) (opcode : Nat) (rest : List Nat)
    (scriptData : ScriptFunction) (t : ScriptThread) (l c : LevelState) (pc : Int)
    (hl : t.level = .ok l) (hc : index t.LevelState (t.SubLevel + 1) = .ok c)
    (hpc : scriptData.start (E.readGoSub (opcode :: rest)).Event = .ok pc) :
    ∃ t1 l1 c1, ScriptGoSub E (opcode :: rest) scriptData t = .ok (t1, 1) ∧
      t1.SubLevel = t.SubLevel + 1 ∧ t1.ProgramCounter = pc ∧
      t1.RunStatus = t.RunStatus ∧
      index t1.LevelState t.SubLevel = .ok l1 ∧
      l1.ReturnAddress = t.ProgramCounter + E.InstructionSize opcode ∧
      index t1.LevelState (t.SubLevel + 1) = .ok c1 ∧
      ∀ t2 l2 c2, t2.SubLevel = t.SubLevel + 1 →
        index t2.LevelState t.SubLevel = .ok l2 →
        l2.ReturnAddress = l1.ReturnAddress →
        index t2.LevelState (t.SubLevel + 1) = .ok c2 →
        ∃ t3, ScriptEvtEnd t2 = .ok (t3, 1) ∧
          t3.ProgramCounter = t.ProgramCounter + E.InstructionSize opcode ∧
          t3.OverrideProgramCounter = true ∧
          t3.SubLevel = t.SubLevel ∧ t3.SubLevel = t2.SubLevel - 1 ∧
          t3.RunStatus = t2.RunStatus := by
  have hl0 := hl
  unfold ScriptThread.level at hl0
  have h0 := index_nonneg _ _ _ hl0
  refine ⟨_, { l with ReturnAddress := t.ProgramCounter + E.InstructionSize opcode },
    { c with IfElseCounter := -1, LoopLevel := -1 },
    ScriptGoSub_spec E opcode rest scriptData t l c pc hl hc hpc, rfl, rfl, rfl, ?_, rfl, ?_, ?_⟩
  · show index (store (store _ _ _) _ _) _ = _
    rw [index_store_other _ _ _ _ (by omega) h0 (by omega)]
    exact index_store_same _ _ _ _ hl0
  · show index (store (store _ _ _) _ _) _ = _
    apply index_store_same _ _ c
    rw [index_store_other _ _ _ _ h0 (by omega) (by omega)]; exact hc
  · intro t2 l2 c2 hs hl2 hra hc2
    have hsub : t2.SubLevel ≠ 0 := by omega
    have hc2' : index t2.LevelState t2.SubLevel = .ok c2 := by rw [hs]; exact hc2
    have hl2' : index t2.LevelState (t2.SubLevel - 1) = .ok l2 := by
      rw [hs]; simpa using hl2
    refine ⟨_, ScriptEvtEnd_return t2 c2 l2 hsub hc2' hl2', ?_, rfl, ?_, rfl, rfl⟩
    · show l2.ReturnAddress = _
      rw [hra]
    · show t2.SubLevel - 1 = _
      omega


theorem ScriptSleep_spec (E : Env) (sleep : List Nat) (t : ScriptThread)
    (l : LevelState) (f : LoopState)
    (hl : t.level = .ok l) (hf : index l.LoopState (l.LoopLevel + 1) = .ok f) :
    ∃ t0 l0, ScriptSleep E sleep t = .ok (t0, 1) ∧
      t0.ProgramCounter = t.ProgramCounter + 1 ∧ t0.OverrideProgramCounter = true ∧
      t0.level = .ok l0 ∧ l0.LoopLevel = l.LoopLevel + 1 ∧
      index l0.LoopState l0.LoopLevel = .ok { f with Counter := (E.readSleep sleep).Count } := by
  have hl1 := hl
  unfold ScriptThread.level at hl1
  refine ⟨_, _, ?_, ?_, ?_, level_store t l
    { l with
      LoopLevel := l.LoopLevel + 1
      LoopState := store l.LoopState (l.LoopLevel + 1)
        { f with Counter := (E.readSleep sleep).Count } }
    (t.ProgramCounter + 1) true hl, rfl, index_store_same _ _ _ _ hf⟩
  · simp [ScriptSleep, bind, Except.bind, pure, Except.pure, hl1, hf]
  · rfl
  · rfl

theorem ScriptSleeping_stall_spec (E : Env) (opcode : Nat) (rest : List Nat)
    (u : ScriptThread) (l : LevelState) (f : LoopState)
    (hl : u.level = .ok l) (hf : index l.LoopState l.LoopLevel = .ok f)
    (hc : f.Counter - 1 ≠ 0) :
    ∃ u1 l1, ScriptSleeping E (opcode :: rest) u = .ok (u1, 2) ∧
      u1.ProgramCounter = u.ProgramCounter ∧ u1.level = .ok l1 ∧
      l1.LoopLevel = l.LoopLevel ∧
      index l1.LoopState l1.LoopLevel = .ok { f with Counter := f.Counter - 1 } := by
  have hl1 := hl
  unfold ScriptThread.level at hl1
  refine ⟨_, _, ?_, ?_, level_store u l
    { l with LoopState := store l.LoopState l.LoopLevel { f with Counter := f.Counter - 1 } }
    u.ProgramCounter true hl, rfl, index_store_same _ _ _ _ hf⟩
  · simp [ScriptSleeping, opcodeOf, bind, Except.bind, pure, Except.pure, hl1, hf, hc]
  · rfl

theorem ScriptSleeping_wake_spec (E : Env) (opcode : Nat) (rest : List Nat)
    (u : ScriptThread) (l : LevelState) (f : LoopState)
    (hl : u.level = .ok l) (hf : index l.LoopState l.LoopLevel = .ok f)
    (hc : f.Counter - 1 = 0) :
    ∃ u1 l1, ScriptSleeping E (opcode :: rest) u = .ok (u1, 2) ∧
      u1.ProgramCounter = u.ProgramCounter + E.InstructionSize opcode ∧
      u1.level = .ok l1 ∧ l1.LoopLevel = l.LoopLevel - 1 ∧
      index l1.LoopState l.LoopLevel = .ok { f with Counter := 0 } := by
  have hl1 := hl
  unfold ScriptThread.level at hl1
  refine ⟨_, _, ?_, ?_, level_store u l
    { l with
      LoopState := store l.LoopState l.LoopLevel { f with Counter := f.Counter - 1 }
      LoopLevel := l.LoopLevel - 1 }
    (u.ProgramCounter + E.InstructionSize opcode) true hl, rfl, ?_⟩
  · simp [ScriptSleeping, opcodeOf, bind, Except.bind, pure, Except.pure, hl1, hf, hc]
  · rfl
  · rw [hc]; exact index_store_same _ _ _ _ hf

theorem sleepingTicks_invariant (E : Env) (opcode : Nat) (rest : List Nat)
    (t0 : ScriptThread) (l0 : LevelState) (f0 : LoopState) (n : Nat)
    (hl0 : t0.level = .ok l0) (hf0 : index l0.LoopState l0.LoopLevel = .ok f0)
    (hc0 : f0.Counter = n) :
    ∀ k, k < n → ∃ tk lk fk, sleepingTicks E (opcode :: rest) k t0 = .ok (tk, 2) ∧
      tk.ProgramCounter = t0.ProgramCounter ∧ tk.level = .ok lk ∧
      lk.LoopLevel = l0.LoopLevel ∧ index lk.LoopState lk.LoopLevel = .ok fk ∧
      fk.Counter = (n : Int) - k := by
  intro k
  induction k with
  | zero =>
    intro _
    exact ⟨t0, l0, f0, rfl, rfl, hl0, rfl, hf0, by simp [hc0]⟩
  | succ k ih =>
    intro hk
    obtain ⟨tk, lk, fk, hrun, hpc, hlk, hll, hfk, hck⟩ := ih (by omega)
    have hne : fk.Counter - 1 ≠ 0 := by rw [hck]; omega
    obtain ⟨u1, l1, hstep, hpc1, hl1, hll1, hf1⟩ :=
      ScriptSleeping_stall_spec E opcode rest tk lk fk hlk hfk hne
    refine ⟨u1, l1, { fk with Counter := fk.Counter - 1 }, ?_, ?_, hl1, ?_, hf1, ?_⟩
    · simp [sleepingTicks, hrun, bind, Except.bind, hstep]
    · rw [hpc1, hpc]
    · rw [hll1, hll]
    · simp [hck]; ring

/-- C7. Sleep countdown.  After `ScriptSleep` with count `n >= 1` has pushed its
frame and moved the program counter one byte on (to the sleeping opcode), each
of the first n-1 executions of `ScriptSleeping` leaves the program counter
there and the loop level one above its value before the sleep; the n-th brings
the counter to 0, moves the program counter past the sleeping instruction and
restores the loop level; every execution returns 2. -/
theorem sleep_countdown (E : Env) (sleep : List Nat) (opcode : Nat) (rest : List Nat)
    (t : ScriptThread) (l : LevelState) (f : LoopState) (n : Nat)
    (hn : 1 ≤ n)
    (hcount : (E.readSleep sleep).Count = n)
    (hl : t.level = .ok l)
    (hf : index l.LoopState (l.LoopLevel + 1) = .ok f) :
    ∃ t0, ScriptSleep E sleep t = .ok (t0, 1) ∧
      t0.ProgramCounter = t.ProgramCounter + 1 ∧
      (∀ k, 1 ≤ k → k < n → ∃ tk lk,
        sleepingTicks E (opcode :: rest) k t0 = .ok (tk, 2) ∧
        tk.ProgramCounter = t.ProgramCounter + 1 ∧
        tk.level = .ok lk ∧ lk.LoopLevel = l.LoopLevel + 1) ∧
      ∃ tn ln fn, sleepingTicks E (opcode :: rest) n t0 = .ok (tn, 2) ∧
        tn.ProgramCounter = t.ProgramCounter + 1 + E.InstructionSize opcode ∧
        tn.level = .ok ln ∧ ln.LoopLevel = l.LoopLevel ∧
        index ln.LoopState (l.LoopLevel + 1) = .ok fn ∧ fn.Counter = 0 := by
  obtain ⟨t0, l0, hsleep, hpc0, -, hl0, hll0, hf0⟩ := ScriptSleep_spec E sleep t l f hl hf
  refine ⟨t0, hsleep, hpc0, ?_⟩
  have hinv := sleepingTicks_invariant E opcode rest t0 l0 _ n hl0 hf0 hcount
  constructor
  · intro k _ hk
    obtain ⟨tk, lk, fk, hrun, hpc, hlk, hll, -, -⟩ := hinv k hk
    exact ⟨tk, lk, hrun, by rw [hpc, hpc0], hlk, by rw [hll, hll0]⟩
  · obtain ⟨m, rfl⟩ : ∃ m, n = m + 1 := ⟨n - 1, by omega⟩
    obtain ⟨tk, lk, fk, hrun, hpc, hlk, hll, hfk, hck⟩ := hinv m (by omega)
    have hz : fk.Counter - 1 = 0 := by rw [hck]; push_cast; ring
    obtain ⟨u1, l1, hstep, hpc1, hl1, hll1, hf1⟩ :=
      ScriptSleeping_wake_spec E opcode rest tk lk fk hlk hfk hz
    refine ⟨u1, l1, { fk with Counter := 0 }, ?_, ?_, hl1, ?_, ?_, rfl⟩
    · simp [sleepingTicks, hrun, bind, Except.bind, hstep]
    · rw [hpc1, hpc, hpc0]
    · rw [hll1, hll, hll0]; simp
    · rw [← hll0, ← hll]; exact hf1


theorem sleep_countdown_witness :
    (1 ≤ 3) ∧ (sampleEnv.readSleep [0x09, 0x0a, 3, 0]).Count = (3 : Nat) ∧
    (sampleThread true 10).level = .ok (idleLevel 8 4) ∧
    ∃ t0, ScriptSleep sampleEnv [0x09, 0x0a, 3, 0] (sampleThread true 10) = .ok (t0, 1) ∧
      t0.ProgramCounter = (sampleThread true 10).ProgramCounter + 1 ∧
      (∀ k, 1 ≤ k → k < 3 → ∃ tk lk,
        sleepingTicks sampleEnv (0x0a :: [3, 0]) k t0 = .ok (tk, 2) ∧
        tk.ProgramCounter = (sampleThread true 10).ProgramCounter + 1 ∧
        tk.level = .ok lk ∧ lk.LoopLevel = (idleLevel 8 4).LoopLevel + 1) ∧
      ∃ tn ln fn, sleepingTicks sampleEnv (0x0a :: [3, 0]) 3 t0 = .ok (tn, 2) ∧
        tn.ProgramCounter =
          (sampleThread true 10).ProgramCounter + 1 + sampleEnv.InstructionSize 0x0a ∧
        tn.level = .ok ln ∧ ln.LoopLevel = (idleLevel 8 4).LoopLevel ∧
        index ln.LoopState ((idleLevel 8 4).LoopLevel + 1) = .ok fn ∧ fn.Counter = 0 :=
  ⟨by decide, by decide, by decide,
    sleep_countdown sampleEnv [0x09, 0x0a, 3, 0] 0x0a [3, 0] (sampleThread true 10)
      (idleLevel 8 4) ⟨0, 0, 0, 0⟩ 3 (by decide) (by decide) (by decide) (by decide)⟩

/-! ## Switch -/


theorem switchScan_case_next (E : Env) (instructions : Int → List Nat) (gameDef : GameDef)
    (sw : ScriptInstrSwitch) (fuel : Nat) (address : Int) (opcode : Nat) (rest : List Nat)
    (hins : instructions address = opcode :: rest) (hop : opcode = E.OP_CASE)
    (hne : (E.readSwitchCase (instructions address)).Value ≠ gameDef.GetScriptVariable sw.VarId) :
    switchScan E instructions gameDef sw (fuel + 1) address =
      switchScan E instructions gameDef sw fuel
        (address + (E.InstructionSize opcode
          + (E.readSwitchCase (instructions address)).BlockLength)) := by
  subst hop
  rw [switchScan]
  simp only [hins, opcodeOf, bind, Except.bind]
  rw [hins] at hne
  simp [hne]

theorem switchScan_case_match (E : Env) (instructions : Int → List Nat) (gameDef : GameDef)
    (sw : ScriptInstrSwitch) (fuel : Nat) (address : Int) (opcode : Nat) (rest : List Nat)
    (hins : instructions address = opcode :: rest) (hop : opcode = E.OP_CASE)
    (heq : (E.readSwitchCase (instructions address)).Value = gameDef.GetScriptVariable sw.VarId) :
    switchScan E instructions gameDef sw (fuel + 1) address =
      .ok (address + E.InstructionSize opcode, false) := by
  subst hop
  rw [switchScan]
  simp only [hins, opcodeOf, bind, Except.bind]
  rw [hins] at heq
  simp [heq, pure, Except.pure]

theorem switchScan_default (E : Env) (instructions : Int → List Nat) (gameDef : GameDef)
    (sw : ScriptInstrSwitch) (fuel : Nat) (address : Int) (opcode : Nat) (rest : List Nat)
    (hins : instructions address = opcode :: rest) (hnc : opcode ≠ E.OP_CASE)
    (hop : opcode = E.OP_DEFAULT) :
    switchScan E instructions gameDef sw (fuel + 1) address =
      .ok (address + E.InstructionSize opcode, false) := by
  subst hop
  rw [switchScan]
  simp only [hins, opcodeOf, bind, Except.bind]
  simp [hnc, pure, Except.pure]

theorem switchScan_end (E : Env) (instructions : Int → List Nat) (gameDef : GameDef)
    (sw : ScriptInstrSwitch) (fuel : Nat) (address : Int) (opcode : Nat) (rest : List Nat)
    (hins : instructions address = opcode :: rest) (hnc : opcode ≠ E.OP_CASE)
    (hnd : opcode ≠ E.OP_DEFAULT) (hop : opcode = E.OP_END_SWITCH) :
    switchScan E instructions gameDef sw (fuel + 1) address =
      .ok (address + E.InstructionSize opcode, true) := by
  subst hop
  rw [switchScan]
  simp only [hins, opcodeOf, bind, Except.bind]
  simp [hnc, hnd, pure, Except.pure]

theorem switchScan_skip (E : Env) (instructions : Int → List Nat) (gameDef : GameDef)
    (sw : ScriptInstrSwitch) (fuel : Nat) :
    ∀ (k : Nat) (address target : Int),
      skipCases E instructions (gameDef.GetScriptVariable sw.VarId) k address = some target →
      switchScan E instructions gameDef sw (k + fuel) address =
        switchScan E instructions gameDef sw fuel target := by
  intro k
  induction k with
  | zero =>
    intro address target h
    simp [skipCases] at h
    simp [h]
  | succ k ih =>
    intro address target h
    unfold skipCases at h
    cases hins : instructions address with
    | nil => simp [hins] at h
    | cons opcode rest =>
      simp only [hins] at h
      split at h
      · rename_i hcase
        rw [← hins] at hcase h
        rw [show k + 1 + fuel = (k + fuel) + 1 by omega,
          switchScan_case_next E instructions gameDef sw _ address opcode rest hins hcase.1
            hcase.2]
        exact ih _ _ h
      · cases h

theorem ScriptSwitchBegin_of_scan (E : Env) (fuel : Nat) (opcode : Nat) (rest : List Nat)
    (instructions : Int → List Nat) (gameDef : GameDef) (t : ScriptThread)
    (l : LevelState) (f : LoopState) (programCounter : Int) (ended : Bool)
    (hl : t.level = .ok l) (hf : index l.LoopState (l.LoopLevel + 1) = .ok f)
    (hscan : switchScan E instructions gameDef (E.readSwitch (opcode :: rest)) fuel
      (t.ProgramCounter + E.InstructionSize opcode) = .ok (programCounter, ended)) :
    ScriptSwitchBegin E fuel (opcode :: rest) instructions gameDef t =
      .ok ({ t with
              LevelState := store t.LevelState t.SubLevel
                { l with
                  LoopLevel := if ended then l.LoopLevel + 1 - 1 else l.LoopLevel + 1
                  LoopState := store l.LoopState (l.LoopLevel + 1)
                    { f with
                      Break := t.ProgramCounter + E.InstructionSize opcode
                        + (E.readSwitch (opcode :: rest)).BlockLength
                      LevelIfCounter := l.IfElseCounter } }
              ProgramCounter := programCounter
              OverrideProgramCounter := true }, 1) := by
  unfold ScriptThread.level at hl
  simp [ScriptSwitchBegin, opcodeOf, bind, Except.bind, pure, Except.pure, hl, hf, hscan]


/-- C5. Switch dispatch.  When the scan of `ScriptSwitchBegin` passes `k` case
entries whose literal differs from the value of the switch variable, each
block length leading to the next entry, and then meets at `target` either a
case entry whose literal equals the value or a default entry, the handler
returns 1 with the program counter at the address right after that entry,
the override flag set, the loop level one higher, and the new frame holding
Break = address after the switch instruction + BlockLength and
LevelIfCounter = the current IfElseCounter.  Any fuel above `k` is enough. -/
theorem switch_dispatch (E : Env) (fuel : Nat) (opcode : Nat) (rest : List Nat)
    (instructions : Int → List Nat) (gameDef : GameDef) (t : ScriptThread)
    (l : LevelState) (f : LoopState) (k : Nat) (target : Int) (opT : Nat)
    (restT : List Nat)
    (hl : t.level = .ok l) (hf : index l.LoopState (l.LoopLevel + 1) = .ok f)
    (hskip : skipCases E instructions
      (gameDef.GetScriptVariable (E.readSwitch (opcode :: rest)).VarId) k
      (t.ProgramCounter + E.InstructionSize opcode) = some target)
    (hT : instructions target = opT :: restT)
    (hterm : (opT = E.OP_CASE ∧ (E.readSwitchCase (instructions target)).Value =
        gameDef.GetScriptVariable (E.readSwitch (opcode :: rest)).VarId) ∨
      (opT ≠ E.OP_CASE ∧ opT = E.OP_DEFAULT))
    (hfuel : k < fuel) :
    ∃ t1 l1 f1, ScriptSwitchBegin E fuel (opcode :: rest) instructions gameDef t = .ok (t1, 1) ∧
      t1.ProgramCounter = target + E.InstructionSize opT ∧
      t1.OverrideProgramCounter = true ∧
      t1.level = .ok l1 ∧ l1.LoopLevel = l.LoopLevel + 1 ∧
      l1.IfElseCounter = l.IfElseCounter ∧
      index l1.LoopState l1.LoopLevel = .ok f1 ∧
      f1.Break = t.ProgramCounter + E.InstructionSize opcode
        + (E.readSwitch (opcode :: rest)).BlockLength ∧
      f1.LevelIfCounter = l.IfElseCounter := by
  obtain ⟨fuel1, rfl⟩ : ∃ fuel1, fuel = k + (fuel1 + 1) := ⟨fuel - k - 1, by omega⟩
  have hscan : switchScan E instructions gameDef (E.readSwitch (opcode :: rest))
      (k + (fuel1 + 1)) (t.ProgramCounter + E.InstructionSize opcode) =
      .ok (target + E.InstructionSize opT, false) := by
    rw [switchScan_skip E instructions gameDef _ _ k _ _ hskip]
    rcases hterm with ⟨hop, hv⟩ | ⟨hnc, hop⟩
    · exact switchScan_case_match E instructions gameDef _ _ target opT restT hT hop hv
    · exact switchScan_default E instructions gameDef _ _ target opT restT hT hnc hop
  have hbegin := ScriptSwitchBegin_of_scan E _ opcode rest instructions gameDef t l f _ _
    hl hf hscan
  refine ⟨_, _,
    { f with
      Break := t.ProgramCounter + E.InstructionSize opcode
        + (E.readSwitch (opcode :: rest)).BlockLength
      LevelIfCounter := l.IfElseCounter },
    hbegin, rfl, rfl, level_store t l _ _ _ hl, ?_, rfl, ?_, rfl, rfl⟩
  · simp
  · simp only [Bool.false_eq_true, if_false]
    exact index_store_same _ _ _ _ hf

/-- C6. Switch with no match.  When the scan of `ScriptSwitchBegin` passes `k`
case entries whose literal differs from the value of the switch variable and
then meets an end_switch entry at `target`, the handler returns 1 with the
program counter right after that entry, the loop level equal to its value
before the switch, and IfElseCounter, StackIndex and SubLevel unchanged.  Any
fuel above `k` is enough. -/
theorem switch_no_match (E : Env) (fuel : Nat) (opcode : Nat) (rest : List Nat)
    (instructions : Int → List Nat) (gameDef : GameDef) (t : ScriptThread)
    (l : LevelState) (f : LoopState) (k : Nat) (target : Int) (opT : Nat)
    (restT : List Nat)
    (hl : t.level = .ok l) (hf : index l.LoopState (l.LoopLevel + 1) = .ok f)
    (hskip : skipCases E instructions
      (gameDef.GetScriptVariable (E.readSwitch (opcode :: rest)).VarId) k
      (t.ProgramCounter + E.InstructionSize opcode) = some target)
    (hT : instructions target = opT :: restT)
    (hend : opT ≠ E.OP_CASE ∧ opT ≠ E.OP_DEFAULT ∧ opT = E.OP_END_SWITCH)
    (hfuel : k < fuel) :
    ∃ t1 l1, ScriptSwitchBegin E fuel (opcode :: rest) instructions gameDef t = .ok (t1, 1) ∧
      t1.ProgramCounter = target + E.InstructionSize opT ∧
      t1.OverrideProgramCounter = true ∧
      t1.level = .ok l1 ∧ l1.LoopLevel = l.LoopLevel ∧
      l1.IfElseCounter = l.IfElseCounter ∧
      t1.StackIndex = t.StackIndex ∧ t1.SubLevel = t.SubLevel := by
  obtain ⟨fuel1, rfl⟩ : ∃ fuel1, fuel = k + (fuel1 + 1) := ⟨fuel - k - 1, by omega⟩
  have hscan : switchScan E instructions gameDef (E.readSwitch (opcode :: rest))
      (k + (fuel1 + 1)) (t.ProgramCounter + E.InstructionSize opcode) =
      .ok (target + E.InstructionSize opT, true) := by
    rw [switchScan_skip E instructions gameDef _ _ k _ _ hskip]
    exact switchScan_end E instructions gameDef _ _ target opT restT hT hend.1 hend.2.1
      hend.2.2
  have hbegin := ScriptSwitchBegin_of_scan E _ opcode rest instructions gameDef t l f _ _
    hl hf hscan
  refine ⟨_, _, hbegin, rfl, rfl, level_store t l _ _ _ hl, ?_, rfl, rfl, rfl⟩
  simp


theorem switch_dispatch_witness :
    (∃ t1, ScriptSwitchBegin sampleEnv 8 [0x13, 5, 22, 0] switchScript.Instructions
        (gameWith 5 1) (sampleThread true 0) = .ok (t1, 1) ∧ t1.ProgramCounter = 10) ∧
    (∃ t1, ScriptSwitchBegin sampleEnv 8 [0x13, 5, 22, 0] switchScript.Instructions
        (gameWith 5 2) (sampleThread true 0) = .ok (t1, 1) ∧ t1.ProgramCounter = 18) ∧
    (∃ t1, ScriptSwitchBegin sampleEnv 8 [0x13, 5, 22, 0] switchScript.Instructions
        (gameWith 5 7) (sampleThread true 0) = .ok (t1, 1) ∧ t1.ProgramCounter = 22) := by
  refine ⟨?_, ?_, ?_⟩
  · obtain ⟨t1, _, _, h, hpc, _⟩ := switch_dispatch sampleEnv 8 0x13 [5, 22, 0]
      switchScript.Instructions (gameWith 5 1) (sampleThread true 0) (idleLevel 8 4)
      ⟨0, 0, 0, 0⟩ 0 4 0x14 [0, 2, 0, 1, 0] (by decide) (by decide) (by decide) (by decide)
      (by decide) (by decide)
    exact ⟨t1, h, by rw [hpc]; decide⟩
  · obtain ⟨t1, _, _, h, hpc, _⟩ := switch_dispatch sampleEnv 8 0x13 [5, 22, 0]
      switchScript.Instructions (gameWith 5 2) (sampleThread true 0) (idleLevel 8 4)
      ⟨0, 0, 0, 0⟩ 1 12 0x14 [0, 2, 0, 2, 0] (by decide) (by decide) (by decide) (by decide)
      (by decide) (by decide)
    exact ⟨t1, h, by rw [hpc]; decide⟩
  · obtain ⟨t1, _, _, h, hpc, _⟩ := switch_dispatch sampleEnv 8 0x13 [5, 22, 0]
      switchScript.Instructions (gameWith 5 7) (sampleThread true 0) (idleLevel 8 4)
      ⟨0, 0, 0, 0⟩ 2 20 0x15 [0] (by decide) (by decide) (by decide) (by decide)
      (by decide) (by decide)
    exact ⟨t1, h, by rw [hpc]; decide⟩

theorem switch_no_match_witness :
    ∃ t1 l1, ScriptSwitchBegin sampleEnv 8 [0x13, 5, 18, 0] switchScriptNoDefault.Instructions
        (gameWith 5 7) (sampleThread true 0) = .ok (t1, 1) ∧
      t1.ProgramCounter = 22 ∧ t1.level = .ok l1 ∧ l1.LoopLevel = -1 ∧
      l1.IfElseCounter = -1 ∧ t1.StackIndex = 0 := by
  obtain ⟨t1, l1, h, hpc, _, hl1, hll, hic, hsi, _⟩ := switch_no_match sampleEnv 8 0x13
    [5, 18, 0] switchScriptNoDefault.Instructions (gameWith 5 7) (sampleThread true 0)
    (idleLevel 8 4) ⟨0, 0, 0, 0⟩ 2 20 0x16 [0] (by decide) (by decide) (by decide)
    (by decide) (by decide) (by decide)
  exact ⟨t1, l1, h, by rw [hpc]; decide, hl1, by rw [hll]; decide, by rw [hic]; decide,
    by rw [hsi]; decide⟩

theorem gosub_evt_end_round_trip_witness :
    ∃ t1 t3, ScriptGoSub sampleEnv [0x18, 1] gosubScript (sampleThread true 0) = .ok (t1, 1) ∧
      t1.SubLevel = 1 ∧ t1.ProgramCounter = 100 ∧
      ScriptEvtEnd t1 = .ok (t3, 1) ∧ t3.ProgramCounter = 2 ∧ t3.SubLevel = 0 ∧
      t3.OverrideProgramCounter = true ∧ t3.RunStatus = true := by
  obtain ⟨t1, l1, c1, h, hs, hpc, hrs, hl1, hra, hc1, hret⟩ := gosub_evt_end_round_trip
    sampleEnv 0x18 [1] gosubScript (sampleThread true 0) (idleLevel 8 4) (idleLevel 8 4) 100
    (by decide) (by decide) (by decide)
  obtain ⟨t3, h3, hpc3, hov, hs3, _, hrs3⟩ := hret t1 l1 c1 hs hl1 rfl hc1
  exact ⟨t1, t3, h, hs, hpc, h3, by rw [hpc3]; decide, hs3, hov, by rw [hrs3, hrs]; rfl⟩

/-! ## The dispatcher and the tick gate -/


theorem thread_ok_iff (scriptDef : ScriptDef) (i : Nat) (t : ScriptThread) :
    scriptDef.thread i = .ok t ↔ scriptDef.ScriptThreads[i]? = some t := by
  unfold ScriptDef.thread
  cases h : scriptDef.ScriptThreads[i]? <;> simp

theorem thread_setThread (scriptDef : ScriptDef) (i : Nat) (t t1 : ScriptThread)
    (h : scriptDef.thread i = .ok t) : (scriptDef.setThread i t1).thread i = .ok t1 := by
  rw [thread_ok_iff] at h ⊢
  have hlt : i < scriptDef.ScriptThreads.length := by
    rw [List.getElem?_eq_some] at h
    exact h.1
  simp [ScriptDef.setThread, List.getElem?_set, hlt]

theorem setThread_setThread (scriptDef : ScriptDef) (i : Nat) (t1 t2 : ScriptThread) :
    (scriptDef.setThread i t1).setThread i t2 = scriptDef.setThread i t2 := by
  simp [ScriptDef.setThread]

theorem RunScriptThread_closed (E : Env) (scriptData : ScriptFunction) (fuel cur : Nat)
    (e : ℚ) (m : Machine) (h : ¬ m.scriptDeltaTime + e > 1 / SCRIPT_FRAMES_PER_SECOND) :
    RunScriptThread E scriptData fuel cur e m =
      .ok { m with scriptDeltaTime := m.scriptDeltaTime + e } := by
  simp only [RunScriptThread, h, if_false]
  rfl

theorem RunScriptThread_idle (E : Env) (scriptData : ScriptFunction) (fuel cur : Nat)
    (e : ℚ) (m : Machine) (t : ScriptThread)
    (h : m.scriptDeltaTime + e > 1 / SCRIPT_FRAMES_PER_SECOND)
    (ht : m.scriptDef.thread cur = .ok t) (hrun : t.RunStatus = false) :
    RunScriptThread E scriptData fuel cur e m = .ok { m with scriptDeltaTime := 0 } := by
  unfold RunScriptThread
  dsimp only
  rw [if_pos h]
  simp [ht, hrun, bind, Except.bind, pure, Except.pure]

theorem RunScriptThread_open (E : Env) (scriptData : ScriptFunction) (fuel cur : Nat)
    (e : ℚ) (m : Machine) (t : ScriptThread)
    (h : m.scriptDeltaTime + e > 1 / SCRIPT_FRAMES_PER_SECOND)
    (ht : m.scriptDef.thread cur = .ok t) (hrun : t.RunStatus = true) :
    RunScriptThread E scriptData fuel cur e m =
      runLoop E scriptData cur fuel { m with scriptDeltaTime := 0 } := by
  unfold RunScriptThread
  dsimp only
  rw [if_pos h]
  simp [ht, hrun, bind, Except.bind]

theorem execInstruction_evt_end_top (E : Env) (scriptData : ScriptFunction) (fuel cur : Nat)
    (m : Machine) (t : ScriptThread) (rest : List Nat)
    (ht : m.scriptDef.thread cur = .ok t) (hsub : t.SubLevel = 0)
    (hins : scriptData.Instructions t.ProgramCounter = E.OP_EVT_END :: rest) :
    execInstruction E scriptData fuel cur m =
      .ok ({ m with
              scriptDef := m.scriptDef.setThread cur
                { t with
                  RunStatus := false
                  ProgramCounter := t.ProgramCounter + E.InstructionSize E.OP_EVT_END
                  OverrideProgramCounter := false } }, 2) := by
  obtain ⟨rs, wc, wi, pc, si, sl, ls, ov⟩ := t
  simp only at hsub hins
  subst hsub
  have h1 := thread_setThread m.scriptDef cur _
    { RunStatus := rs, WorkSetComponent := wc, WorkSetIndex := wi, ProgramCounter := pc,
      StackIndex := si, SubLevel := 0, LevelState := ls, OverrideProgramCounter := false } ht
  have h2 := thread_setThread m.scriptDef cur _
    { RunStatus := false, WorkSetComponent := wc, WorkSetIndex := wi, ProgramCounter := pc,
      StackIndex := si, SubLevel := 0, LevelState := ls, OverrideProgramCounter := false } ht
  simp [execInstruction, ht, hins, opcodeOf, dispatch, onThread, ScriptEvtEnd, h1, h2,
    bind, Except.bind, pure, Except.pure, setThread_setThread,
    ScriptThread.IncrementProgramCounter]

theorem RunScriptThread_evt_end_top (E : Env) (scriptData : ScriptFunction) (fuel cur : Nat)
    (e : ℚ) (m : Machine) (t : ScriptThread) (rest : List Nat)
    (hgate : m.scriptDeltaTime + e > 1 / SCRIPT_FRAMES_PER_SECOND)
    (ht : m.scriptDef.thread cur = .ok t) (hrun : t.RunStatus = true)
    (hsub : t.SubLevel = 0)
    (hins : scriptData.Instructions t.ProgramCounter = E.OP_EVT_END :: rest) :
    RunScriptThread E scriptData (fuel + 1) cur e m =
      .ok { m with
            scriptDeltaTime := 0
            scriptDef := m.scriptDef.setThread cur
              { t with
                RunStatus := false
                ProgramCounter := t.ProgramCounter + E.InstructionSize E.OP_EVT_END
                OverrideProgramCounter := false } } := by
  rw [RunScriptThread_open E scriptData _ cur e m t hgate ht hrun]
  have hstep := execInstruction_evt_end_top E scriptData fuel cur
    { m with scriptDeltaTime := 0 } t rest ht hsub hins
  simp [runLoop, hstep, bind, Except.bind, pure, Except.pure]

/-- C9. Top-level end of script.  At SubLevel 0 `ScriptEvtEnd` clears RunStatus
and returns 2 without touching anything else.  A pass of `RunScriptThread`
whose gate is open, on a running thread at SubLevel 0 whose instruction is
evt_end, ends after that one instruction: the thread is left halted, its
program counter advanced by the size of evt_end, StackIndex, SubLevel and
every level (so IfElseCounter) as before, and nothing else in the machine
changes but the accumulator.  A pass on a thread that does not run changes
nothing but the accumulator, whatever the fuel. -/
theorem evt_end_top_level_halts (E : Env) (scriptData : ScriptFunction) (fuel cur : Nat)
    (e : ℚ) (m : Machine) (t : ScriptThread) (rest : List Nat)
    (hgate : m.scriptDeltaTime + e > 1 / SCRIPT_FRAMES_PER_SECOND)
    (ht : m.scriptDef.thread cur = .ok t) (hrun : t.RunStatus = true)
    (hsub : t.SubLevel = 0)
    (hins : scriptData.Instructions t.ProgramCounter = E.OP_EVT_END :: rest) :
    ScriptEvtEnd t = .ok ({ t with RunStatus := false }, 2) ∧
    RunScriptThread E scriptData (fuel + 1) cur e m =
      .ok { m with
            scriptDeltaTime := 0
            scriptDef := m.scriptDef.setThread cur
              { t with
                RunStatus := false
                ProgramCounter := t.ProgramCounter + E.InstructionSize E.OP_EVT_END
                OverrideProgramCounter := false } } ∧
    ∀ (fuel2 : Nat) (e2 : ℚ) (m2 : Machine) (t2 : ScriptThread),
      m2.scriptDef.thread cur = .ok t2 → t2.RunStatus = false →
      ∃ time, RunScriptThread E scriptData fuel2 cur e2 m2 =
        .ok { m2 with scriptDeltaTime := time } := by
  refine ⟨?_, ?_, ?_⟩
  · simp [ScriptEvtEnd, hsub, pure, Except.pure]
  · exact RunScriptThread_evt_end_top E scriptData fuel cur e m t rest hgate ht hrun hsub hins
  · intro fuel2 e2 m2 t2 ht2 hrun2
    by_cases h : m2.scriptDeltaTime + e2 > 1 / SCRIPT_FRAMES_PER_SECOND
    · exact ⟨0, RunScriptThread_idle E scriptData fuel2 cur e2 m2 t2 h ht2 hrun2⟩
    · exact ⟨_, RunScriptThread_closed E scriptData fuel2 cur e2 m2 h⟩


theorem runThreads_cons (E : Env) (scriptData : ScriptFunction) (fuel : Nat) (e : ℚ)
    (i : Nat) (rest : List Nat) (m m1 : Machine)
    (h : RunScriptThread E scriptData fuel i e m = .ok m1) :
    runThreads E scriptData fuel e (i :: rest) m = runThreads E scriptData fuel e rest m1 := by
  simp [runThreads, h, bind, Except.bind]

theorem sample_closed (E : Env) (scriptData : ScriptFunction) (fuel i : Nat) (e time : ℚ)
    (pool : List ScriptThread) (rest : List Nat)
    (h : time + e ≤ 1 / 30) :
    runThreads E scriptData fuel e (i :: rest) (sampleMachine pool time) =
      runThreads E scriptData fuel e rest (sampleMachine pool (time + e)) := by
  apply runThreads_cons
  rw [RunScriptThread_closed]
  · rfl
  · simp only [SCRIPT_FRAMES_PER_SECOND, sampleMachine]
    exact not_lt.mpr h

theorem sample_idle (E : Env) (scriptData : ScriptFunction) (fuel i : Nat) (e time : ℚ)
    (pool : List ScriptThread) (rest : List Nat) (t : ScriptThread)
    (h : time + e > 1 / 30) (ht : pool[i]? = some t) (hrun : t.RunStatus = false) :
    runThreads E scriptData fuel e (i :: rest) (sampleMachine pool time) =
      runThreads E scriptData fuel e rest (sampleMachine pool 0) := by
  apply runThreads_cons
  rw [RunScriptThread_idle E scriptData fuel i e _ t h ((thread_ok_iff _ _ _).2 ht) hrun]
  rfl

theorem sample_halt (E : Env) (scriptData : ScriptFunction) (fuel i : Nat) (e time : ℚ)
    (pool : List ScriptThread) (rest : List Nat) (t : ScriptThread) (tail : List Nat)
    (h : time + e > 1 / 30) (ht : pool[i]? = some t) (hrun : t.RunStatus = true)
    (hsub : t.SubLevel = 0)
    (hins : scriptData.Instructions t.ProgramCounter = E.OP_EVT_END :: tail) :
    runThreads E scriptData (fuel + 1) e (i :: rest) (sampleMachine pool time) =
      runThreads E scriptData (fuel + 1) e rest
        (sampleMachine (pool.set i
          { t with
            RunStatus := false
            ProgramCounter := t.ProgramCounter + E.InstructionSize E.OP_EVT_END
            OverrideProgramCounter := false }) 0) := by
  apply runThreads_cons
  rw [RunScriptThread_evt_end_top E scriptData fuel i e _ t tail h ((thread_ok_iff _ _ _).2 ht)
    hrun hsub hins]
  rfl

/-- C1. The code at the failing input: a pool of twenty threads of which only
thread 2 runs (at an evt_end instruction), accumulator 0, and one `RunScript`
call with 1/64 second, less than 1/30.  The accumulator is advanced once per
thread, so it passes 1/30 at thread 2, which executes its instruction (it is
halted and its program counter has moved from 0 to 2); the call returns with
the accumulator at 1/32. -/
theorem RunScript_below_threshold_executes :
    RunScript sampleEnv haltScript 4 (1 / 64) (sampleMachine (samplePool [2]) 0) =
      .ok (sampleMachine ((samplePool []).set 2 (sampleThread false 2)) (1 / 32)) := by
  have hrange : List.range (sampleMachine (samplePool [2]) 0).scriptDef.ScriptThreads.length
      = [0, 1, 2, 3, 4, 5, 6, 7, 8, 9, 10, 11, 12, 13, 14, 15, 16, 17, 18, 19] := by decide
  rw [RunScript, hrange]
  rw [sample_closed _ _ _ _ _ _ _ _ (by norm_num)]
  rw [sample_closed _ _ _ _ _ _ _ _ (by norm_num)]
  rw [sample_halt _ _ _ _ _ _ _ _ (sampleThread true 0) [0] (by norm_num) (by decide) rfl rfl
    (by decide)]
  rw [sample_closed _ _ _ _ _ _ _ _ (by norm_num)]
  rw [sample_closed _ _ _ _ _ _ _ _ (by norm_num)]
  rw [sample_idle _ _ _ _ _ _ _ _ (sampleThread false 0) (by norm_num) (by decide) rfl]
  rw [sample_closed _ _ _ _ _ _ _ _ (by norm_num)]
  rw [sample_closed _ _ _ _ _ _ _ _ (by norm_num)]
  rw [sample_idle _ _ _ _ _ _ _ _ (sampleThread false 0) (by norm_num) (by decide) rfl]
  rw [sample_closed _ _ _ _ _ _ _ _ (by norm_num)]
  rw [sample_closed _ _ _ _ _ _ _ _ (by norm_num)]
  rw [sample_idle _ _ _ _ _ _ _ _ (sampleThread false 0) (by norm_num) (by decide) rfl]
  rw [sample_closed _ _ _ _ _ _ _ _ (by norm_num)]
  rw [sample_closed _ _ _ _ _ _ _ _ (by norm_num)]
  rw [sample_idle _ _ _ _ _ _ _ _ (sampleThread false 0) (by norm_num) (by decide) rfl]
  rw [sample_closed _ _ _ _ _ _ _ _ (by norm_num)]
  rw [sample_closed _ _ _ _ _ _ _ _ (by norm_num)]
  rw [sample_idle _ _ _ _ _ _ _ _ (sampleThread false 0) (by norm_num) (by decide) rfl]
  rw [sample_closed _ _ _ _ _ _ _ _ (by norm_num)]
  rw [sample_closed _ _ _ _ _ _ _ _ (by norm_num)]
  have hpool : (samplePool [2]).set 2
      { sampleThread true 0 with
        RunStatus := false
        ProgramCounter := (sampleThread true 0).ProgramCounter
          + sampleEnv.InstructionSize sampleEnv.OP_EVT_END
        OverrideProgramCounter := false } = (samplePool []).set 2 (sampleThread false 2) := by
    decide
  have htime : (0 : ℚ) + 1 / 64 + 1 / 64 = 1 / 32 := by norm_num
  rw [hpool, htime]
  rfl


/-- C2. The code at the failing input: a pool of twenty threads of which
threads 0 and 1 run (each at an evt_end instruction), accumulator 1/32, and
one `RunScript` call with 1/64 second, which takes the accumulated time above
1/30.  Thread 0 is dispatched (halted, program counter 2); thread 1, which
runs too, is not (still running at program counter 0); the call returns with
the accumulator at 1/64, not 0. -/
theorem RunScript_at_threshold_serves_one_thread :
    RunScript sampleEnv haltScript 4 (1 / 64) (sampleMachine (samplePool [0, 1]) (1 / 32)) =
      .ok (sampleMachine ((samplePool [1]).set 0 (sampleThread false 2)) (1 / 64)) := by
  have hrange :
      List.range (sampleMachine (samplePool [0, 1]) (1 / 32)).scriptDef.ScriptThreads.length
      = [0, 1, 2, 3, 4, 5, 6, 7, 8, 9, 10, 11, 12, 13, 14, 15, 16, 17, 18, 19] := by decide
  rw [RunScript, hrange]
  rw [sample_halt _ _ _ _ _ _ _ _ (sampleThread true 0) [0] (by norm_num) (by decide) rfl rfl
    (by decide)]
  rw [sample_closed _ _ _ _ _ _ _ _ (by norm_num)]
  rw [sample_closed _ _ _ _ _ _ _ _ (by norm_num)]
  rw [sample_idle _ _ _ _ _ _ _ _ (sampleThread false 0) (by norm_num) (by decide) rfl]
  rw [sample_closed _ _ _ _ _ _ _ _ (by norm_num)]
  rw [sample_closed _ _ _ _ _ _ _ _ (by norm_num)]
  rw [sample_idle _ _ _ _ _ _ _ _ (sampleThread false 0) (by norm_num) (by decide) rfl]
  rw [sample_closed _ _ _ _ _ _ _ _ (by norm_num)]
  rw [sample_closed _ _ _ _ _ _ _ _ (by norm_num)]
  rw [sample_idle _ _ _ _ _ _ _ _ (sampleThread false 0) (by norm_num) (by decide) rfl]
  rw [sample_closed _ _ _ _ _ _ _ _ (by norm_num)]
  rw [sample_closed _ _ _ _ _ _ _ _ (by norm_num)]
  rw [sample_idle _ _ _ _ _ _ _ _ (sampleThread false 0) (by norm_num) (by decide) rfl]
  rw [sample_closed _ _ _ _ _ _ _ _ (by norm_num)]
  rw [sample_closed _ _ _ _ _ _ _ _ (by norm_num)]
  rw [sample_idle _ _ _ _ _ _ _ _ (sampleThread false 0) (by norm_num) (by decide) rfl]
  rw [sample_closed _ _ _ _ _ _ _ _ (by norm_num)]
  rw [sample_closed _ _ _ _ _ _ _ _ (by norm_num)]
  rw [sample_idle _ _ _ _ _ _ _ _ (sampleThread false 0) (by norm_num) (by decide) rfl]
  rw [sample_closed _ _ _ _ _ _ _ _ (by norm_num)]
  have hpool : (samplePool [0, 1]).set 0
      { sampleThread true 0 with
        RunStatus := false
        ProgramCounter := (sampleThread true 0).ProgramCounter
          + sampleEnv.InstructionSize sampleEnv.OP_EVT_END
        OverrideProgramCounter := false } = (samplePool [1]).set 0 (sampleThread false 2) := by
    decide
  have htime : (0 : ℚ) + 1 / 64 = 1 / 64 := by norm_num
  rw [hpool, htime]
  rfl

theorem evt_end_top_level_halts_witness :
    (sampleMachine (samplePool [0]) 0).scriptDeltaTime + 10 > 1 / SCRIPT_FRAMES_PER_SECOND ∧
    ScriptEvtEnd (sampleThread true 0) = .ok (sampleThread false 0, 2) ∧
    RunScriptThread sampleEnv haltScript 1 0 10 (sampleMachine (samplePool [0]) 0) =
      .ok (sampleMachine ((samplePool []).set 0 (sampleThread false 2)) 0) :=
  have hgate : (sampleMachine (samplePool [0]) 0).scriptDeltaTime + 10
      > 1 / SCRIPT_FRAMES_PER_SECOND := by
    norm_num [sampleMachine, SCRIPT_FRAMES_PER_SECOND]
  have h := evt_end_top_level_halts sampleEnv haltScript 0 0 10
    (sampleMachine (samplePool [0]) 0) (sampleThread true 0) [0] hgate (by decide) rfl rfl
    (by decide)
  ⟨hgate, h.1, h.2.1⟩

/-- C10. The code at the failing input: a thread at level 0 opens one
if-block (StackIndex 1, IfElseCounter 0), calls a subroutine that consists of
evt_end alone, and returns.  Back at level 0 StackIndex is 0 although
IfElseCounter + 1 is 1: the index is taken from the if-counter of the level
that was left, not from the caller's. -/
theorem evt_end_return_resets_stack_index :
    (do
      let (t1, _) ← ScriptIfBlockStart sampleEnv [0x06, 0, 10, 0] (sampleThread true 0)
      let (t2, _) ← ScriptGoSub sampleEnv [0x18, 1] gosubScript t1
      let (t3, _) ← ScriptEvtEnd t2
      let levelState ← t3.level
      pure (t1.StackIndex, t3.SubLevel, t3.StackIndex, levelState.IfElseCounter + 1)) =
    Except.ok (1, 0, 0, 1) := by
  decide

/-! ## If-blocks -/

theorem ScriptIfBlockStart_spec (E : Env) (opcode : Nat) (rest : List Nat)
    (t : ScriptThread) (l : LevelState) (x : Int)
    (hl : t.level = .ok l) (hslot : index l.Stack t.StackIndex = .ok x) :
    ScriptIfBlockStart E (opcode :: rest) t =
      .ok ({ t with
              LevelState := store t.LevelState t.SubLevel
                { l with
                  IfElseCounter := l.IfElseCounter + 1
                  Stack := store l.Stack t.StackIndex
                    (t.ProgramCounter + E.InstructionSize opcode
                      + (E.readIfElseStart (opcode :: rest)).BlockLength) }
              StackIndex := t.StackIndex + 1 }, 1) := by
  unfold ScriptThread.level at hl
  simp [ScriptIfBlockStart, opcodeOf, bind, Except.bind, pure, Except.pure, hl, hslot]

theorem ScriptEndIf_spec (t : ScriptThread) (l : LevelState) (hl : t.level = .ok l) :
    ScriptEndIf t =
      .ok ({ t with
              StackIndex := t.StackIndex - 1
              LevelState := store t.LevelState t.SubLevel
                { l with IfElseCounter := l.IfElseCounter - 1 } }, 1) := by
  unfold ScriptThread.level at hl
  simp [ScriptEndIf, bind, Except.bind, pure, Except.pure, hl]

theorem ScriptElseCheck_spec (E : Env) (lineData : List Nat) (t : ScriptThread)
    (l : LevelState) (hl : t.level = .ok l) :
    ScriptElseCheck E lineData t =
      .ok ({ t with
              StackIndex := t.StackIndex - 1
              ProgramCounter := t.ProgramCounter + (E.readElseStart lineData).BlockLength
              LevelState := store t.LevelState t.SubLevel
                { l with IfElseCounter := l.IfElseCounter - 1 }
              OverrideProgramCounter := true }, 1) := by
  unfold ScriptThread.level at hl
  simp [ScriptElseCheck, bind, Except.bind, pure, Except.pure, hl]

theorem level_of_store (t : ScriptThread) (l l1 : LevelState)
    (hl : t.level = .ok l) (u : ScriptThread)
    (hs : u.SubLevel = t.SubLevel) (hu : u.LevelState = store t.LevelState t.SubLevel l1) :
    u.level = .ok l1 := by
  unfold ScriptThread.level at hl ⊢
  rw [hs, hu]
  exact index_store_same _ _ _ _ hl

/-- C12. If/end-if pair.  On a thread whose current level and block-stack slot
exist, `ScriptIfBlockStart` returns 1 with StackIndex and IfElseCounter one
higher; `ScriptEndIf` in any later state that still has that StackIndex and
that IfElseCounter (the instructions in between did not touch the block
stack) returns 1 and leaves StackIndex and IfElseCounter at their values
before the if instruction. -/
theorem if_end_if_pair_restores (E : Env) (opcode : Nat) (rest : List Nat)
    (t : ScriptThread) (l : LevelState) (x : Int)
    (hl : t.level = .ok l) (hslot : index l.Stack t.StackIndex = .ok x) :
    ∃ t1 l1, ScriptIfBlockStart E (opcode :: rest) t = .ok (t1, 1) ∧
      t1.StackIndex = t.StackIndex + 1 ∧ t1.level = .ok l1 ∧
      l1.IfElseCounter = l.IfElseCounter + 1 ∧
      ∀ t2 l2, t2.StackIndex = t1.StackIndex → t2.level = .ok l2 →
        l2.IfElseCounter = l1.IfElseCounter →
        ∃ t3 l3, ScriptEndIf t2 = .ok (t3, 1) ∧ t3.StackIndex = t.StackIndex ∧
          t3.level = .ok l3 ∧ l3.IfElseCounter = l.IfElseCounter := by
  refine ⟨_, _, ScriptIfBlockStart_spec E opcode rest t l x hl hslot, rfl,
    level_of_store t l _ hl _ rfl rfl, rfl, ?_⟩
  intro t2 l2 hs hl2 hc
  refine ⟨_, _, ScriptEndIf_spec t2 l2 hl2, ?_, level_of_store t2 l2 _ hl2 _ rfl rfl,
    ?_⟩
  · show t2.StackIndex - 1 = t.StackIndex
    rw [hs]; show t.StackIndex + 1 - 1 = _; omega
  · show l2.IfElseCounter - 1 = l.IfElseCounter
    rw [hc]; show l.IfElseCounter + 1 - 1 = _; omega

theorem if_end_if_pair_restores_witness :
    ∃ t1 t3 l3, ScriptIfBlockStart sampleEnv [0x06, 0, 6, 0] (sampleThread true 0) = .ok (t1, 1) ∧
      ScriptEndIf t1 = .ok (t3, 1) ∧ t3.StackIndex = 0 ∧ t3.level = .ok l3 ∧
      l3.IfElseCounter = -1 := by
  obtain ⟨t1, l1, h1, _, hl1, _, hend⟩ := if_end_if_pair_restores sampleEnv 0x06 [0, 6, 0]
    (sampleThread true 0) (idleLevel 8 4) 0 (by decide) (by decide)
  obtain ⟨t3, l3, h3, hs3, hl3, hc3⟩ := hend t1 l1 rfl hl1 rfl
  exact ⟨t1, t3, l3, h1, h3, hs3, hl3, hc3⟩

/-! ## The block-boundary pop of the dispatcher -/

theorem runLoop_pop (E : Env) (scriptData : ScriptFunction) (cur fuel : Nat)
    (m m1 : Machine) (r : Int) (t : ScriptThread) (l : LevelState) (top : Int)
    (hexec : execInstruction E scriptData fuel cur m = .ok (m1, r))
    (hr1 : r ≠ 1) (hr2 : r ≠ 2)
    (ht : m1.scriptDef.thread cur = .ok t) (hl : t.level = .ok l)
    (hc : ¬ l.IfElseCounter < 0) (hs : t.StackIndex ≠ 0)
    (htop : index l.Stack (t.StackIndex - 1) = .ok top) :
    runLoop E scriptData cur (fuel + 1) m =
      runLoop E scriptData cur fuel
        { m1 with
          scriptDef := m1.scriptDef.setThread cur
            { t with
              StackIndex := t.StackIndex - 1
              ProgramCounter := top
              LevelState := store t.LevelState t.SubLevel
                { l with IfElseCounter := l.IfElseCounter - 1 } } } := by
  unfold ScriptThread.level at hl
  rw [runLoop]
  simp [hexec, hr1, hr2, ht, hl, hc, hs, htop, bind, Except.bind]

theorem runLoop_empty_stack (E : Env) (scriptData : ScriptFunction) (cur fuel : Nat)
    (m m1 : Machine) (r : Int) (t : ScriptThread) (l : LevelState)
    (hexec : execInstruction E scriptData fuel cur m = .ok (m1, r))
    (hr1 : r ≠ 1) (hr2 : r ≠ 2)
    (ht : m1.scriptDef.thread cur = .ok t) (hl : t.level = .ok l)
    (hc : ¬ l.IfElseCounter < 0) (hs : t.StackIndex = 0) :
    runLoop E scriptData cur (fuel + 1) m = .error .fatal := by
  unfold ScriptThread.level at hl
  rw [runLoop]
  simp [hexec, hr1, hr2, ht, hl, hc, hs, bind, Except.bind]

/-- C19. Empty block stack in the dispatcher.  In a pass of `RunScriptThread`
(gate open, thread running), when the executed instruction returns a signal
other than 1 and 2 and leaves the thread at a level whose IfElseCounter is
not negative with StackIndex 0, the pass ends in the fatal error: nothing is
popped, so the block stack is not read below index 0 and StackIndex is not
decremented. -/
theorem empty_block_stack_is_fatal (E : Env) (scriptData : ScriptFunction) (cur fuel : Nat)
    (e : ℚ) (m m1 : Machine) (r : Int) (t0 t : ScriptThread) (l : LevelState)
    (hgate : m.scriptDeltaTime + e > 1 / SCRIPT_FRAMES_PER_SECOND)
    (ht0 : m.scriptDef.thread cur = .ok t0) (hrun : t0.RunStatus = true)
    (hexec : execInstruction E scriptData fuel cur { m with scriptDeltaTime := 0 }
      = .ok (m1, r))
    (hr1 : r ≠ 1) (hr2 : r ≠ 2)
    (ht : m1.scriptDef.thread cur = .ok t) (hl : t.level = .ok l)
    (hc : 0 ≤ l.IfElseCounter) (hs : t.StackIndex = 0) :
    RunScriptThread E scriptData (fuel + 1) cur e m = .error .fatal := by
  rw [RunScriptThread_open E scriptData _ cur e m t0 hgate ht0 hrun]
  exact runLoop_empty_stack E scriptData cur fuel _ m1 r t l hexec hr1 hr2 ht hl (by omega) hs

theorem empty_block_stack_is_fatal_witness :
    RunScriptThread sampleEnv ifScript 4 0 10
      (sampleMachine ((samplePool []).set 0 (openBlockThread 4 0)) 0) = .error .fatal :=
  empty_block_stack_is_fatal sampleEnv ifScript 0 3 10
    (sampleMachine ((samplePool []).set 0 (openBlockThread 4 0)) 0)
    (sampleMachine ((samplePool []).set 0 (openBlockThread 8 0)) 0) 0
    (openBlockThread 4 0) (openBlockThread 8 0)
    { idleLevel 8 4 with IfElseCounter := 0, Stack := 10 :: List.replicate 7 0 }
    (by norm_num [sampleMachine, SCRIPT_FRAMES_PER_SECOND]) (by decide) rfl rfl
    (by decide) (by decide) (by decide) (by decide) (by decide) rfl

/-- C11. Failed condition inside an if-block.  `ScriptIfBlockStart` at program
counter p with block length L, on a level with IfElseCounter c >= -1 and
block-stack index i (the slot exists), returns 1.  When later in the block an
instruction of a pass of `RunScriptThread` returns 0 and the thread still has
the block-stack index and the level state the if instruction left, the pass
goes on (with the fuel that is left) from the state in which the program
counter is p + InstructionSize[if_start] + L, StackIndex is i again and
IfElseCounter is c again. -/
theorem failed_condition_resumes_after_if_block (E : Env) (scriptData : ScriptFunction)
    (opcode : Nat) (rest : List Nat) (t0 : ScriptThread) (l0 : LevelState) (x : Int)
    (hl0 : t0.level = .ok l0) (hslot : index l0.Stack t0.StackIndex = .ok x)
    (hc : -1 ≤ l0.IfElseCounter) :
    ∃ t1 l1, ScriptIfBlockStart E (opcode :: rest) t0 = .ok (t1, 1) ∧ t1.level = .ok l1 ∧
      ∀ (cur fuel : Nat) (e : ℚ) (m m1 : Machine) (tq tr : ScriptThread),
        m.scriptDeltaTime + e > 1 / SCRIPT_FRAMES_PER_SECOND →
        m.scriptDef.thread cur = .ok tq → tq.RunStatus = true →
        execInstruction E scriptData fuel cur { m with scriptDeltaTime := 0 } = .ok (m1, 0) →
        m1.scriptDef.thread cur = .ok tr →
        tr.StackIndex = t1.StackIndex → tr.level = .ok l1 →
        ∃ tp lp, RunScriptThread E scriptData (fuel + 1) cur e m =
            runLoop E scriptData cur fuel
              { m1 with scriptDef := m1.scriptDef.setThread cur tp } ∧
          tp.ProgramCounter = t0.ProgramCounter + E.InstructionSize opcode
            + (E.readIfElseStart (opcode :: rest)).BlockLength ∧
          tp.StackIndex = t0.StackIndex ∧ tp.level = .ok lp ∧
          lp.IfElseCounter = l0.IfElseCounter := by
  have hi := index_nonneg _ _ _ hslot
  refine ⟨_, _, ScriptIfBlockStart_spec E opcode rest t0 l0 x hl0 hslot,
    level_of_store t0 l0 _ hl0 _ rfl rfl, ?_⟩
  intro cur fuel e m m1 tq tr hgate htq hrun hexec htr hsi hlr
  have hsi' : tr.StackIndex = t0.StackIndex + 1 := hsi
  have htop : index (store l0.Stack t0.StackIndex
      (t0.ProgramCounter + E.InstructionSize opcode
        + (E.readIfElseStart (opcode :: rest)).BlockLength)) (tr.StackIndex - 1) =
      .ok (t0.ProgramCounter + E.InstructionSize opcode
        + (E.readIfElseStart (opcode :: rest)).BlockLength) := by
    rw [hsi', show t0.StackIndex + 1 - 1 = t0.StackIndex by omega]
    exact index_store_same _ _ _ _ hslot
  have hpop := runLoop_pop E scriptData cur fuel _ m1 0 tr _ _ hexec (by decide) (by decide)
    htr hlr (by show ¬ l0.IfElseCounter + 1 < 0; omega) (by omega) htop
  refine ⟨{ tr with
      StackIndex := tr.StackIndex - 1
      ProgramCounter := t0.ProgramCounter + E.InstructionSize opcode
        + (E.readIfElseStart (opcode :: rest)).BlockLength
      LevelState := store tr.LevelState tr.SubLevel
        { IfElseCounter := l0.IfElseCounter + 1 - 1
          LoopLevel := l0.LoopLevel
          ReturnAddress := l0.ReturnAddress
          Stack := store l0.Stack t0.StackIndex
            (t0.ProgramCounter + E.InstructionSize opcode
              + (E.readIfElseStart (opcode :: rest)).BlockLength)
          LoopState := l0.LoopState } }, _, ?_, rfl, ?_,
    level_of_store tr _ _ hlr _ rfl rfl, ?_⟩
  · rw [RunScriptThread_open E scriptData _ cur e m tq hgate htq hrun]
    exact hpop
  · show tr.StackIndex - 1 = _
    omega
  · show l0.IfElseCounter + 1 - 1 = _
    omega

theorem failed_condition_resumes_after_if_block_witness :
    ∃ tp lp, RunScriptThread sampleEnv ifScript 4 0 10
        (sampleMachine ((samplePool []).set 0 (openBlockThread 4 1)) 0) =
        runLoop sampleEnv ifScript 0 3
          { sampleMachine ((samplePool []).set 0 (openBlockThread 8 1)) 0 with
            scriptDef :=
              (sampleMachine ((samplePool []).set 0 (openBlockThread 8 1)) 0).scriptDef.setThread
                0 tp } ∧
      tp.ProgramCounter = 10 ∧ tp.StackIndex = 0 ∧ tp.level = .ok lp ∧
      lp.IfElseCounter = -1 := by
  obtain ⟨t1, l1, hif, hl1, hrest⟩ := failed_condition_resumes_after_if_block sampleEnv ifScript
    0x06 [0, 6, 0] (sampleThread true 0) (idleLevel 8 4) 0 (by decide) (by decide) (by decide)
  have ht1 : t1 = openBlockThread 0 1 := by
    have h : ScriptIfBlockStart sampleEnv [0x06, 0, 6, 0] (sampleThread true 0)
        = .ok (openBlockThread 0 1, 1) := by decide
    rw [h] at hif
    cases hif
    rfl
  subst ht1
  have hl1' :
      l1 = { idleLevel 8 4 with IfElseCounter := 0, Stack := 10 :: List.replicate 7 0 } := by
    have h : (openBlockThread 0 1).level
        = .ok { idleLevel 8 4 with IfElseCounter := 0, Stack := 10 :: List.replicate 7 0 } := by
      decide
    rw [h] at hl1
    cases hl1
    rfl
  subst hl1'
  obtain ⟨tp, lp, hrun, hpc, hsi, hlp, hcnt⟩ := hrest 0 3 10
    (sampleMachine ((samplePool []).set 0 (openBlockThread 4 1)) 0)
    (sampleMachine ((samplePool []).set 0 (openBlockThread 8 1)) 0)
    (openBlockThread 4 1) (openBlockThread 8 1)
    (by norm_num [sampleMachine, SCRIPT_FRAMES_PER_SECOND]) (by decide) rfl rfl
    (by decide) rfl (by decide)
  exact ⟨tp, lp, hrun, hpc, hsi, hlp, hcnt⟩

/-! ## Thread activation -/

theorem nextAvailable_lowest :
    ∀ (threads : List ScriptThread) (k j : Nat) (t : ScriptThread),
      threads[j]? = some t → t.RunStatus = false →
      (∀ i, i < j → ∀ ti, threads[i]? = some ti → ti.RunStatus = true) →
      nextAvailable threads k = k + j := by
  intro threads
  induction threads with
  | nil => intro k j t h; simp at h
  | cons head rest ih =>
    intro k j t h hidle hbefore
    cases j with
    | zero =>
      simp at h
      subst h
      simp [nextAvailable, hidle]
    | succ j =>
      have hhead : head.RunStatus = true := hbefore 0 (by omega) head (by simp)
      have hrest := ih (k + 1) j t (by simpa using h) hidle
        (fun i hi ti hti => hbefore (i + 1) (by omega) ti (by simpa using hti))
      simp [nextAvailable, hhead, hrest]
      omega

/-- C13 (amended). EvtExec thread selection and initialisation.  When the
thread number of the instruction is a valid pool index the handler chooses
that thread, whether it runs or not; when it is not and the pool has a thread
that does not run, it chooses the lowest-index such thread.  On the chosen
thread (with an existing entry point and level 0) it sets RunStatus true, the
program counter to the entry address, and the IfElseCounter and LoopLevel of
level 0 to -1; the pool keeps its length, every other thread is unchanged and
the handler returns 1. -/
theorem ScriptEvtExec_selects_and_initialises (E : Env) (lineData : List Nat)
    (scriptData : ScriptFunction) (scriptDef : ScriptDef) (chosen : Nat) (t : ScriptThread)
    (l0 : LevelState) (pc : Int)
    (hsel : (0 ≤ (E.readEventExec lineData).ThreadNum ∧
        (E.readEventExec lineData).ThreadNum < scriptDef.ScriptThreads.length ∧
        (E.readEventExec lineData).ThreadNum = chosen) ∨
      (¬ (0 ≤ (E.readEventExec lineData).ThreadNum ∧
          (E.readEventExec lineData).ThreadNum < scriptDef.ScriptThreads.length) ∧
        t.RunStatus = false ∧
        ∀ i, i < chosen → ∀ ti, scriptDef.ScriptThreads[i]? = some ti → ti.RunStatus = true))
    (ht : scriptDef.ScriptThreads[chosen]? = some t)
    (hpc : scriptData.start (E.readEventExec lineData).Event = .ok pc)
    (hl0 : index t.LevelState 0 = .ok l0) :
    ∃ pool, ScriptEvtExec E lineData scriptData scriptDef = .ok ({ ScriptThreads := pool }, 1) ∧
      pool[chosen]? = some
        { t with
          RunStatus := true
          ProgramCounter := pc
          LevelState := store t.LevelState 0
            { l0 with IfElseCounter := -1, LoopLevel := -1 } } ∧
      index (store t.LevelState 0 { l0 with IfElseCounter := -1, LoopLevel := -1 }) 0 =
        .ok { l0 with IfElseCounter := -1, LoopLevel := -1 } ∧
      pool.length = scriptDef.ScriptThreads.length ∧
      ∀ j, j ≠ chosen → pool[j]? = scriptDef.ScriptThreads[j]? := by
  have hlt : chosen < scriptDef.ScriptThreads.length := by
    rw [List.getElem?_eq_some] at ht
    exact ht.1
  have hnext : (if 0 ≤ (E.readEventExec lineData).ThreadNum ∧
      (E.readEventExec lineData).ThreadNum < scriptDef.ScriptThreads.length then
      (E.readEventExec lineData).ThreadNum.toNat
      else nextAvailable scriptDef.ScriptThreads 0) = chosen := by
    rcases hsel with ⟨h0, h1, h2⟩ | ⟨hn, hidle, hbefore⟩
    · rw [if_pos ⟨h0, h1⟩, h2]; simp
    · rw [if_neg hn, nextAvailable_lowest _ 0 chosen t ht hidle hbefore]; simp
  refine ⟨scriptDef.ScriptThreads.set chosen
    { t with
      RunStatus := true
      ProgramCounter := pc
      LevelState := store t.LevelState 0 { l0 with IfElseCounter := -1, LoopLevel := -1 } },
    ?_, ?_, index_store_same _ _ _ _ hl0, ?_, ?_⟩
  · unfold ScriptEvtExec
    simp only [hnext]
    simp [(thread_ok_iff _ _ _).2 ht, hpc, hl0, bind, Except.bind, pure, Except.pure,
      ScriptDef.setThread]
  · simp [List.getElem?_set, hlt]
  · simp
  · intro j hj
    simp [List.getElem?_set, Ne.symm hj]


theorem ScriptEvtExec_selects_and_initialises_witness :
    (∃ pool, ScriptEvtExec sampleEnv [0x04, 3, 0, 1] gosubScript
        { ScriptThreads := samplePool [0, 1, 3] } = .ok ({ ScriptThreads := pool }, 1) ∧
      pool[3]? = some (sampleThread true 100) ∧
      ∀ j, j ≠ 3 → pool[j]? = (samplePool [0, 1, 3])[j]?) ∧
    (∃ pool, ScriptEvtExec sampleEnv [0x04, 0xff, 0, 1] gosubScript
        { ScriptThreads := samplePool [0, 1, 3] } = .ok ({ ScriptThreads := pool }, 1) ∧
      pool[2]? = some (sampleThread true 100) ∧
      ∀ j, j ≠ 2 → pool[j]? = (samplePool [0, 1, 3])[j]?) := by
  constructor
  · obtain ⟨pool, h, ht, _, _, hrest⟩ := ScriptEvtExec_selects_and_initialises sampleEnv
      [0x04, 3, 0, 1] gosubScript { ScriptThreads := samplePool [0, 1, 3] } 3
      (sampleThread true 0) (idleLevel 8 4) 100
      (Or.inl (by decide)) (by decide) (by decide) (by decide)
    exact ⟨pool, h, ht, hrest⟩
  · have h0 : (samplePool [0, 1, 3])[0]? = some (sampleThread true 0) := by decide
    have h1 : (samplePool [0, 1, 3])[1]? = some (sampleThread true 0) := by decide
    obtain ⟨pool, h, ht, _, _, hrest⟩ := ScriptEvtExec_selects_and_initialises sampleEnv
      [0x04, 0xff, 0, 1] gosubScript { ScriptThreads := samplePool [0, 1, 3] } 2
      (sampleThread false 0) (idleLevel 8 4) 100
      (Or.inr ⟨by decide, rfl, fun i hi ti hti => by
        have hcases : i = 0 ∨ i = 1 := by omega
        rcases hcases with rfl | rfl
        · rw [h0] at hti; cases hti; rfl
        · rw [h1] at hti; cases hti; rfl⟩)
      (by decide) (by decide) (by decide)
    exact ⟨pool, h, ht, hrest⟩

/-- C13 (counterexample). Every thread of the pool runs and the thread number
255 of the instruction is not a pool index: there is no thread whose RunStatus
is false, and the handler still returns 1, having chosen thread 0 and set its
program counter to the entry address 100. -/
theorem ScriptEvtExec_all_running_counterexample :
    (samplePool (List.range 20)).all (fun t => t.RunStatus) = true ∧
    ¬ (0 ≤ (sampleEnv.readEventExec [0x04, 0xff, 0, 1]).ThreadNum ∧
      (sampleEnv.readEventExec [0x04, 0xff, 0, 1]).ThreadNum
        < (samplePool (List.range 20)).length) ∧
    ScriptEvtExec sampleEnv [0x04, 0xff, 0, 1] gosubScript
        { ScriptThreads := samplePool (List.range 20) } =
      .ok ({ ScriptThreads := (samplePool (List.range 20)).set 0 (sampleThread true 100) }, 1) := by
  decide

/-- C14. The code at the failing input: thread 0 opened an if-block and then
halted on a top-level evt_end inside it, so level 0 is left with
IfElseCounter 0 and StackIndex 1.  `InitScript` on that thread sets RunStatus
and the program counter (entry 1, address 100) and nothing else: IfElseCounter
is still 0.  `ScriptEvtExec` on the same pool sets it to -1. -/
theorem InitScript_keeps_control_state :
    (do
      let (t1, _) ← ScriptIfBlockStart sampleEnv [0x06, 0, 6, 0] (sampleThread true 0)
      let (t2, _) ← ScriptEvtEnd t1
      let scriptDef ← InitScript { ScriptThreads := (samplePool []).set 0 t2 } gosubScript 0 1
      let t ← scriptDef.thread 0
      let levelState ← index t.LevelState 0
      pure (t.RunStatus, t.ProgramCounter, levelState.IfElseCounter, levelState.LoopLevel,
        t.StackIndex)) = Except.ok (true, 100, 0, -1, 1) ∧
    (do
      let (t1, _) ← ScriptIfBlockStart sampleEnv [0x06, 0, 6, 0] (sampleThread true 0)
      let (t2, _) ← ScriptEvtEnd t1
      let (scriptDef, _) ← ScriptEvtExec sampleEnv [0x04, 0, 0, 1] gosubScript
        { ScriptThreads := (samplePool []).set 0 t2 }
      let t ← scriptDef.thread 0
      let levelState ← index t.LevelState 0
      pure (t.RunStatus, t.ProgramCounter, levelState.IfElseCounter, levelState.LoopLevel,
        t.StackIndex)) = Except.ok (true, 100, -1, -1, 1) := by
  decide

/-- C17. The code at the failing input: variable 1 holds 10, variable 2 holds
5, and the thread is at a calc2 instruction with operation 0 (add),
destination variable 1 and source variable 2.  The pass of `RunScriptThread`
dispatches the opcode to `ScriptCalc`, which decodes the bytes as a calc
instruction with a literal operand and never reads variable 2: variable 1
still holds 10 afterwards.  `ScriptCalc2` on the same instruction stores 15. -/
theorem calc2_dispatched_to_ScriptCalc :
    ((RunScriptThread sampleEnv calc2Script 4 0 10
        { scriptDef := { ScriptThreads := samplePool [0] }
          scriptDeltaTime := 0
          gameDef := (gameWith 1 10).SetScriptVariable 2 5 }).map
      fun m => (m.gameDef.GetScriptVariable 1, m.scriptDef.ScriptThreads[0]?.map
        fun t => (t.RunStatus, t.ProgramCounter))) = .ok (10, some (false, 6)) ∧
    ((ScriptCalc2 sampleEnv [0x27, 0, 1, 2] ((gameWith 1 10).SetScriptVariable 2 5)).map
      fun p => (p.1.GetScriptVariable 1, p.2)) = .ok (15, 1) := by
  constructor
  · rw [RunScriptThread_open sampleEnv calc2Script 4 0 10 _ (sampleThread true 0)
      (by norm_num [SCRIPT_FRAMES_PER_SECOND]) (by decide) rfl]
    decide
  · decide

/-- C20. The code at the failing input: a thread with StackIndex 0 (no open
block).  `ScriptEndIf` and `ScriptElseCheck` both complete with the signal 1
and leave StackIndex at -1; neither reports an error. -/
theorem end_if_and_else_pop_without_check :
    (do
      let (t1, returnValue) ← ScriptEndIf (sampleThread true 0)
      pure (t1.StackIndex, returnValue)) = Except.ok (-1, 1) ∧
    (do
      let (t1, returnValue) ← ScriptElseCheck sampleEnv [0x07, 0, 6, 0] (sampleThread true 0)
      pure (t1.StackIndex, returnValue)) = Except.ok (-1, 1) := by
  decide

/-! ## Handlers of the state and query group -/

/-- C15. Compare operator table.  With v the value of the variable named by
the instruction and w its literal, `ScriptCompare` returns the game state it
was given (the variable store is not modified) and the signal 1 when the
relation selected by Operation holds, 0 when it does not: 0 is v = w, 1 is
v > w, 2 is v >= w, 3 is v < w, 4 is v <= w, 5 is v != w, 6 is
(v AND w) != 0. -/
theorem compare_operator_table (E : Env) (lineData : List Nat) (gameDef : GameDef) :
    ((E.readCompare lineData).Operation = 0 →
      ScriptCompare E lineData gameDef = .ok (gameDef,
        if gameDef.GetScriptVariable (E.readCompare lineData).VarId
          = (E.readCompare lineData).Value then 1 else 0)) ∧
    ((E.readCompare lineData).Operation = 1 →
      ScriptCompare E lineData gameDef = .ok (gameDef,
        if gameDef.GetScriptVariable (E.readCompare lineData).VarId
          > (E.readCompare lineData).Value then 1 else 0)) ∧
    ((E.readCompare lineData).Operation = 2 →
      ScriptCompare E lineData gameDef = .ok (gameDef,
        if gameDef.GetScriptVariable (E.readCompare lineData).VarId
          ≥ (E.readCompare lineData).Value then 1 else 0)) ∧
    ((E.readCompare lineData).Operation = 3 →
      ScriptCompare E lineData gameDef = .ok (gameDef,
        if gameDef.GetScriptVariable (E.readCompare lineData).VarId
          < (E.readCompare lineData).Value then 1 else 0)) ∧
    ((E.readCompare lineData).Operation = 4 →
      ScriptCompare E lineData gameDef = .ok (gameDef,
        if gameDef.GetScriptVariable (E.readCompare lineData).VarId
          ≤ (E.readCompare lineData).Value then 1 else 0)) ∧
    ((E.readCompare lineData).Operation = 5 →
      ScriptCompare E lineData gameDef = .ok (gameDef,
        if gameDef.GetScriptVariable (E.readCompare lineData).VarId
          ≠ (E.readCompare lineData).Value then 1 else 0)) ∧
    ((E.readCompare lineData).Operation = 6 →
      ScriptCompare E lineData gameDef = .ok (gameDef,
        if Int.land (gameDef.GetScriptVariable (E.readCompare lineData).VarId)
          (E.readCompare lineData).Value ≠ 0 then 1 else 0)) := by
  refine ⟨?_, ?_, ?_, ?_, ?_, ?_, ?_⟩ <;> intro h <;>
    simp only [ScriptCompare, h, pure, Except.pure] <;> split_ifs <;> first | rfl | omega


theorem compare_operator_table_witness :
    ScriptCompare sampleEnv [0x23, 0, 5, 0, 5, 0] (gameWith 5 5) = .ok (gameWith 5 5, 1) ∧
    ScriptCompare sampleEnv [0x23, 0, 5, 1, 5, 0] (gameWith 5 5) = .ok (gameWith 5 5, 0) ∧
    ScriptCompare sampleEnv [0x23, 0, 5, 2, 5, 0] (gameWith 5 5) = .ok (gameWith 5 5, 1) ∧
    ScriptCompare sampleEnv [0x23, 0, 5, 3, 5, 0] (gameWith 5 5) = .ok (gameWith 5 5, 0) ∧
    ScriptCompare sampleEnv [0x23, 0, 5, 4, 5, 0] (gameWith 5 5) = .ok (gameWith 5 5, 1) ∧
    ScriptCompare sampleEnv [0x23, 0, 5, 5, 5, 0] (gameWith 5 5) = .ok (gameWith 5 5, 0) ∧
    ScriptCompare sampleEnv [0x23, 0, 5, 6, 4, 0] (gameWith 5 6) = .ok (gameWith 5 6, 1) :=
  ⟨(compare_operator_table sampleEnv [0x23, 0, 5, 0, 5, 0] (gameWith 5 5)).1 (by decide),
    (compare_operator_table sampleEnv [0x23, 0, 5, 1, 5, 0] (gameWith 5 5)).2.1 (by decide),
    (compare_operator_table sampleEnv [0x23, 0, 5, 2, 5, 0] (gameWith 5 5)).2.2.1 (by decide),
    (compare_operator_table sampleEnv [0x23, 0, 5, 3, 5, 0] (gameWith 5 5)).2.2.2.1 (by decide),
    (compare_operator_table sampleEnv [0x23, 0, 5, 4, 5, 0] (gameWith 5 5)).2.2.2.2.1 (by decide),
    (compare_operator_table sampleEnv [0x23, 0, 5, 5, 5, 0] (gameWith 5 5)).2.2.2.2.2.1
      (by decide),
    (compare_operator_table sampleEnv [0x23, 0, 5, 6, 4, 0] (gameWith 5 6)).2.2.2.2.2.2
      (by decide)⟩

theorem wrap64_of_inRange (x : Int) (hlo : -2 ^ 63 ≤ x) (hhi : x < 2 ^ 63) : wrap64 x = x := by
  unfold wrap64
  rw [Int.emod_eq_of_lt (by omega) (by omega)]
  omega

theorem ScriptVariableCalculator_fatal (operation l r : Int)
    (h : operation < 0 ∨ 11 < operation) :
    ScriptVariableCalculator operation l r = .error .fatal := by
  unfold ScriptVariableCalculator
  have h0 : operation ≠ 0 := by omega
  have h1 : operation ≠ 1 := by omega
  have h2 : operation ≠ 2 := by omega
  have h3 : operation ≠ 3 := by omega
  have h4 : operation ≠ 4 := by omega
  have h5 : operation ≠ 5 := by omega
  have h6 : operation ≠ 6 := by omega
  have h7 : operation ≠ 7 := by omega
  have h8 : operation ≠ 8 := by omega
  have h9 : operation ≠ 9 := by omega
  have h10 : operation ≠ 10 := by omega
  have h11 : operation ≠ 11 := by omega
  simp [h0, h1, h2, h3, h4, h5, h6, h7, h8, h9, h10, h11]

theorem ScriptCalc_eq (E : Env) (lineData : List Nat) (gameDef : GameDef) :
    ScriptCalc E lineData gameDef =
      (ScriptVariableCalculator (E.readCalc lineData).Operation
        (gameDef.GetScriptVariable (E.readCalc lineData).VarId)
        (E.readCalc lineData).Value).map
        fun result => (gameDef.SetScriptVariable (E.readCalc lineData).VarId result, 1) := by
  unfold ScriptCalc
  cases h : ScriptVariableCalculator (E.readCalc lineData).Operation
    (gameDef.GetScriptVariable (E.readCalc lineData).VarId) (E.readCalc lineData).Value <;>
    simp [h, bind, Except.bind, pure, Except.pure, Except.map]

/-- C16. Calculator operator table.  With results taken as Go's 64-bit `int`
(`wrap64`, the identity on every value that fits), operation 0 is l + r, 1 is
l - r, 2 is l * r, 3 the truncated quotient and 4 the truncated remainder
(r not 0), 5 OR, 6 AND, 7 XOR, 8 NOT l, 9 the left shift and 10 and 11 both
the arithmetic right shift by r % 32 (that remainder not negative); 10 and 11
agree on every input; every operation below 0 or above 11 is fatal.
`ScriptCalc` applies the calculator to the value of the variable and the
literal of the instruction and stores the result in the same variable,
returning 1. -/
theorem calculator_operator_table (l r : Int) :
    ScriptVariableCalculator 0 l r = .ok (wrap64 (l + r)) ∧
    ScriptVariableCalculator 1 l r = .ok (wrap64 (l - r)) ∧
    ScriptVariableCalculator 2 l r = .ok (wrap64 (l * r)) ∧
    (r ≠ 0 → ScriptVariableCalculator 3 l r = .ok (wrap64 (Int.tdiv l r))) ∧
    (r ≠ 0 → ScriptVariableCalculator 4 l r = .ok (Int.tmod l r)) ∧
    ScriptVariableCalculator 5 l r = .ok (Int.lor l r) ∧
    ScriptVariableCalculator 6 l r = .ok (Int.land l r) ∧
    ScriptVariableCalculator 7 l r = .ok (Int.xor l r) ∧
    ScriptVariableCalculator 8 l r = .ok (Int.not l) ∧
    (0 ≤ Int.tmod r 32 →
      ScriptVariableCalculator 9 l r = .ok (wrap64 (l * 2 ^ (Int.tmod r 32).toNat))) ∧
    (0 ≤ Int.tmod r 32 →
      ScriptVariableCalculator 10 l r = .ok (Int.shiftRight l (Int.tmod r 32).toNat)) ∧
    (0 ≤ Int.tmod r 32 →
      ScriptVariableCalculator 11 l r = .ok (Int.shiftRight l (Int.tmod r 32).toNat)) ∧
    ScriptVariableCalculator 10 l r = ScriptVariableCalculator 11 l r ∧
    (∀ operation : Int, operation < 0 ∨ 11 < operation →
      ScriptVariableCalculator operation l r = .error .fatal) ∧
    (∀ x : Int, -2 ^ 63 ≤ x → x < 2 ^ 63 → wrap64 x = x) ∧
    (∀ (E : Env) (lineData : List Nat) (gameDef : GameDef),
      (E.readCalc lineData).Value = r →
      gameDef.GetScriptVariable (E.readCalc lineData).VarId = l →
      ScriptCalc E lineData gameDef =
        (ScriptVariableCalculator (E.readCalc lineData).Operation l r).map
          fun result => (gameDef.SetScriptVariable (E.readCalc lineData).VarId result, 1)) := by
  refine ⟨?_, ?_, ?_, ?_, ?_, ?_, ?_, ?_, ?_, ?_, ?_, ?_, ?_, ?_, ?_, ?_⟩
  · simp [ScriptVariableCalculator, pure, Except.pure]
  · simp [ScriptVariableCalculator, pure, Except.pure]
  · simp [ScriptVariableCalculator, pure, Except.pure]
  · intro h; simp [ScriptVariableCalculator, pure, Except.pure, h]
  · intro h; simp [ScriptVariableCalculator, pure, Except.pure, h]
  · simp [ScriptVariableCalculator, pure, Except.pure]
  · simp [ScriptVariableCalculator, pure, Except.pure]
  · simp [ScriptVariableCalculator, pure, Except.pure]
  · simp [ScriptVariableCalculator, pure, Except.pure]
  · intro h
    have h' : ¬ Int.tmod r 32 < 0 := by omega
    simp [ScriptVariableCalculator, shiftCount, pure, Except.pure, bind, Except.bind, h']
  · intro h
    have h' : ¬ Int.tmod r 32 < 0 := by omega
    simp [ScriptVariableCalculator, shiftCount, pure, Except.pure, bind, Except.bind, h']
  · intro h
    have h' : ¬ Int.tmod r 32 < 0 := by omega
    simp [ScriptVariableCalculator, shiftCount, pure, Except.pure, bind, Except.bind, h']
  · simp [ScriptVariableCalculator]
  · exact fun operation h => ScriptVariableCalculator_fatal operation l r h
  · exact wrap64_of_inRange
  · intro E lineData gameDef hr hl
    rw [ScriptCalc_eq, hr, hl]

theorem calculator_operator_table_witness :
    ScriptVariableCalculator 0 7 2 = .ok 9 ∧
    ScriptVariableCalculator 3 (-7) 2 = .ok (-3) ∧
    ScriptVariableCalculator 4 (-7) 2 = .ok (-1) ∧
    ScriptVariableCalculator 9 3 34 = .ok 12 ∧
    ScriptVariableCalculator 10 (-8) 1 = .ok (-4) ∧
    ScriptVariableCalculator 11 (-8) 1 = .ok (-4) ∧
    ScriptVariableCalculator 12 7 2 = .error .fatal :=
  ⟨(calculator_operator_table 7 2).1.trans (by decide),
    ((calculator_operator_table (-7) 2).2.2.2.1 (by decide)).trans (by decide),
    ((calculator_operator_table (-7) 2).2.2.2.2.1 (by decide)).trans (by decide),
    ((calculator_operator_table 3 34).2.2.2.2.2.2.2.2.2.1 (by decide)).trans (by decide),
    ((calculator_operator_table (-8) 1).2.2.2.2.2.2.2.2.2.2.1 (by decide)).trans (by decide),
    ((calculator_operator_table (-8) 1).2.2.2.2.2.2.2.2.2.2.2.1 (by decide)).trans (by decide),
    (calculator_operator_table 7 2).2.2.2.2.2.2.2.2.2.2.2.2.2.1 12 (by decide)⟩

theorem xor_one_xor_one (b : Int) : Int.xor (Int.xor b 1) 1 = b := by
  have hn : ∀ n : Nat, (n ^^^ 1) ^^^ 1 = n := by
    intro n
    rw [Nat.xor_assoc, Nat.xor_self, Nat.xor_zero]
  cases b with
  | ofNat n =>
    show Int.xor (Int.xor (Int.ofNat n) (Int.ofNat 1)) (Int.ofNat 1) = Int.ofNat n
    simp only [Int.xor]
    exact congrArg Int.ofNat (hn n)
  | negSucc n =>
    show Int.xor (Int.xor (Int.negSucc n) (Int.ofNat 1)) (Int.ofNat 1) = Int.negSucc n
    simp only [Int.xor]
    exact congrArg Int.negSucc (hn n)

theorem GetBitArray_SetBitArray (gameDef : GameDef) (a n v a1 n1 : Int) :
    (gameDef.SetBitArray a n v).GetBitArray a1 n1 =
      if a1 = a ∧ n1 = n then v else gameDef.GetBitArray a1 n1 := by
  rfl

/-- C18. Set-bit operations.  Operation 0 makes the addressed bit 0, operation
1 makes it 1, operation 7 makes it its previous value XOR 1 (1 for 0 and 0
for 1), and a second execution of operation 7 gives back the bit array of the
start; each returns 1 and leaves every other bit as it was.  Any other
operation code is the fatal error (no new state). -/
theorem set_bit_operations (E : Env) (lineData : List Nat) (gameDef : GameDef) :
    ((E.readSetBit lineData).Operation = 0 →
      ∃ g1, ScriptSetBit E lineData gameDef = .ok (g1, 1) ∧
        g1.GetBitArray (E.readSetBit lineData).BitArray (E.readSetBit lineData).BitNumber = 0 ∧
        ∀ a n, ¬ (a = (E.readSetBit lineData).BitArray ∧ n = (E.readSetBit lineData).BitNumber) →
          g1.GetBitArray a n = gameDef.GetBitArray a n) ∧
    ((E.readSetBit lineData).Operation = 1 →
      ∃ g1, ScriptSetBit E lineData gameDef = .ok (g1, 1) ∧
        g1.GetBitArray (E.readSetBit lineData).BitArray (E.readSetBit lineData).BitNumber = 1 ∧
        ∀ a n, ¬ (a = (E.readSetBit lineData).BitArray ∧ n = (E.readSetBit lineData).BitNumber) →
          g1.GetBitArray a n = gameDef.GetBitArray a n) ∧
    ((E.readSetBit lineData).Operation = 7 →
      ∃ g1 g2, ScriptSetBit E lineData gameDef = .ok (g1, 1) ∧
        g1.GetBitArray (E.readSetBit lineData).BitArray (E.readSetBit lineData).BitNumber =
          Int.xor (gameDef.GetBitArray (E.readSetBit lineData).BitArray
            (E.readSetBit lineData).BitNumber) 1 ∧
        (∀ a n, ¬ (a = (E.readSetBit lineData).BitArray ∧ n = (E.readSetBit lineData).BitNumber) →
          g1.GetBitArray a n = gameDef.GetBitArray a n) ∧
        ScriptSetBit E lineData g1 = .ok (g2, 1) ∧
        ∀ a n, g2.GetBitArray a n = gameDef.GetBitArray a n) ∧
    ((E.readSetBit lineData).Operation ≠ 0 → (E.readSetBit lineData).Operation ≠ 1 →
      (E.readSetBit lineData).Operation ≠ 7 →
      ScriptSetBit E lineData gameDef = .error .fatal) ∧
    Int.xor 0 1 = 1 ∧ Int.xor 1 1 = 0 := by
  refine ⟨?_, ?_, ?_, ?_, by decide, by decide⟩
  · intro h
    refine ⟨_, by simp [ScriptSetBit, h, pure, Except.pure]; rfl, ?_, ?_⟩
    · simp [GetBitArray_SetBitArray]
    · intro a n hne
      simp [GetBitArray_SetBitArray, hne]
  · intro h
    refine ⟨_, by simp [ScriptSetBit, h, pure, Except.pure]; rfl, ?_, ?_⟩
    · simp [GetBitArray_SetBitArray]
    · intro a n hne
      simp [GetBitArray_SetBitArray, hne]
  · intro h
    refine ⟨_, _, by simp [ScriptSetBit, h, pure, Except.pure]; rfl, ?_, ?_,
      by simp [ScriptSetBit, h, pure, Except.pure]; rfl, ?_⟩
    · simp [GetBitArray_SetBitArray]
    · intro a n hne
      simp [GetBitArray_SetBitArray, hne]
    · intro a n
      simp only [GetBitArray_SetBitArray]
      by_cases hc : a = (E.readSetBit lineData).BitArray ∧ n = (E.readSetBit lineData).BitNumber
      · simp only [hc, and_self, if_true, xor_one_xor_one]
      · simp [hc]
  · intro h0 h1 h7
    simp [ScriptSetBit, h0, h1, h7]


theorem set_bit_operations_witness :
    (∃ g1, ScriptSetBit sampleEnv [0x22, 3, 5, 1] sampleGame = .ok (g1, 1) ∧
      g1.GetBitArray 3 5 = 1) ∧
    (∃ g1 g2, ScriptSetBit sampleEnv [0x22, 3, 5, 7] sampleGame = .ok (g1, 1) ∧
      g1.GetBitArray 3 5 = 1 ∧ ScriptSetBit sampleEnv [0x22, 3, 5, 7] g1 = .ok (g2, 1) ∧
      g2.GetBitArray 3 5 = 0) ∧
    ScriptSetBit sampleEnv [0x22, 3, 5, 2] sampleGame = .error .fatal := by
  refine ⟨?_, ?_, ?_⟩
  · obtain ⟨g1, h, hb, _⟩ :=
      (set_bit_operations sampleEnv [0x22, 3, 5, 1] sampleGame).2.1 (by decide)
    exact ⟨g1, h, hb⟩
  · obtain ⟨g1, g2, h1, hb1, _, h2, hb2⟩ :=
      (set_bit_operations sampleEnv [0x22, 3, 5, 7] sampleGame).2.2.1 (by decide)
    exact ⟨g1, g2, h1, hb1, h2, hb2 3 5⟩
  · exact (set_bit_operations sampleEnv [0x22, 3, 5, 2] sampleGame).2.2.2.1
      (by decide) (by decide) (by decide)

/-! ## Faults -/

theorem switchScan_unknown (E : Env) (instructions : Int → List Nat) (gameDef : GameDef)
    (sw : ScriptInstrSwitch) (fuel : Nat) (address : Int) (opcode : Nat) (rest : List Nat)
    (hins : instructions address = opcode :: rest) (hnc : opcode ≠ E.OP_CASE)
    (hnd : opcode ≠ E.OP_DEFAULT) (hne : opcode ≠ E.OP_END_SWITCH) :
    switchScan E instructions gameDef sw (fuel + 1) address = .error .fatal := by
  rw [switchScan]
  simp only [hins, opcodeOf, bind, Except.bind]
  simp [hnc, hnd, hne]

/-- C21. Unknown opcode inside a switch scan.  When the scan of
`ScriptSwitchBegin` (on a thread whose level and new loop frame exist) passes
`k` case entries whose literal differs from the value of the switch variable
and then finds at `target` an instruction whose opcode is none of case,
default and end_switch, the handler ends in the fatal error: it returns no
thread state and no control signal.  Any fuel above `k` is enough. -/
theorem switch_scan_unknown_opcode_is_fatal (E : Env) (fuel : Nat) (opcode : Nat)
    (rest : List Nat) (instructions : Int → List Nat) (gameDef : GameDef) (t : ScriptThread)
    (l : LevelState) (f : LoopState) (k : Nat) (target : Int) (opT : Nat)
    (restT : List Nat)
    (hl : t.level = .ok l) (hf : index l.LoopState (l.LoopLevel + 1) = .ok f)
    (hskip : skipCases E instructions
      (gameDef.GetScriptVariable (E.readSwitch (opcode :: rest)).VarId) k
      (t.ProgramCounter + E.InstructionSize opcode) = some target)
    (hT : instructions target = opT :: restT)
    (hunknown : opT ≠ E.OP_CASE ∧ opT ≠ E.OP_DEFAULT ∧ opT ≠ E.OP_END_SWITCH)
    (hfuel : k < fuel) :
    ScriptSwitchBegin E fuel (opcode :: rest) instructions gameDef t = .error .fatal := by
  obtain ⟨fuel1, rfl⟩ : ∃ fuel1, fuel = k + (fuel1 + 1) := ⟨fuel - k - 1, by omega⟩
  have hscan : switchScan E instructions gameDef (E.readSwitch (opcode :: rest))
      (k + (fuel1 + 1)) (t.ProgramCounter + E.InstructionSize opcode) = .error .fatal := by
    rw [switchScan_skip E instructions gameDef _ _ k _ _ hskip]
    exact switchScan_unknown E instructions gameDef _ _ target opT restT hT hunknown.1
      hunknown.2.1 hunknown.2.2
  unfold ScriptThread.level at hl
  simp [ScriptSwitchBegin, opcodeOf, bind, Except.bind, hl, hf, hscan]

theorem switch_scan_unknown_opcode_is_fatal_witness :
    ScriptSwitchBegin sampleEnv 8 [0x13, 5, 18, 0] badSwitchScript.Instructions
      (gameWith 5 7) (sampleThread true 0) = .error .fatal :=
  switch_scan_unknown_opcode_is_fatal sampleEnv 8 0x13 [5, 18, 0]
    badSwitchScript.Instructions (gameWith 5 7) (sampleThread true 0) (idleLevel 8 4)
    ⟨0, 0, 0, 0⟩ 1 12 0x24 [1, 9, 0] (by decide) (by decide) (by decide) (by decide)
    (by decide) (by decide)

theorem tmod_neg_iff (r : Int) : Int.tmod r 32 < 0 ↔ r < 0 ∧ ¬ (32 : Int) ∣ r := by
  constructor
  · intro h
    constructor
    · by_contra hr
      have := Int.tmod_nonneg 32 (not_lt.mp hr)
      omega
    · intro hd
      rw [Int.tmod_eq_zero_of_dvd hd] at h
      omega
  · rintro ⟨hr, hd⟩
    have hle : Int.tmod r 32 ≤ 0 := by
      cases r with
      | ofNat n => exact absurd hr (by simp)
      | negSucc n =>
        show -((((n + 1) % 32 : Nat) : Int)) ≤ 0
        omega
    have hne : Int.tmod r 32 ≠ 0 := by
      intro h0
      exact hd (Int.dvd_of_tmod_eq_zero h0)
    omega

theorem ScriptVariableCalculator_div_zero (operation l : Int)
    (h : operation = 3 ∨ operation = 4) :
    ScriptVariableCalculator operation l 0 = .error .panic := by
  rcases h with rfl | rfl <;> simp [ScriptVariableCalculator]

theorem ScriptVariableCalculator_negative_shift (operation l r : Int)
    (h : operation = 9 ∨ operation = 10 ∨ operation = 11) (hr : Int.tmod r 32 < 0) :
    ScriptVariableCalculator operation l r = .error .panic := by
  rcases h with rfl | rfl | rfl <;>
    simp [ScriptVariableCalculator, shiftCount, hr, bind, Except.bind]

theorem ScriptVariableCalculator_completes (operation l r : Int)
    (hlo : 0 ≤ operation) (hhi : operation ≤ 11)
    (hdiv : ¬ ((operation = 3 ∨ operation = 4) ∧ r = 0))
    (hshift : ¬ ((operation = 9 ∨ operation = 10 ∨ operation = 11) ∧ Int.tmod r 32 < 0)) :
    ∃ v, ScriptVariableCalculator operation l r = .ok v := by
  have hcases : operation = 0 ∨ operation = 1 ∨ operation = 2 ∨ operation = 3 ∨
      operation = 4 ∨ operation = 5 ∨ operation = 6 ∨ operation = 7 ∨ operation = 8 ∨
      operation = 9 ∨ operation = 10 ∨ operation = 11 := by omega
  rcases hcases with rfl | rfl | rfl | rfl | rfl | rfl | rfl | rfl | rfl | rfl | rfl | rfl
  · simp [ScriptVariableCalculator, pure, Except.pure]
  · simp [ScriptVariableCalculator, pure, Except.pure]
  · simp [ScriptVariableCalculator, pure, Except.pure]
  · have hr : r ≠ 0 := fun h => hdiv ⟨Or.inl rfl, h⟩
    simp [ScriptVariableCalculator, pure, Except.pure, hr]
  · have hr : r ≠ 0 := fun h => hdiv ⟨Or.inr rfl, h⟩
    simp [ScriptVariableCalculator, pure, Except.pure, hr]
  · simp [ScriptVariableCalculator, pure, Except.pure]
  · simp [ScriptVariableCalculator, pure, Except.pure]
  · simp [ScriptVariableCalculator, pure, Except.pure]
  · simp [ScriptVariableCalculator, pure, Except.pure]
  · have hr : ¬ Int.tmod r 32 < 0 := fun h => hshift ⟨Or.inl rfl, h⟩
    simp [ScriptVariableCalculator, shiftCount, pure, Except.pure, bind, Except.bind, hr]
  · have hr : ¬ Int.tmod r 32 < 0 := fun h => hshift ⟨Or.inr (Or.inl rfl), h⟩
    simp [ScriptVariableCalculator, shiftCount, pure, Except.pure, bind, Except.bind, hr]
  · have hr : ¬ Int.tmod r 32 < 0 := fun h => hshift ⟨Or.inr (Or.inr rfl), h⟩
    simp [ScriptVariableCalculator, shiftCount, pure, Except.pure, bind, Except.bind, hr]

/-- C28. Calculator totality.  For an operation code in 0..11 the calculator
returns a value exactly when it is not the case that the operation is 3 or 4
with r = 0, nor that the operation is 9, 10 or 11 with a negative truncated
remainder r % 32; in those two cases it ends in a run-time panic (division by
zero, negative shift count), not in the fatal error of an invalid operation
code.  The remainder r % 32 is negative exactly when r is negative and not a
multiple of 32. -/
theorem calculator_totality (operation l r : Int) (hlo : 0 ≤ operation)
    (hhi : operation ≤ 11) :
    ((∃ v, ScriptVariableCalculator operation l r = .ok v) ↔
      ¬ ((operation = 3 ∨ operation = 4) ∧ r = 0) ∧
      ¬ ((operation = 9 ∨ operation = 10 ∨ operation = 11) ∧ Int.tmod r 32 < 0)) ∧
    (((operation = 3 ∨ operation = 4) ∧ r = 0) ∨
      ((operation = 9 ∨ operation = 10 ∨ operation = 11) ∧ Int.tmod r 32 < 0) →
      ScriptVariableCalculator operation l r = .error .panic) ∧
    (Int.tmod r 32 < 0 ↔ r < 0 ∧ ¬ (32 : Int) ∣ r) := by
  have hbad : ((operation = 3 ∨ operation = 4) ∧ r = 0) ∨
      ((operation = 9 ∨ operation = 10 ∨ operation = 11) ∧ Int.tmod r 32 < 0) →
      ScriptVariableCalculator operation l r = .error .panic := by
    rintro (⟨hop, rfl⟩ | ⟨hop, hr⟩)
    · exact ScriptVariableCalculator_div_zero operation l hop
    · exact ScriptVariableCalculator_negative_shift operation l r hop hr
  refine ⟨⟨?_, ?_⟩, hbad, tmod_neg_iff r⟩
  · rintro ⟨v, hv⟩
    constructor
    · intro h
      rw [hbad (Or.inl h)] at hv
      cases hv
    · intro h
      rw [hbad (Or.inr h)] at hv
      cases hv
  · rintro ⟨hdiv, hshift⟩
    exact ScriptVariableCalculator_completes operation l r hlo hhi hdiv hshift

theorem calculator_totality_witness :
    ScriptVariableCalculator 3 7 0 = .error .panic ∧
    ScriptVariableCalculator 9 1 (-1) = .error .panic ∧
    (∃ v, ScriptVariableCalculator 10 1 (-64) = .ok v) :=
  ⟨(calculator_totality 3 7 0 (by decide) (by decide)).2.1 (Or.inl ⟨Or.inl rfl, rfl⟩),
    (calculator_totality 9 1 (-1) (by decide) (by decide)).2.1
      (Or.inr ⟨Or.inl rfl, by decide⟩),
    (calculator_totality 10 1 (-64) (by decide) (by decide)).1.2 ⟨by decide, by decide⟩⟩

/-! ## Dispatch -/

theorem execInstruction_of_dispatch (E : Env) (scriptData : ScriptFunction) (fuel cur : Nat)
    (m m1 : Machine) (t t1 : ScriptThread) (opcode : Nat) (rest : List Nat) (r : Int)
    (ht : m.scriptDef.thread cur = .ok t)
    (hins : scriptData.Instructions t.ProgramCounter = opcode :: rest)
    (hdisp : dispatch E scriptData fuel cur opcode (opcode :: rest)
      { m with
        scriptDef := m.scriptDef.setThread cur { t with OverrideProgramCounter := false } }
      = .ok (m1, r))
    (ht1 : m1.scriptDef.thread cur = .ok t1) :
    execInstruction E scriptData fuel cur m =
      .ok ({ m1 with
              scriptDef := m1.scriptDef.setThread cur
                { (if ¬ t1.OverrideProgramCounter then t1.IncrementProgramCounter E opcode
                    else t1) with OverrideProgramCounter := false } }, r) := by
  simp only [execInstruction, ht, hins, opcodeOf, bind, Except.bind, hdisp, ht1, pure,
    Except.pure]

theorem onThread_ok (cur : Nat) (m : Machine) (t t1 : ScriptThread) (r : Int)
    (handler : ScriptThread → Except Fault (ScriptThread × Int))
    (ht : m.scriptDef.thread cur = .ok t) (hh : handler t = .ok (t1, r)) :
    onThread cur m handler = .ok ({ m with scriptDef := m.scriptDef.setThread cur t1 }, r) := by
  simp [onThread, ht, hh, bind, Except.bind, pure, Except.pure]

theorem execInstruction_onThread (E : Env) (scriptData : ScriptFunction) (fuel cur : Nat)
    (m : Machine) (t t1 : ScriptThread) (opcode : Nat) (rest : List Nat) (r : Int)
    (handler : ScriptThread → Except Fault (ScriptThread × Int))
    (ht : m.scriptDef.thread cur = .ok t)
    (hins : scriptData.Instructions t.ProgramCounter = opcode :: rest)
    (hdisp : dispatch E scriptData fuel cur opcode (opcode :: rest)
      { m with
        scriptDef := m.scriptDef.setThread cur { t with OverrideProgramCounter := false } }
      = onThread cur { m with
        scriptDef := m.scriptDef.setThread cur { t with OverrideProgramCounter := false } }
        handler)
    (hh : handler { t with OverrideProgramCounter := false } = .ok (t1, r)) :
    execInstruction E scriptData fuel cur m =
      .ok ({ m with
              scriptDef := m.scriptDef.setThread cur
                { (if ¬ t1.OverrideProgramCounter then t1.IncrementProgramCounter E opcode
                    else t1) with OverrideProgramCounter := false } }, r) := by
  have h0 := thread_setThread m.scriptDef cur t { t with OverrideProgramCounter := false } ht
  have h1 := thread_setThread m.scriptDef cur t t1 ht
  rw [onThread_ok cur _ _ t1 r handler h0 hh] at hdisp
  have h := execInstruction_of_dispatch E scriptData fuel cur m _ t t1 opcode rest r ht hins
    hdisp (by simpa [setThread_setThread] using h1)
  rw [h]
  simp [setThread_setThread]

theorem execInstruction_onGame (E : Env) (scriptData : ScriptFunction) (fuel cur : Nat)
    (m : Machine) (t : ScriptThread) (opcode : Nat) (rest : List Nat) (r : Int)
    (gameDef : GameDef)
    (ht : m.scriptDef.thread cur = .ok t)
    (hins : scriptData.Instructions t.ProgramCounter = opcode :: rest)
    (hdisp : dispatch E scriptData fuel cur opcode (opcode :: rest)
      { m with
        scriptDef := m.scriptDef.setThread cur { t with OverrideProgramCounter := false } }
      = .ok ({ m with
        scriptDef := m.scriptDef.setThread cur { t with OverrideProgramCounter := false }
        gameDef := gameDef }, r)) :
    execInstruction E scriptData fuel cur m =
      .ok ({ m with
              scriptDef := m.scriptDef.setThread cur
                { t with
                  ProgramCounter := t.ProgramCounter + E.InstructionSize opcode
                  OverrideProgramCounter := false }
              gameDef := gameDef }, r) := by
  have h0 := thread_setThread m.scriptDef cur t { t with OverrideProgramCounter := false } ht
  have h := execInstruction_of_dispatch E scriptData fuel cur m _ t _ opcode rest r ht hins
    hdisp h0
  rw [h]
  simp [setThread_setThread, ScriptThread.IncrementProgramCounter]

theorem dispatch_unhandled (E : Env) (scriptData : ScriptFunction) (fuel cur : Nat)
    (opcode : Nat) (lineData : List Nat) (m : Machine) (h : opcode ∉ E.handlerOpcodes) :
    dispatch E scriptData fuel cur opcode lineData m = .ok (m, 1) := by
  simp only [Env.handlerOpcodes, List.mem_cons, List.mem_singleton, not_or, List.mem_nil_iff,
    not_false_eq_true, and_true] at h
  obtain ⟨h1, h2, h3, h4, h5, h6, h7, h8, h9, h10, h11, h12, h13, h14, h15, h16, h17, h18,
    h19, h20, h21, h22, h23, h24, h25, h26, h27, h28, h29, h30, h31, h32, h33, h34, h35, h36,
    h37, h38, h39, h40, h41, h42, h43, h44⟩ := h
  simp only [dispatch, h1, h2, h3, h4, h5, h6, h7, h8, h9, h10, h11, h12, h13, h14, h15, h16,
    h17, h18, h19, h20, h21, h22, h23, h24, h25, h26, h27, h28, h29, h30, h31, h32, h33, h34,
    h35, h36, h37, h38, h39, h40, h41, h42, h43, h44, if_false]
  rfl

/-- C22 (amended). Unknown opcodes in the dispatcher.  For an opcode that has
no case in the switch of `RunScriptThread`, the dispatch step changes nothing
and produces the continue signal 1, and the instruction as a whole only
advances the program counter by the size the table gives for the opcode
(clearing the override flag). -/
theorem unhandled_opcode_continues (E : Env) (scriptData : ScriptFunction) (fuel cur : Nat)
    (m : Machine) (t : ScriptThread) (opcode : Nat) (rest : List Nat)
    (hop : opcode ∉ E.handlerOpcodes)
    (ht : m.scriptDef.thread cur = .ok t)
    (hins : scriptData.Instructions t.ProgramCounter = opcode :: rest) :
    dispatch E scriptData fuel cur opcode (opcode :: rest) m = .ok (m, 1) ∧
    execInstruction E scriptData fuel cur m =
      .ok ({ m with
              scriptDef := m.scriptDef.setThread cur
                { t with
                  ProgramCounter := t.ProgramCounter + E.InstructionSize opcode
                  OverrideProgramCounter := false } }, 1) :=
  ⟨dispatch_unhandled E scriptData fuel cur opcode _ m hop,
    execInstruction_onGame E scriptData fuel cur m t opcode rest 1 m.gameDef ht hins
      (dispatch_unhandled E scriptData fuel cur opcode _ _ hop)⟩

theorem unhandled_opcode_continues_witness :
    0xff ∉ sampleEnv.handlerOpcodes ∧
    execInstruction sampleEnv unknownOpcodeScript 3 0 (sampleMachine (samplePool [0]) 0) =
      .ok (sampleMachine ((samplePool []).set 0 (sampleThread true 1)) 0, 1) :=
  ⟨by decide,
    (unhandled_opcode_continues sampleEnv unknownOpcodeScript 3 0
      (sampleMachine (samplePool [0]) 0) (sampleThread true 0) 0xff [] (by decide)
      (by decide) (by decide)).2⟩

/-- C22 (counterexample). The byte 0xff is none of the opcodes with a handler.
The dispatch step on it returns the machine as it was with the signal 1, and
the pass of `RunScriptThread` goes on to the evt_end that follows: the thread
ends halted with its program counter after that evt_end. -/
theorem unknown_opcode_counterexample :
    dispatch sampleEnv unknownOpcodeScript 3 0 0xff [0xff] (sampleMachine (samplePool [0]) 0) =
      .ok (sampleMachine (samplePool [0]) 0, 1) ∧
    (RunScriptThread sampleEnv unknownOpcodeScript 4 0 10
        (sampleMachine (samplePool [0]) 0)).map (fun m => m.scriptDef) =
      .ok { ScriptThreads := (samplePool []).set 0 (sampleThread false 3) } := by
  constructor
  · rfl
  · rw [RunScriptThread_open sampleEnv unknownOpcodeScript 4 0 10 _ (sampleThread true 0)
      (by norm_num [sampleMachine, SCRIPT_FRAMES_PER_SECOND]) (by decide) rfl]
    decide

theorem dispatch_goto (E : Env) (scriptData : ScriptFunction) (fuel cur : Nat)
    (lineData : List Nat) (m : Machine)
    (h : E.OP_GOTO ∉ [E.OP_EVT_END, E.OP_EVT_EXEC, E.OP_IF_START, E.OP_ELSE_START,
      E.OP_END_IF, E.OP_SLEEP, E.OP_SLEEPING, E.OP_FOR, E.OP_FOR_END, E.OP_SWITCH, E.OP_CASE,
      E.OP_DEFAULT, E.OP_END_SWITCH]) :
    dispatch E scriptData fuel cur E.OP_GOTO lineData m = onThread cur m ScriptGoto := by
  simp only [List.mem_cons, List.mem_singleton, not_or, List.mem_nil_iff,
    not_false_eq_true, and_true] at h
  obtain ⟨h1, h2, h3, h4, h5, h6, h7, h8, h9, h10, h11, h12, h13⟩ := h
  simp only [dispatch, h1, h2, h3, h4, h5, h6, h7, h8, h9, h10, h11, h12, h13, if_false,
    if_true]

/-- C23. goto is a no-op.  `ScriptGoto` returns 1 and the thread it was given,
for every thread.  An instruction whose opcode is goto (an opcode different
from those tested before it in the switch) therefore only advances the
program counter by the size of goto and leaves the override flag cleared;
nothing else in the machine changes. -/
theorem goto_is_a_no_op (E : Env) (scriptData : ScriptFunction) (fuel cur : Nat)
    (m : Machine) (t : ScriptThread) (rest : List Nat)
    (hdistinct : E.OP_GOTO ∉ [E.OP_EVT_END, E.OP_EVT_EXEC, E.OP_IF_START, E.OP_ELSE_START,
      E.OP_END_IF, E.OP_SLEEP, E.OP_SLEEPING, E.OP_FOR, E.OP_FOR_END, E.OP_SWITCH, E.OP_CASE,
      E.OP_DEFAULT, E.OP_END_SWITCH])
    (ht : m.scriptDef.thread cur = .ok t)
    (hins : scriptData.Instructions t.ProgramCounter = E.OP_GOTO :: rest) :
    (∀ u : ScriptThread, ScriptGoto u = .ok (u, 1)) ∧
    execInstruction E scriptData fuel cur m =
      .ok ({ m with
              scriptDef := m.scriptDef.setThread cur
                { t with
                  ProgramCounter := t.ProgramCounter + E.InstructionSize E.OP_GOTO
                  OverrideProgramCounter := false } }, 1) := by
  refine ⟨fun u => rfl, ?_⟩
  have h := execInstruction_onThread E scriptData fuel cur m t
    { t with OverrideProgramCounter := false } E.OP_GOTO rest 1 ScriptGoto ht hins
    (dispatch_goto E scriptData fuel cur _ _ hdistinct) rfl
  rw [h]
  simp [ScriptThread.IncrementProgramCounter]

theorem goto_is_a_no_op_witness :
    ScriptGoto (sampleThread true 0) = .ok (sampleThread true 0, 1) ∧
    execInstruction sampleEnv gotoScript 3 0 (sampleMachine (samplePool [0]) 0) =
      .ok (sampleMachine ((samplePool []).set 0 (sampleThread true 6)) 0, 1) :=
  have h := goto_is_a_no_op sampleEnv gotoScript 3 0 (sampleMachine (samplePool [0]) 0)
    (sampleThread true 0) [0, 1, 0, 20, 0] (by decide) (by decide) (by decide)
  ⟨h.1 _, h.2⟩

theorem dispatch_else (E : Env) (scriptData : ScriptFunction) (fuel cur : Nat)
    (lineData : List Nat) (m : Machine)
    (h : E.OP_ELSE_START ∉ [E.OP_EVT_END, E.OP_EVT_EXEC, E.OP_IF_START]) :
    dispatch E scriptData fuel cur E.OP_ELSE_START lineData m =
      onThread cur m (ScriptElseCheck E lineData) := by
  simp only [List.mem_cons, List.mem_singleton, not_or, List.mem_nil_iff,
    not_false_eq_true, and_true] at h
  obtain ⟨h1, h2, h3⟩ := h
  simp only [dispatch, h1, h2, h3, if_false, if_true]

/-- C24. Else handler.  On a thread whose current level exists,
`ScriptElseCheck` returns 1 with StackIndex and the IfElseCounter of the level
one lower, the program counter at p + B and the override flag set; the block
stack of the level and everything else in the level are as before.  An
instruction whose opcode is else (an opcode different from those tested
before it in the switch) leaves the program counter at exactly p + B: the
dispatcher adds no instruction size. -/
theorem else_handler_skips_block (E : Env) (scriptData : ScriptFunction) (fuel cur : Nat)
    (m : Machine) (t : ScriptThread) (l : LevelState) (rest : List Nat)
    (hl : t.level = .ok l)
    (hdistinct : E.OP_ELSE_START ∉ [E.OP_EVT_END, E.OP_EVT_EXEC, E.OP_IF_START])
    (ht : m.scriptDef.thread cur = .ok t)
    (hins : scriptData.Instructions t.ProgramCounter = E.OP_ELSE_START :: rest) :
    (∃ t1 l1, ScriptElseCheck E (E.OP_ELSE_START :: rest) t = .ok (t1, 1) ∧
      t1.StackIndex = t.StackIndex - 1 ∧
      t1.ProgramCounter = t.ProgramCounter
        + (E.readElseStart (E.OP_ELSE_START :: rest)).BlockLength ∧
      t1.OverrideProgramCounter = true ∧
      t1.SubLevel = t.SubLevel ∧ t1.RunStatus = t.RunStatus ∧
      t1.level = .ok l1 ∧ l1 = { l with IfElseCounter := l.IfElseCounter - 1 }) ∧
    execInstruction E scriptData fuel cur m =
      .ok ({ m with
              scriptDef := m.scriptDef.setThread cur
                { t with
                  StackIndex := t.StackIndex - 1
                  ProgramCounter := t.ProgramCounter
                    + (E.readElseStart (E.OP_ELSE_START :: rest)).BlockLength
                  LevelState := store t.LevelState t.SubLevel
                    { l with IfElseCounter := l.IfElseCounter - 1 }
                  OverrideProgramCounter := false } }, 1) := by
  constructor
  · exact ⟨_, _, ScriptElseCheck_spec E _ t l hl, rfl, rfl, rfl, rfl, rfl,
      level_of_store t l _ hl _ rfl rfl, rfl⟩
  · have hl0 : ScriptThread.level { t with OverrideProgramCounter := false } = .ok l := hl
    have h := execInstruction_onThread E scriptData fuel cur m t _ E.OP_ELSE_START rest 1
      (ScriptElseCheck E (E.OP_ELSE_START :: rest)) ht hins
      (dispatch_else E scriptData fuel cur _ _ hdistinct)
      (ScriptElseCheck_spec E _ { t with OverrideProgramCounter := false } l hl0)
    rw [h]
    simp

theorem else_handler_skips_block_witness :
    execInstruction sampleEnv elseScript 3 0
        (sampleMachine ((samplePool []).set 0 (openBlockThread 4 1)) 0) =
      .ok (sampleMachine ((samplePool []).set 0
        { openBlockThread 10 0 with
          LevelState := { idleLevel 8 4 with Stack := 10 :: List.replicate 7 0 }
            :: List.replicate 3 (idleLevel 8 4) }) 0, 1) :=
  (else_handler_skips_block sampleEnv elseScript 3 0
    (sampleMachine ((samplePool []).set 0 (openBlockThread 4 1)) 0) (openBlockThread 4 1)
    { idleLevel 8 4 with IfElseCounter := 0, Stack := 10 :: List.replicate 7 0 } [0, 6, 0]
    (by decide) (by decide) (by decide) (by decide)).2

theorem ScriptBreak_spec (t : ScriptThread) (l : LevelState) (f : LoopState)
    (hl : t.level = .ok l) (hf : index l.LoopState l.LoopLevel = .ok f) :
    ScriptBreak t =
      .ok ({ t with
              OverrideProgramCounter := true
              ProgramCounter := f.Break
              LevelState := store t.LevelState t.SubLevel
                { l with
                  IfElseCounter := f.LevelIfCounter
                  LoopLevel := l.LoopLevel - 1 } }, 1) := by
  unfold ScriptThread.level at hl
  simp [ScriptBreak, bind, Except.bind, pure, Except.pure, hl, hf]

/-- C26. Break out of a for-loop.  `ScriptForLoopBegin` with a count other
than 0, at program counter p with block length L on a level with
IfElseCounter c and LoopLevel n (the new frame exists), returns 1 and pushes
a frame.  `ScriptBreak` in any later state whose level has LoopLevel n + 1
and still holds the break target and the if-counter snapshot of that frame
returns 1 with the override flag set, the program counter at
p + InstructionSize[for] + L, IfElseCounter c and LoopLevel n. -/
theorem break_leaves_for_loop (E : Env) (opcode : Nat) (rest : List Nat)
    (t : ScriptThread) (l : LevelState) (f : LoopState)
    (hcount : (E.readForStart (opcode :: rest)).Count ≠ 0)
    (hl : t.level = .ok l) (hf : index l.LoopState (l.LoopLevel + 1) = .ok f) :
    ∃ t1 l1 f1, ScriptForLoopBegin E (opcode :: rest) t = .ok (t1, 1) ∧
      t1.level = .ok l1 ∧ l1.LoopLevel = l.LoopLevel + 1 ∧
      index l1.LoopState l1.LoopLevel = .ok f1 ∧
      ∀ t2 l2 f2, t2.level = .ok l2 → l2.LoopLevel = l.LoopLevel + 1 →
        index l2.LoopState l2.LoopLevel = .ok f2 →
        f2.Break = f1.Break → f2.LevelIfCounter = f1.LevelIfCounter →
        ∃ t3 l3, ScriptBreak t2 = .ok (t3, 1) ∧
          t3.ProgramCounter = t.ProgramCounter + E.InstructionSize opcode
            + (E.readForStart (opcode :: rest)).BlockLength ∧
          t3.OverrideProgramCounter = true ∧
          t3.level = .ok l3 ∧ l3.IfElseCounter = l.IfElseCounter ∧
          l3.LoopLevel = l.LoopLevel := by
  refine ⟨_, _,
    { Counter := (E.readForStart (opcode :: rest)).Count
      Break := t.ProgramCounter + E.InstructionSize opcode
        + (E.readForStart (opcode :: rest)).BlockLength
      StackValue := t.ProgramCounter + E.InstructionSize opcode
      LevelIfCounter := l.IfElseCounter },
    ScriptForLoopBegin_enter E opcode rest t l f hcount hl hf,
    level_of_store t l _ hl _ rfl rfl, rfl, index_store_same _ _ _ _ hf, ?_⟩
  intro t2 l2 f2 hl2 hn hf2 hb hc
  refine ⟨_, _, ScriptBreak_spec t2 l2 f2 hl2 hf2, hb, rfl, level_of_store t2 l2 _ hl2 _ rfl rfl,
    hc, ?_⟩
  show l2.LoopLevel - 1 = _
  omega

theorem break_leaves_for_loop_witness :
    ∃ t1 t3 l3, ScriptForLoopBegin sampleEnv [0x0d, 0, 8, 0, 3, 0] (sampleThread true 10)
        = .ok (t1, 1) ∧
      ScriptBreak t1 = .ok (t3, 1) ∧ t3.ProgramCounter = 24 ∧
      t3.OverrideProgramCounter = true ∧ t3.level = .ok l3 ∧ l3.IfElseCounter = -1 ∧
      l3.LoopLevel = -1 := by
  obtain ⟨t1, l1, f1, h1, hl1, hn1, hf1, hbreak⟩ := break_leaves_for_loop sampleEnv 0x0d
    [0, 8, 0, 3, 0] (sampleThread true 10) (idleLevel 8 4) ⟨0, 0, 0, 0⟩ (by decide)
    (by decide) (by decide)
  obtain ⟨t3, l3, h3, hpc, hov, hl3, hc3, hn3⟩ := hbreak t1 l1 f1 hl1 hn1 hf1 rfl rfl
  exact ⟨t1, t3, l3, h1, h3, by rw [hpc]; decide, hov, hl3, hc3, hn3⟩

theorem runLoop_negative_counter (E : Env) (scriptData : ScriptFunction) (cur fuel : Nat)
    (m m1 : Machine) (r : Int) (t : ScriptThread) (l : LevelState)
    (hexec : execInstruction E scriptData fuel cur m = .ok (m1, r))
    (hr1 : r ≠ 1)
    (ht : m1.scriptDef.thread cur = .ok t) (hl : t.level = .ok l)
    (hc : l.IfElseCounter < 0) :
    runLoop E scriptData cur (fuel + 1) m = .ok m1 := by
  unfold ScriptThread.level at hl
  rw [runLoop]
  by_cases hr2 : r = 2
  · simp [hexec, hr2, bind, Except.bind, pure, Except.pure]
  · simp [hexec, hr1, hr2, ht, hl, hc, bind, Except.bind, pure, Except.pure]

theorem runLoop_stop (E : Env) (scriptData : ScriptFunction) (cur fuel : Nat)
    (m m1 : Machine)
    (hexec : execInstruction E scriptData fuel cur m = .ok (m1, 2)) :
    runLoop E scriptData cur (fuel + 1) m = .ok m1 := by
  rw [runLoop]
  simp [hexec, bind, Except.bind, pure, Except.pure]

theorem runLoop_continue (E : Env) (scriptData : ScriptFunction) (cur fuel : Nat)
    (m m1 : Machine)
    (hexec : execInstruction E scriptData fuel cur m = .ok (m1, 1)) :
    runLoop E scriptData cur (fuel + 1) m = runLoop E scriptData cur fuel m1 := by
  rw [runLoop]
  simp [hexec, bind, Except.bind]

theorem dispatch_check (E : Env) (scriptData : ScriptFunction) (fuel cur : Nat)
    (lineData : List Nat) (m : Machine)
    (h : E.OP_CHECK ∉ [E.OP_EVT_END, E.OP_EVT_EXEC, E.OP_IF_START, E.OP_ELSE_START,
      E.OP_END_IF, E.OP_SLEEP, E.OP_SLEEPING, E.OP_FOR, E.OP_FOR_END, E.OP_SWITCH, E.OP_CASE,
      E.OP_DEFAULT, E.OP_END_SWITCH, E.OP_GOTO, E.OP_GOSUB, E.OP_BREAK]) :
    dispatch E scriptData fuel cur E.OP_CHECK lineData m =
      onGame m (ScriptCheckBit E lineData) := by
  simp only [List.mem_cons, List.mem_singleton, not_or, List.mem_nil_iff,
    not_false_eq_true, and_true] at h
  obtain ⟨h1, h2, h3, h4, h5, h6, h7, h8, h9, h10, h11, h12, h13, h14, h15, h16⟩ := h
  simp only [dispatch, h1, h2, h3, h4, h5, h6, h7, h8, h9, h10, h11, h12, h13, h14, h15, h16,
    if_false, if_true]

/-- C25. Negative if-counter ends the pass.  In a pass of `RunScriptThread`
(gate open, thread running), when the executed instruction returns a signal
other than 1 and leaves the thread at a level whose IfElseCounter is
negative, the pass ends with exactly the machine that instruction left: no
block is popped.  For a check instruction that fails (the opcode being
different from those tested before it in the switch) on a thread whose level
has a negative IfElseCounter, that machine differs from the one before the
pass only in the accumulator, reset to 0, and in the program counter of the
thread, which is the address after the check (override flag cleared);
StackIndex, SubLevel, RunStatus and every level are as before. -/
theorem negative_if_counter_ends_pass (E : Env) (scriptData : ScriptFunction)
    (cur fuel : Nat) (e : ℚ) (m : Machine) (t0 : ScriptThread)
    (hgate : m.scriptDeltaTime + e > 1 / SCRIPT_FRAMES_PER_SECOND)
    (ht0 : m.scriptDef.thread cur = .ok t0) (hrun : t0.RunStatus = true) :
    (∀ (m1 : Machine) (r : Int) (t : ScriptThread) (l : LevelState),
      execInstruction E scriptData fuel cur { m with scriptDeltaTime := 0 } = .ok (m1, r) →
      r ≠ 1 → m1.scriptDef.thread cur = .ok t → t.level = .ok l → l.IfElseCounter < 0 →
      RunScriptThread E scriptData (fuel + 1) cur e m = .ok m1) ∧
    (∀ (l0 : LevelState) (rest : List Nat),
      E.OP_CHECK ∉ [E.OP_EVT_END, E.OP_EVT_EXEC, E.OP_IF_START, E.OP_ELSE_START,
        E.OP_END_IF, E.OP_SLEEP, E.OP_SLEEPING, E.OP_FOR, E.OP_FOR_END, E.OP_SWITCH,
        E.OP_CASE, E.OP_DEFAULT, E.OP_END_SWITCH, E.OP_GOTO, E.OP_GOSUB, E.OP_BREAK] →
      scriptData.Instructions t0.ProgramCounter = E.OP_CHECK :: rest →
      m.gameDef.GetBitArray (E.readCheckBitTest (E.OP_CHECK :: rest)).BitArray
          (E.readCheckBitTest (E.OP_CHECK :: rest)).Number
        ≠ (E.readCheckBitTest (E.OP_CHECK :: rest)).Value →
      t0.level = .ok l0 → l0.IfElseCounter < 0 →
      RunScriptThread E scriptData (fuel + 1) cur e m =
        .ok { m with
              scriptDeltaTime := 0
              scriptDef := m.scriptDef.setThread cur
                { t0 with
                  ProgramCounter := t0.ProgramCounter + E.InstructionSize E.OP_CHECK
                  OverrideProgramCounter := false } }) := by
  constructor
  · intro m1 r t l hexec hr1 ht hl hc
    rw [RunScriptThread_open E scriptData _ cur e m t0 hgate ht0 hrun]
    exact runLoop_negative_counter E scriptData cur fuel _ m1 r t l hexec hr1 ht hl hc
  · intro l0 rest hdistinct hins hfail hl0 hc
    rw [RunScriptThread_open E scriptData _ cur e m t0 hgate ht0 hrun]
    have hdisp : dispatch E scriptData fuel cur E.OP_CHECK (E.OP_CHECK :: rest)
        { m with
          scriptDeltaTime := 0
          scriptDef := m.scriptDef.setThread cur { t0 with OverrideProgramCounter := false } }
        = .ok ({ m with
          scriptDeltaTime := 0
          scriptDef := m.scriptDef.setThread cur { t0 with OverrideProgramCounter := false }
          gameDef := m.gameDef }, 0) := by
      rw [dispatch_check E scriptData fuel cur _ _ hdistinct]
      simp [onGame, ScriptCheckBit, hfail, bind, Except.bind, pure, Except.pure]
    have hexec := execInstruction_onGame E scriptData fuel cur { m with scriptDeltaTime := 0 }
      t0 E.OP_CHECK rest 0 m.gameDef ht0 hins hdisp
    refine runLoop_negative_counter E scriptData cur fuel _ _ 0
      { t0 with
        ProgramCounter := t0.ProgramCounter + E.InstructionSize E.OP_CHECK
        OverrideProgramCounter := false } l0 hexec (by decide) ?_ hl0 hc
    exact thread_setThread m.scriptDef cur t0 _ ht0

theorem negative_if_counter_ends_pass_witness :
    RunScriptThread sampleEnv ifScript 4 0 10
        (sampleMachine ((samplePool []).set 0 (sampleThread true 4)) 0) =
      .ok (sampleMachine ((samplePool []).set 0 (sampleThread true 8)) 0) :=
  (negative_if_counter_ends_pass sampleEnv ifScript 0 3 10
    (sampleMachine ((samplePool []).set 0 (sampleThread true 4)) 0) (sampleThread true 4)
    (by norm_num [sampleMachine, SCRIPT_FRAMES_PER_SECOND]) (by decide) rfl).2
    (idleLevel 8 4) [0, 0, 1] (by decide) (by decide) (by decide) (by decide) (by decide)

/-! ## Sleep in the dispatcher -/

theorem execInstruction_onThread_override (E : Env) (scriptData : ScriptFunction)
    (fuel cur : Nat) (m : Machine) (t t1 : ScriptThread) (opcode : Nat) (rest : List Nat)
    (r : Int) (handler : ScriptThread → Except Fault (ScriptThread × Int))
    (ht : m.scriptDef.thread cur = .ok t)
    (hins : scriptData.Instructions t.ProgramCounter = opcode :: rest)
    (hdisp : dispatch E scriptData fuel cur opcode (opcode :: rest)
      { m with
        scriptDef := m.scriptDef.setThread cur { t with OverrideProgramCounter := false } }
      = onThread cur { m with
        scriptDef := m.scriptDef.setThread cur { t with OverrideProgramCounter := false } }
        handler)
    (hh : handler { t with OverrideProgramCounter := false } = .ok (t1, r))
    (hov : t1.OverrideProgramCounter = true) :
    execInstruction E scriptData fuel cur m =
      .ok ({ m with
              scriptDef := m.scriptDef.setThread cur
                { t1 with OverrideProgramCounter := false } }, r) := by
  rw [execInstruction_onThread E scriptData fuel cur m t t1 opcode rest r handler ht hins
    hdisp hh]
  simp [hov]

theorem dispatch_sleep (E : Env) (scriptData : ScriptFunction) (fuel cur : Nat)
    (lineData : List Nat) (m : Machine)
    (h : E.OP_SLEEP ∉ [E.OP_EVT_END, E.OP_EVT_EXEC, E.OP_IF_START, E.OP_ELSE_START,
      E.OP_END_IF]) :
    dispatch E scriptData fuel cur E.OP_SLEEP lineData m =
      onThread cur m (ScriptSleep E lineData) := by
  simp only [List.mem_cons, List.mem_singleton, not_or, List.mem_nil_iff,
    not_false_eq_true, and_true] at h
  obtain ⟨h1, h2, h3, h4, h5⟩ := h
  simp only [dispatch, h1, h2, h3, h4, h5, if_false, if_true]

theorem dispatch_sleeping (E : Env) (scriptData : ScriptFunction) (fuel cur : Nat)
    (lineData : List Nat) (m : Machine)
    (h : E.OP_SLEEPING ∉ [E.OP_EVT_END, E.OP_EVT_EXEC, E.OP_IF_START, E.OP_ELSE_START,
      E.OP_END_IF, E.OP_SLEEP]) :
    dispatch E scriptData fuel cur E.OP_SLEEPING lineData m =
      onThread cur m (ScriptSleeping E lineData) := by
  simp only [List.mem_cons, List.mem_singleton, not_or, List.mem_nil_iff,
    not_false_eq_true, and_true] at h
  obtain ⟨h1, h2, h3, h4, h5, h6⟩ := h
  simp only [dispatch, h1, h2, h3, h4, h5, h6, if_false, if_true]

theorem ScriptSleeping_stall_full (E : Env) (opcode : Nat) (rest : List Nat)
    (u : ScriptThread) (l : LevelState) (f : LoopState)
    (hl : u.level = .ok l) (hf : index l.LoopState l.LoopLevel = .ok f)
    (hc : f.Counter - 1 ≠ 0) :
    ∃ u1 l1, ScriptSleeping E (opcode :: rest) u = .ok (u1, 2) ∧
      u1.ProgramCounter = u.ProgramCounter ∧ u1.OverrideProgramCounter = true ∧
      u1.level = .ok l1 ∧ l1.LoopLevel = l.LoopLevel ∧
      index l1.LoopState l.LoopLevel = .ok { f with Counter := f.Counter - 1 } := by
  have hl1 := hl
  unfold ScriptThread.level at hl1
  refine ⟨_, _, ?_, ?_, ?_, level_store u l
    { l with LoopState := store l.LoopState l.LoopLevel { f with Counter := f.Counter - 1 } }
    u.ProgramCounter true hl, rfl, index_store_same _ _ _ _ hf⟩
  · simp [ScriptSleeping, opcodeOf, bind, Except.bind, pure, Except.pure, hl1, hf, hc]
  · rfl
  · rfl

theorem ScriptSleeping_wake_full (E : Env) (opcode : Nat) (rest : List Nat)
    (u : ScriptThread) (l : LevelState) (f : LoopState)
    (hl : u.level = .ok l) (hf : index l.LoopState l.LoopLevel = .ok f)
    (hc : f.Counter - 1 = 0) :
    ∃ u1 l1, ScriptSleeping E (opcode :: rest) u = .ok (u1, 2) ∧
      u1.ProgramCounter = u.ProgramCounter + E.InstructionSize opcode ∧
      u1.OverrideProgramCounter = true ∧
      u1.level = .ok l1 ∧ l1.LoopLevel = l.LoopLevel - 1 ∧
      index l1.LoopState l.LoopLevel = .ok { f with Counter := 0 } := by
  have hl1 := hl
  unfold ScriptThread.level at hl1
  refine ⟨_, _, ?_, ?_, ?_, level_store u l
    { l with
      LoopState := store l.LoopState l.LoopLevel { f with Counter := f.Counter - 1 }
      LoopLevel := l.LoopLevel - 1 }
    (u.ProgramCounter + E.InstructionSize opcode) true hl, rfl, ?_⟩
  · simp [ScriptSleeping, opcodeOf, bind, Except.bind, pure, Except.pure, hl1, hf, hc]
  · rfl
  · rfl
  · rw [hc]; exact index_store_same _ _ _ _ hf

/-- C27 (amended): sleep is not a tick-boundary stall. `ScriptSleep` returns the
continue signal 1: the sleep instruction itself pushes a frame with Counter = N
and moves the program counter by exactly 1 byte, and the pass goes on to the
sleeping instruction at that address within the same call of
`RunScriptThread`. So the first decrement happens in the tick of the sleep: for
N - 1 ≠ 0 the pass ends with the thread at the sleeping opcode and Counter =
N - 1, and for N - 1 = 0 (N = 1) the thread has already woken, with the program
counter past the sleeping instruction and the loop level restored. -/
theorem sleep_and_first_sleeping_share_a_tick (E : Env) (scriptData : ScriptFunction)
    (cur fuel : Nat) (e : ℚ) (m : Machine) (t : ScriptThread) (l : LevelState)
    (f : LoopState) (restSleep restSleeping : List Nat)
    (hgate : m.scriptDeltaTime + e > 1 / SCRIPT_FRAMES_PER_SECOND)
    (ht : m.scriptDef.thread cur = .ok t) (hrun : t.RunStatus = true)
    (hl : t.level = .ok l) (hf : index l.LoopState (l.LoopLevel + 1) = .ok f)
    (hd1 : E.OP_SLEEP ∉ [E.OP_EVT_END, E.OP_EVT_EXEC, E.OP_IF_START, E.OP_ELSE_START,
      E.OP_END_IF])
    (hd2 : E.OP_SLEEPING ∉ [E.OP_EVT_END, E.OP_EVT_EXEC, E.OP_IF_START, E.OP_ELSE_START,
      E.OP_END_IF, E.OP_SLEEP])
    (hins1 : scriptData.Instructions t.ProgramCounter = E.OP_SLEEP :: restSleep)
    (hins2 : scriptData.Instructions (t.ProgramCounter + 1) = E.OP_SLEEPING :: restSleeping) :
    (∃ m1 t1 l1 f1,
      execInstruction E scriptData (fuel + 1) cur { m with scriptDeltaTime := 0 }
        = .ok (m1, 1) ∧
      m1.scriptDef.thread cur = .ok t1 ∧
      t1.ProgramCounter = t.ProgramCounter + 1 ∧ t1.level = .ok l1 ∧
      l1.LoopLevel = l.LoopLevel + 1 ∧ index l1.LoopState (l.LoopLevel + 1) = .ok f1 ∧
      f1.Counter = (E.readSleep (E.OP_SLEEP :: restSleep)).Count) ∧
    ((E.readSleep (E.OP_SLEEP :: restSleep)).Count - 1 ≠ 0 →
      ∃ m2 t2 l2 f2, RunScriptThread E scriptData (fuel + 2) cur e m = .ok m2 ∧
        m2.scriptDef.thread cur = .ok t2 ∧
        t2.ProgramCounter = t.ProgramCounter + 1 ∧ t2.level = .ok l2 ∧
        l2.LoopLevel = l.LoopLevel + 1 ∧ index l2.LoopState (l.LoopLevel + 1) = .ok f2 ∧
        f2.Counter = (E.readSleep (E.OP_SLEEP :: restSleep)).Count - 1) ∧
    ((E.readSleep (E.OP_SLEEP :: restSleep)).Count - 1 = 0 →
      ∃ m2 t2 l2 f2, RunScriptThread E scriptData (fuel + 2) cur e m = .ok m2 ∧
        m2.scriptDef.thread cur = .ok t2 ∧
        t2.ProgramCounter = t.ProgramCounter + 1 + E.InstructionSize E.OP_SLEEPING ∧
        t2.level = .ok l2 ∧ l2.LoopLevel = l.LoopLevel ∧
        index l2.LoopState (l.LoopLevel + 1) = .ok f2 ∧ f2.Counter = 0) := by
  have hl0 : ScriptThread.level { t with OverrideProgramCounter := false } = .ok l := hl
  obtain ⟨t1, l1, hs, hpc1, hov1, hl1, hn1, hf1⟩ :=
    ScriptSleep_spec E (E.OP_SLEEP :: restSleep) { t with OverrideProgramCounter := false } l f
      hl0 hf
  have hexec1 := execInstruction_onThread_override E scriptData (fuel + 1) cur
    { m with scriptDeltaTime := 0 } t t1 E.OP_SLEEP restSleep 1
    (ScriptSleep E (E.OP_SLEEP :: restSleep)) ht hins1
    (dispatch_sleep E scriptData _ cur _ _ hd1) hs hov1
  have ht1 := thread_setThread m.scriptDef cur t { t1 with OverrideProgramCounter := false } ht
  have hpc1' : ({ t1 with OverrideProgramCounter := false } : ScriptThread).ProgramCounter
      = t.ProgramCounter + 1 := hpc1
  have hl1' : ScriptThread.level { t1 with OverrideProgramCounter := false } = .ok l1 := hl1
  have hf1' : index l1.LoopState (l.LoopLevel + 1)
      = .ok { f with Counter := (E.readSleep (E.OP_SLEEP :: restSleep)).Count } := by
    rw [← hn1]; exact hf1
  refine ⟨⟨_, _, l1, _, hexec1, ht1, hpc1', hl1', hn1, hf1', rfl⟩, ?_, ?_⟩
  · intro hne
    have hf1'' : index l1.LoopState l1.LoopLevel
        = .ok { f with Counter := (E.readSleep (E.OP_SLEEP :: restSleep)).Count } := hf1
    obtain ⟨t2, l2, hs2, hpc2, hov2, hl2, hn2, hf2⟩ :=
      ScriptSleeping_stall_full E E.OP_SLEEPING restSleeping
        { t1 with OverrideProgramCounter := false } l1 _ hl1' hf1'' hne
    have hexec2 := execInstruction_onThread_override E scriptData fuel cur
      { m with
        scriptDeltaTime := 0
        scriptDef := m.scriptDef.setThread cur { t1 with OverrideProgramCounter := false } }
      { t1 with OverrideProgramCounter := false } t2 E.OP_SLEEPING restSleeping 2
      (ScriptSleeping E (E.OP_SLEEPING :: restSleeping)) ht1 (by rw [hpc1']; exact hins2)
      (dispatch_sleeping E scriptData _ cur _ _ hd2) hs2 hov2
    refine ⟨{ m with
        scriptDeltaTime := 0
        scriptDef := (m.scriptDef.setThread cur
          { t1 with OverrideProgramCounter := false }).setThread cur
          { t2 with OverrideProgramCounter := false } },
      { t2 with OverrideProgramCounter := false }, l2,
      { f with Counter := (E.readSleep (E.OP_SLEEP :: restSleep)).Count - 1 }, ?_, ?_, ?_, hl2, ?_, ?_, rfl⟩
    · rw [RunScriptThread_open E scriptData _ cur e m t hgate ht hrun,
        runLoop_continue E scriptData cur (fuel + 1) _ _ hexec1]
      exact runLoop_stop E scriptData cur fuel _ _ hexec2
    · simp only [setThread_setThread]
      exact thread_setThread m.scriptDef cur t _ ht
    · show t2.ProgramCounter = _
      rw [hpc2]; exact hpc1'
    · rw [hn2, hn1]
    · rw [← hn1]; exact hf2
  · intro hz
    have hf1'' : index l1.LoopState l1.LoopLevel
        = .ok { f with Counter := (E.readSleep (E.OP_SLEEP :: restSleep)).Count } := hf1
    obtain ⟨t2, l2, hs2, hpc2, hov2, hl2, hn2, hf2⟩ :=
      ScriptSleeping_wake_full E E.OP_SLEEPING restSleeping
        { t1 with OverrideProgramCounter := false } l1 _ hl1' hf1'' hz
    have hexec2 := execInstruction_onThread_override E scriptData fuel cur
      { m with
        scriptDeltaTime := 0
        scriptDef := m.scriptDef.setThread cur { t1 with OverrideProgramCounter := false } }
      { t1 with OverrideProgramCounter := false } t2 E.OP_SLEEPING restSleeping 2
      (ScriptSleeping E (E.OP_SLEEPING :: restSleeping)) ht1 (by rw [hpc1']; exact hins2)
      (dispatch_sleeping E scriptData _ cur _ _ hd2) hs2 hov2
    refine ⟨{ m with
        scriptDeltaTime := 0
        scriptDef := (m.scriptDef.setThread cur
          { t1 with OverrideProgramCounter := false }).setThread cur
          { t2 with OverrideProgramCounter := false } },
      { t2 with OverrideProgramCounter := false }, l2,
      { f with Counter := 0 }, ?_, ?_, ?_, hl2, ?_, ?_, rfl⟩
    · rw [RunScriptThread_open E scriptData _ cur e m t hgate ht hrun,
        runLoop_continue E scriptData cur (fuel + 1) _ _ hexec1]
      exact runLoop_stop E scriptData cur fuel _ _ hexec2
    · simp only [setThread_setThread]
      exact thread_setThread m.scriptDef cur t _ ht
    · show t2.ProgramCounter = _
      rw [hpc2, hpc1']
    · rw [hn2, hn1]; omega
    · rw [← hn1]; exact hf2

theorem sleep_and_first_sleeping_share_a_tick_witness :
    (sampleEnv.readSleep (sampleEnv.OP_SLEEP :: [0x0a, 3, 0])).Count - 1 ≠ 0 ∧
    ∃ m2 t2 l2 f2, RunScriptThread sampleEnv sleepScript (0 + 2) 0 10
        (sampleMachine (samplePool [0]) 0) = .ok m2 ∧
      m2.scriptDef.thread 0 = .ok t2 ∧
      t2.ProgramCounter = (sampleThread true 0).ProgramCounter + 1 ∧ t2.level = .ok l2 ∧
      l2.LoopLevel = (idleLevel 8 4).LoopLevel + 1 ∧
      index l2.LoopState ((idleLevel 8 4).LoopLevel + 1) = .ok f2 ∧
      f2.Counter = (sampleEnv.readSleep (sampleEnv.OP_SLEEP :: [0x0a, 3, 0])).Count - 1 :=
  ⟨by decide,
    (sleep_and_first_sleeping_share_a_tick sampleEnv sleepScript 0 0 10
      (sampleMachine (samplePool [0]) 0) (sampleThread true 0) (idleLevel 8 4)
      { Counter := 0, Break := 0, StackValue := 0, LevelIfCounter := 0 } [0x0a, 3, 0] [3, 0]
      (by norm_num [sampleMachine, SCRIPT_FRAMES_PER_SECOND]) (by decide) rfl (by decide)
      (by decide) (by decide) (by decide) (by decide) (by decide)).2.1 (by decide)⟩

/-- C27 (counterexample): a running thread at a sleep instruction of count 3.
One dispatch pass (one tick) leaves it at the sleeping opcode, address 1, with
the counter of the pushed frame at 2, not 3: the first decrement has happened
in the tick of the sleep. -/
theorem sleep_tick_counterexample :
    (sampleEnv.readSleep [0x09, 0x0a, 3, 0]).Count = 3 ∧
    sleepState 0 (RunScriptThread sampleEnv sleepScript 4 0 10
      (sampleMachine (samplePool [0]) 0)) = .ok (1, 2) := by
  refine ⟨by decide, ?_⟩
  rw [RunScriptThread_open sampleEnv sleepScript 4 0 10 (sampleMachine (samplePool [0]) 0)
    (sampleThread true 0) (by norm_num [sampleMachine, SCRIPT_FRAMES_PER_SECOND])
    (by decide) rfl]
  decide

/-! ## The block-stack relation -/

theorem blockStackInvariant_intro (t : ScriptThread) (l : LevelState)
    (hl : t.level = .ok l) (h : t.StackIndex = l.IfElseCounter + 1) :
    blockStackInvariant t := by
  unfold blockStackInvariant
  rw [hl, h]
  rfl

theorem blockStackInvariant_elim (t : ScriptThread) (h : blockStackInvariant t) :
    ∃ l, t.level = .ok l ∧ t.StackIndex = l.IfElseCounter + 1 := by
  unfold blockStackInvariant at h
  cases hl : t.level with
  | error e => rw [hl] at h; cases h
  | ok l =>
    rw [hl] at h
    refine ⟨l, rfl, ?_⟩
    have h1 : Except.ok (l.IfElseCounter + 1) = (Except.ok t.StackIndex : Except Fault Int) := h
    injection h1 with h2
    exact h2.symm

/-- C29: the relation StackIndex = LevelState[SubLevel].IfElseCounter + 1 is
kept by the if family. From a thread state with the relation,
`ScriptIfBlockStart` (when the stack slot it writes exists), `ScriptElseCheck`
and `ScriptEndIf` return the continue signal with a state that has the relation
again, and so does the block-boundary pop of `RunScriptThread` (a signal other
than 1 and 2 with a non-negative counter): the pass goes on from a state with
the relation, at the stored end address. `ScriptGoSub` establishes it for the
new level from every thread state: StackIndex = 0, IfElseCounter = -1. -/
theorem block_stack_invariant_of_if_family (E : Env) (t : ScriptThread)
    (hinv : blockStackInvariant t) :
    (∀ opcode rest x l, t.level = .ok l → index l.Stack t.StackIndex = .ok x →
      ∃ t1, ScriptIfBlockStart E (opcode :: rest) t = .ok (t1, 1) ∧ blockStackInvariant t1) ∧
    (∀ lineData, ∃ t1, ScriptElseCheck E lineData t = .ok (t1, 1) ∧ blockStackInvariant t1) ∧
    (∃ t1, ScriptEndIf t = .ok (t1, 1) ∧ blockStackInvariant t1) ∧
    (∀ (scriptData : ScriptFunction) (cur fuel : Nat) (m m1 : Machine) (r : Int)
        (l : LevelState) (top : Int),
      execInstruction E scriptData fuel cur m = .ok (m1, r) → r ≠ 1 → r ≠ 2 →
      m1.scriptDef.thread cur = .ok t → t.level = .ok l → ¬ l.IfElseCounter < 0 →
      index l.Stack (t.StackIndex - 1) = .ok top →
      ∃ t1, runLoop E scriptData cur (fuel + 1) m =
          runLoop E scriptData cur fuel
            { m1 with scriptDef := m1.scriptDef.setThread cur t1 } ∧
        t1.ProgramCounter = top ∧ blockStackInvariant t1) ∧
    (∀ (u : ScriptThread) (scriptData : ScriptFunction) opcode rest l c pc,
      u.level = .ok l → index u.LevelState (u.SubLevel + 1) = .ok c →
      scriptData.start (E.readGoSub (opcode :: rest)).Event = .ok pc →
      ∃ u1 l1, ScriptGoSub E (opcode :: rest) scriptData u = .ok (u1, 1) ∧
        u1.SubLevel = u.SubLevel + 1 ∧ u1.level = .ok l1 ∧
        u1.StackIndex = 0 ∧ l1.IfElseCounter = -1 ∧ blockStackInvariant u1) := by
  obtain ⟨l0, hl0, hs0⟩ := blockStackInvariant_elim t hinv
  refine ⟨?_, ?_, ?_, ?_, ?_⟩
  · intro opcode rest x l hl hslot
    rw [hl0] at hl
    injection hl with hl
    subst hl
    refine ⟨_, ScriptIfBlockStart_spec E opcode rest t l0 x hl0 hslot, ?_⟩
    refine blockStackInvariant_intro _ _ (level_of_store t l0 _ hl0 _ rfl rfl) ?_
    show t.StackIndex + 1 = l0.IfElseCounter + 1 + 1
    rw [hs0]
  · intro lineData
    refine ⟨_, ScriptElseCheck_spec E lineData t l0 hl0, ?_⟩
    refine blockStackInvariant_intro _ _ (level_of_store t l0 _ hl0 _ rfl rfl) ?_
    show t.StackIndex - 1 = l0.IfElseCounter - 1 + 1
    rw [hs0]; ring
  · refine ⟨_, ScriptEndIf_spec t l0 hl0, ?_⟩
    refine blockStackInvariant_intro _ _ (level_of_store t l0 _ hl0 _ rfl rfl) ?_
    show t.StackIndex - 1 = l0.IfElseCounter - 1 + 1
    rw [hs0]; ring
  · intro scriptData cur fuel m m1 r l top hexec hr1 hr2 ht hl hc htop
    rw [hl0] at hl
    injection hl with hl
    subst hl
    have hne : t.StackIndex ≠ 0 := by omega
    refine ⟨_, runLoop_pop E scriptData cur fuel m m1 r t l0 top hexec hr1 hr2 ht hl0 hc hne
      htop, rfl, ?_⟩
    refine blockStackInvariant_intro _ _ (level_of_store t l0 _ hl0 _ rfl rfl) ?_
    show t.StackIndex - 1 = l0.IfElseCounter - 1 + 1
    rw [hs0]; ring
  · intro u scriptData opcode rest l c pc hl hc hpc
    have hsub : 0 ≤ u.SubLevel := index_nonneg _ _ _ hl
    have hc1 : index (store u.LevelState u.SubLevel
        { l with ReturnAddress := u.ProgramCounter + E.InstructionSize opcode })
        (u.SubLevel + 1) = .ok c := by
      rw [index_store_other _ _ _ _ hsub (by omega) (by omega)]
      exact hc
    have hlev : ScriptThread.level
        { u with
          LevelState := store (store u.LevelState u.SubLevel
              { l with ReturnAddress := u.ProgramCounter + E.InstructionSize opcode })
            (u.SubLevel + 1) { c with IfElseCounter := -1, LoopLevel := -1 }
          StackIndex := 0
          SubLevel := u.SubLevel + 1
          ProgramCounter := pc
          OverrideProgramCounter := true }
        = .ok { c with IfElseCounter := -1, LoopLevel := -1 } :=
      index_store_same _ _ _ _ hc1
    exact ⟨_, _, ScriptGoSub_spec E opcode rest scriptData u l c pc hl hc hpc, rfl, hlev, rfl,
      rfl, blockStackInvariant_intro _ _ hlev rfl⟩

theorem block_stack_invariant_of_if_family_witness :
    blockStackInvariant (sampleThread true 0) ∧
    (∃ t1, ScriptIfBlockStart sampleEnv (0x06 :: [0, 6, 0]) (sampleThread true 0) = .ok (t1, 1) ∧
      blockStackInvariant t1) ∧
    (∃ t1, ScriptEndIf (sampleThread true 0) = .ok (t1, 1) ∧ blockStackInvariant t1) :=
  ⟨by decide,
    (block_stack_invariant_of_if_family sampleEnv (sampleThread true 0) (by decide)).1
      0x06 [0, 6, 0] 0 (idleLevel 8 4) (by decide) (by decide),
    (block_stack_invariant_of_if_family sampleEnv (sampleThread true 0) (by decide)).2.2.1⟩

/-! ## Break and the block stack -/

theorem index_of_lt {α : Type} (xs : List α) (i : Int) (h0 : 0 ≤ i) (h1 : i < xs.length) :
    ∃ x, index xs i = .ok x := by
  have h2 : i.toNat < xs.length := by omega
  refine ⟨xs[i.toNat], ?_⟩
  rw [index_ok_iff]
  exact ⟨h0, List.getElem?_eq_getElem h2⟩

theorem length_store {α : Type} (xs : List α) (i : Int) (x : α) :
    (store xs i x).length = xs.length := by
  simp [store]

theorem ScriptBreak_keeps_StackIndex (t t1 : ScriptThread) (r : Int)
    (h : ScriptBreak t = .ok (t1, r)) : t1.StackIndex = t.StackIndex := by
  unfold ScriptBreak at h
  cases hl : index t.LevelState t.SubLevel with
  | error e => simp [hl, bind, Except.bind] at h
  | ok l =>
    cases hf : index l.LoopState l.LoopLevel with
    | error e => simp [hl, hf, bind, Except.bind] at h
    | ok f =>
      simp [hl, hf, bind, Except.bind, pure, Except.pure] at h
      rw [← h.1]

theorem openIfBlocks_spec (E : Env) (opcode : Nat) (rest : List Nat) (k : Nat) :
    ∀ (t : ScriptThread) (l : LevelState), t.level = .ok l → 0 ≤ t.StackIndex →
      t.StackIndex + k ≤ l.Stack.length →
      ∃ tk lk, openIfBlocks E opcode rest k t = .ok tk ∧ tk.level = .ok lk ∧
        lk.IfElseCounter = l.IfElseCounter + k ∧ lk.LoopLevel = l.LoopLevel ∧
        lk.LoopState = l.LoopState ∧ lk.Stack.length = l.Stack.length ∧
        tk.StackIndex = t.StackIndex + k := by
  induction k with
  | zero =>
    intro t l hl _ _
    exact ⟨t, l, rfl, hl, by simp, rfl, rfl, rfl, by simp⟩
  | succ k ih =>
    intro t l hl h0 hcap
    obtain ⟨x, hx⟩ := index_of_lt l.Stack t.StackIndex h0 (by push_cast at hcap; omega)
    have hstep := ScriptIfBlockStart_spec E opcode rest t l x hl hx
    have hlev : ScriptThread.level (ScriptThread.IncrementProgramCounter E
        { t with
          LevelState := store t.LevelState t.SubLevel
            { l with
              IfElseCounter := l.IfElseCounter + 1
              Stack := store l.Stack t.StackIndex
                (t.ProgramCounter + E.InstructionSize opcode
                  + (E.readIfElseStart (opcode :: rest)).BlockLength) }
          StackIndex := t.StackIndex + 1 } opcode) = .ok
            { l with
              IfElseCounter := l.IfElseCounter + 1
              Stack := store l.Stack t.StackIndex
                (t.ProgramCounter + E.InstructionSize opcode
                  + (E.readIfElseStart (opcode :: rest)).BlockLength) } :=
      level_of_store t l _ hl _ rfl rfl
    obtain ⟨tk, lk, hrun, hlk, hc, hn, hls, hlen, hsi⟩ := ih _ _ hlev
      (by show 0 ≤ t.StackIndex + 1; omega)
      (by
        show t.StackIndex + 1 + (k : Int) ≤ ((store l.Stack t.StackIndex _).length : Int)
        rw [length_store]; push_cast at hcap; omega)
    refine ⟨tk, lk, ?_, hlk, ?_, hn, hls, ?_, ?_⟩
    · rw [openIfBlocks, hstep]
      exact hrun
    · rw [hc]; show l.IfElseCounter + 1 + (k : Int) = _; push_cast; ring
    · rw [hlen]; exact length_store _ _ _
    · rw [hsi]; show t.StackIndex + 1 + (k : Int) = _; push_cast; ring

theorem breakRound_spec (E : Env) (forOpcode : Nat) (forRest : List Nat) (opcode : Nat)
    (rest : List Nat) (k : Nat) (t : ScriptThread) (l : LevelState) (f : LoopState)
    (hcount : (E.readForStart (forOpcode :: forRest)).Count ≠ 0)
    (hl : t.level = .ok l) (hf : index l.LoopState (l.LoopLevel + 1) = .ok f)
    (h0 : 0 ≤ t.StackIndex) (hcap : t.StackIndex + k ≤ l.Stack.length) :
    ∃ t1 l1 f1, breakRound E (forOpcode :: forRest) opcode rest k t = .ok t1 ∧
      t1.level = .ok l1 ∧ l1.IfElseCounter = l.IfElseCounter ∧ l1.LoopLevel = l.LoopLevel ∧
      index l1.LoopState (l1.LoopLevel + 1) = .ok f1 ∧ l1.Stack.length = l.Stack.length ∧
      t1.StackIndex = t.StackIndex + k := by
  have hbegin := ScriptForLoopBegin_enter E forOpcode forRest t l f hcount hl hf
  have hlev := level_store t l
    { l with
      LoopLevel := l.LoopLevel + 1
      LoopState := store l.LoopState (l.LoopLevel + 1)
        { Counter := (E.readForStart (forOpcode :: forRest)).Count
          Break := t.ProgramCounter + E.InstructionSize forOpcode
            + (E.readForStart (forOpcode :: forRest)).BlockLength
          StackValue := t.ProgramCounter + E.InstructionSize forOpcode
          LevelIfCounter := l.IfElseCounter } }
    (t.ProgramCounter + E.InstructionSize forOpcode) true hl
  obtain ⟨t2, l2, hopen, hl2, hc2, hn2, hls2, hlen2, hsi2⟩ :=
    openIfBlocks_spec E opcode rest k _ _ hlev h0 hcap
  have hf2 : index l2.LoopState l2.LoopLevel = .ok
      { Counter := (E.readForStart (forOpcode :: forRest)).Count
        Break := t.ProgramCounter + E.InstructionSize forOpcode
          + (E.readForStart (forOpcode :: forRest)).BlockLength
        StackValue := t.ProgramCounter + E.InstructionSize forOpcode
        LevelIfCounter := l.IfElseCounter } := by
    rw [hls2, hn2]
    exact index_store_same _ _ _ _ hf
  have hbreak := ScriptBreak_spec t2 l2 _ hl2 hf2
  refine ⟨{ t2 with
      OverrideProgramCounter := true
      ProgramCounter := t.ProgramCounter + E.InstructionSize forOpcode
        + (E.readForStart (forOpcode :: forRest)).BlockLength
      LevelState := store t2.LevelState t2.SubLevel
        { l2 with
          IfElseCounter := l.IfElseCounter
          LoopLevel := l2.LoopLevel - 1 } },
    { l2 with
      IfElseCounter := l.IfElseCounter
      LoopLevel := l2.LoopLevel - 1 },
    { Counter := (E.readForStart (forOpcode :: forRest)).Count
      Break := t.ProgramCounter + E.InstructionSize forOpcode
        + (E.readForStart (forOpcode :: forRest)).BlockLength
      StackValue := t.ProgramCounter + E.InstructionSize forOpcode
      LevelIfCounter := l.IfElseCounter },
    ?_, level_of_store t2 l2 _ hl2 _ rfl rfl, rfl, ?_, ?_, hlen2, hsi2⟩
  · simp only [breakRound, hbegin, hopen, hbreak, bind, Except.bind, pure, Except.pure]
  · show l2.LoopLevel - 1 = l.LoopLevel
    rw [hn2]; show l.LoopLevel + 1 - 1 = l.LoopLevel; ring
  · show index l2.LoopState (l2.LoopLevel - 1 + 1) = _
    rw [sub_add_cancel]; exact hf2

theorem breakRounds_spec (E : Env) (forOpcode : Nat) (forRest : List Nat) (opcode : Nat)
    (rest : List Nat) (k : Nat) (t : ScriptThread) (l : LevelState) (f : LoopState)
    (hcount : (E.readForStart (forOpcode :: forRest)).Count ≠ 0)
    (hl : t.level = .ok l) (hf : index l.LoopState (l.LoopLevel + 1) = .ok f)
    (h0 : 0 ≤ t.StackIndex) (j : Nat) :
    t.StackIndex + ((j * k : Nat) : Int) ≤ l.Stack.length →
    ∃ tj lj fj, breakRounds E (forOpcode :: forRest) opcode rest k j t = .ok tj ∧
      tj.level = .ok lj ∧ lj.IfElseCounter = l.IfElseCounter ∧ lj.LoopLevel = l.LoopLevel ∧
      index lj.LoopState (lj.LoopLevel + 1) = .ok fj ∧ lj.Stack.length = l.Stack.length ∧
      tj.StackIndex = t.StackIndex + ((j * k : Nat) : Int) := by
  induction j with
  | zero =>
    intro _
    exact ⟨t, l, f, rfl, hl, rfl, rfl, hf, rfl, by simp⟩
  | succ j ih =>
    intro hcap
    have hjk : ((j + 1) * k : Nat) = j * k + k := Nat.succ_mul j k
    rw [hjk] at hcap
    push_cast at hcap
    obtain ⟨tj, lj, fj, hrun, hlj, hc, hn, hfj, hlen, hsi⟩ := ih (by omega)
    obtain ⟨t1, l1, f1, hround, hl1, hc1, hn1, hf1, hlen1, hsi1⟩ :=
      breakRound_spec E forOpcode forRest opcode rest k tj lj fj hcount hlj hfj
        (by rw [hsi]; omega) (by rw [hsi, hlen]; omega)
    refine ⟨t1, l1, f1, ?_, hl1, hc1.trans hc, hn1.trans hn, hf1, hlen1.trans hlen, ?_⟩
    · rw [breakRounds]
      simp only [hrun, bind, Except.bind]
      exact hround
    · rw [hsi1, hsi, hjk]; push_cast; ring

/-- C30: break does not unwind the block stack. `ScriptBreak` leaves StackIndex
as it was in every thread state in which it returns. A loop entered by
`ScriptForLoopBegin` with IfElseCounter = c and StackIndex = s, in whose body
k if-blocks are opened before `ScriptBreak` runs, ends with IfElseCounter = c
and the loop level as before, but with StackIndex = s + k; after j such
loops in a row StackIndex = s + j * k while IfElseCounter is c again. So a
thread that had StackIndex = IfElseCounter + 1 before has lost that relation
after the first break from inside an if-block (j ≥ 1, k ≥ 1). -/
theorem break_does_not_unwind_block_stack (E : Env) (forOpcode : Nat) (forRest : List Nat)
    (opcode : Nat) (rest : List Nat) (k j : Nat) (t : ScriptThread) (l : LevelState)
    (f : LoopState)
    (hcount : (E.readForStart (forOpcode :: forRest)).Count ≠ 0)
    (hl : t.level = .ok l) (hf : index l.LoopState (l.LoopLevel + 1) = .ok f)
    (h0 : 0 ≤ t.StackIndex)
    (hcap : t.StackIndex + ((j * k : Nat) : Int) ≤ l.Stack.length) :
    (∀ (u u1 : ScriptThread) (r : Int), ScriptBreak u = .ok (u1, r) →
      u1.StackIndex = u.StackIndex) ∧
    ∃ tj lj, breakRounds E (forOpcode :: forRest) opcode rest k j t = .ok tj ∧
      tj.level = .ok lj ∧ lj.IfElseCounter = l.IfElseCounter ∧ lj.LoopLevel = l.LoopLevel ∧
      tj.StackIndex = t.StackIndex + ((j * k : Nat) : Int) ∧
      (blockStackInvariant t → 1 ≤ j → 1 ≤ k → ¬ blockStackInvariant tj) := by
  refine ⟨ScriptBreak_keeps_StackIndex, ?_⟩
  obtain ⟨tj, lj, fj, hrun, hlj, hc, hn, _, _, hsi⟩ :=
    breakRounds_spec E forOpcode forRest opcode rest k t l f hcount hl hf h0 j hcap
  refine ⟨tj, lj, hrun, hlj, hc, hn, hsi, ?_⟩
  intro hinv hj hk hinvj
  obtain ⟨l0, hl0, hs0⟩ := blockStackInvariant_elim t hinv
  obtain ⟨l1, hl1, hs1⟩ := blockStackInvariant_elim tj hinvj
  rw [hl] at hl0
  injection hl0 with hl0
  rw [hlj] at hl1
  injection hl1 with hl1
  subst hl0 hl1
  have hpos : 1 ≤ j * k := Nat.mul_pos hj hk
  rw [hs1, hc, hs0] at hsi
  omega

theorem break_does_not_unwind_block_stack_witness :
    (sampleEnv.readForStart (0x0d :: [0, 8, 0, 2, 0])).Count ≠ 0 ∧
    ∃ tj lj, breakRounds sampleEnv (0x0d :: [0, 8, 0, 2, 0]) 0x06 [0, 6, 0] 2 2
        (sampleThread true 0) = .ok tj ∧
      tj.level = .ok lj ∧ lj.IfElseCounter = (idleLevel 8 4).IfElseCounter ∧
      lj.LoopLevel = (idleLevel 8 4).LoopLevel ∧
      tj.StackIndex = (sampleThread true 0).StackIndex + ((2 * 2 : Nat) : Int) ∧
      (blockStackInvariant (sampleThread true 0) → 1 ≤ 2 → 1 ≤ 2 → ¬ blockStackInvariant tj) :=
  ⟨by decide,
    (break_does_not_unwind_block_stack sampleEnv 0x0d [0, 8, 0, 2, 0] 0x06 [0, 6, 0] 2 2
      (sampleThread true 0) (idleLevel 8 4)
      { Counter := 0, Break := 0, StackValue := 0, LevelIfCounter := 0 }
      (by decide) (by decide) (by decide) (by decide) (by decide)).2⟩

/-! ## Sleep with count 0 -/

theorem sleepingTicks_below_zero (E : Env) (opcode : Nat) (rest : List Nat)
    (t0 : ScriptThread) (l0 : LevelState) (f0 : LoopState)
    (hl0 : t0.level = .ok l0) (hf0 : index l0.LoopState l0.LoopLevel = .ok f0)
    (hc0 : f0.Counter ≤ 0) :
    ∀ k : Nat, ∃ tk lk fk, sleepingTicks E (opcode :: rest) k t0 = .ok (tk, 2) ∧
      tk.ProgramCounter = t0.ProgramCounter ∧ tk.level = .ok lk ∧
      lk.LoopLevel = l0.LoopLevel ∧ index lk.LoopState lk.LoopLevel = .ok fk ∧
      fk.Counter = f0.Counter - k := by
  intro k
  induction k with
  | zero => exact ⟨t0, l0, f0, rfl, rfl, hl0, rfl, hf0, by simp⟩
  | succ k ih =>
    obtain ⟨tk, lk, fk, hrun, hpc, hlk, hll, hfk, hck⟩ := ih
    have hne : fk.Counter - 1 ≠ 0 := by rw [hck]; omega
    obtain ⟨u1, l1, hstep, hpc1, hl1, hll1, hf1⟩ :=
      ScriptSleeping_stall_spec E opcode rest tk lk fk hlk hfk hne
    refine ⟨u1, l1, { fk with Counter := fk.Counter - 1 }, ?_, ?_, hl1, ?_, hf1, ?_⟩
    · simp [sleepingTicks, hrun, bind, Except.bind, hstep]
    · rw [hpc1, hpc]
    · rw [hll1, hll]
    · simp [hck]; ring

/-- C31: sleep with count 0 never wakes. `ScriptSleep` on an instruction whose
count is 0 pushes a frame with Counter = 0 and moves the program counter one
byte on, to the sleeping opcode. For every n >= 1 (up to 2^63, the range in
which the 64-bit counter of the code does not wrap, so that it equals the
integer of this development), n executions of `ScriptSleeping` in a row all
succeed, the n-th returns 2, and they leave the program counter at the sleeping
opcode and the loop level one above its value before the sleep: the counter is
-n, which is not 0. -/
theorem sleep_count_zero_never_wakes (E : Env) (sleep : List Nat) (opcode : Nat)
    (rest : List Nat) (t : ScriptThread) (l : LevelState) (f : LoopState)
    (hcount : (E.readSleep sleep).Count = 0)
    (hl : t.level = .ok l)
    (hf : index l.LoopState (l.LoopLevel + 1) = .ok f) :
    ∃ t0 l0 f0, ScriptSleep E sleep t = .ok (t0, 1) ∧
      t0.ProgramCounter = t.ProgramCounter + 1 ∧
      t0.level = .ok l0 ∧ l0.LoopLevel = l.LoopLevel + 1 ∧
      index l0.LoopState l0.LoopLevel = .ok f0 ∧ f0.Counter = 0 ∧
      ∀ n : Nat, 1 ≤ n → (n : Int) ≤ 2 ^ 63 → ∃ tn ln fn,
        sleepingTicks E (opcode :: rest) n t0 = .ok (tn, 2) ∧
        tn.ProgramCounter = t.ProgramCounter + 1 ∧
        tn.level = .ok ln ∧ ln.LoopLevel = l.LoopLevel + 1 ∧
        index ln.LoopState ln.LoopLevel = .ok fn ∧
        fn.Counter = -(n : Int) ∧ fn.Counter ≠ 0 := by
  obtain ⟨t0, l0, hsleep, hpc0, -, hl0, hll0, hf0⟩ := ScriptSleep_spec E sleep t l f hl hf
  rw [hcount] at hf0
  refine ⟨t0, l0, { f with Counter := 0 }, hsleep, hpc0, hl0, hll0, hf0, rfl, ?_⟩
  intro n hn _
  obtain ⟨tn, ln, fn, hrun, hpc, hln, hll, hfn, hcn⟩ :=
    sleepingTicks_below_zero E opcode rest t0 l0 { f with Counter := 0 } hl0 hf0
      (le_refl (0 : Int)) n
  have hval : fn.Counter = -(n : Int) := by
    rw [hcn]; show (0 : Int) - n = -n; ring
  refine ⟨tn, ln, fn, hrun, by rw [hpc, hpc0], hln, by rw [hll, hll0], hfn, hval, ?_⟩
  rw [hval]; omega

theorem sleep_count_zero_never_wakes_witness :
    (sampleEnv.readSleep [0x09, 0x0a, 0, 0]).Count = 0 ∧
    ∃ t0 l0 f0, ScriptSleep sampleEnv [0x09, 0x0a, 0, 0] (sampleThread true 10) = .ok (t0, 1) ∧
      t0.ProgramCounter = (sampleThread true 10).ProgramCounter + 1 ∧
      t0.level = .ok l0 ∧ l0.LoopLevel = (idleLevel 8 4).LoopLevel + 1 ∧
      index l0.LoopState l0.LoopLevel = .ok f0 ∧ f0.Counter = 0 ∧
      ∀ n : Nat, 1 ≤ n → (n : Int) ≤ 2 ^ 63 → ∃ tn ln fn,
        sleepingTicks sampleEnv (0x0a :: [0, 0]) n t0 = .ok (tn, 2) ∧
        tn.ProgramCounter = (sampleThread true 10).ProgramCounter + 1 ∧
        tn.level = .ok ln ∧ ln.LoopLevel = (idleLevel 8 4).LoopLevel + 1 ∧
        index ln.LoopState ln.LoopLevel = .ok fn ∧
        fn.Counter = -(n : Int) ∧ fn.Counter ≠ 0 :=
  ⟨by decide,
    sleep_count_zero_never_wakes sampleEnv [0x09, 0x0a, 0, 0] 0x0a [0, 0]
      (sampleThread true 10) (idleLevel 8 4) ⟨0, 0, 0, 0⟩ (by decide) (by decide) (by decide)⟩

/-! ## Activation with every thread running -/

theorem nextAvailable_all_running :
    ∀ (threads : List ScriptThread) (k : Nat),
      (∀ u ∈ threads, u.RunStatus = true) → nextAvailable threads k = 0 := by
  intro threads
  induction threads with
  | nil => intro k _; rfl
  | cons head rest ih =>
    intro k h
    have hhead : head.RunStatus = true := h head (List.mem_cons_self _ _)
    have hrest := ih (k + 1) (fun u hu => h u (List.mem_cons_of_mem _ hu))
    simp [nextAvailable, hhead, hrest]

/-- C32: EvtExec with no idle thread. When the thread number of the instruction
is not a pool index and every thread of the pool has RunStatus true, the
search loop finds nothing and `nextThreadNum` keeps its initial value 0:
`ScriptEvtExec` (for an existing entry point, on a pool whose thread 0 and its
level 0 exist) returns 1 and overwrites thread 0. Its program counter becomes
the entry address and the IfElseCounter and LoopLevel of its level 0 become
-1, while RunStatus (true), SubLevel, StackIndex and the stack and loop frames
of level 0 are as before; the other threads are unchanged. The pool is not the
same as before whenever thread 0 was not already at the entry address. -/
theorem ScriptEvtExec_no_idle_thread (E : Env) (lineData : List Nat)
    (scriptData : ScriptFunction) (scriptDef : ScriptDef) (t : ScriptThread)
    (l0 : LevelState) (pc : Int)
    (hout : ¬ (0 ≤ (E.readEventExec lineData).ThreadNum ∧
      (E.readEventExec lineData).ThreadNum < scriptDef.ScriptThreads.length))
    (hall : ∀ u ∈ scriptDef.ScriptThreads, u.RunStatus = true)
    (ht : scriptDef.ScriptThreads[0]? = some t)
    (hpc : scriptData.start (E.readEventExec lineData).Event = .ok pc)
    (hl0 : index t.LevelState 0 = .ok l0) :
    ∃ pool t1 l1, ScriptEvtExec E lineData scriptData scriptDef
        = .ok ({ ScriptThreads := pool }, 1) ∧
      pool[0]? = some t1 ∧
      t1 = { t with
        ProgramCounter := pc
        LevelState := store t.LevelState 0
          { l0 with IfElseCounter := -1, LoopLevel := -1 } } ∧
      t1.RunStatus = true ∧ t1.ProgramCounter = pc ∧
      index t1.LevelState 0 = .ok l1 ∧ l1.IfElseCounter = -1 ∧ l1.LoopLevel = -1 ∧
      l1.Stack = l0.Stack ∧ l1.LoopState = l0.LoopState ∧
      t1.SubLevel = t.SubLevel ∧ t1.StackIndex = t.StackIndex ∧
      pool.length = scriptDef.ScriptThreads.length ∧
      (∀ j, j ≠ 0 → pool[j]? = scriptDef.ScriptThreads[j]?) ∧
      (t.ProgramCounter ≠ pc → pool ≠ scriptDef.ScriptThreads) := by
  have hlt : 0 < scriptDef.ScriptThreads.length := by
    rw [List.getElem?_eq_some] at ht
    exact ht.1
  have hrun : t.RunStatus = true := hall t (List.mem_iff_getElem?.2 ⟨0, ht⟩)
  have hnext : (if 0 ≤ (E.readEventExec lineData).ThreadNum ∧
      (E.readEventExec lineData).ThreadNum < scriptDef.ScriptThreads.length then
      (E.readEventExec lineData).ThreadNum.toNat
      else nextAvailable scriptDef.ScriptThreads 0) = 0 := by
    rw [if_neg hout, nextAvailable_all_running _ 0 hall]
  have hpool : (scriptDef.ScriptThreads.set 0
      { t with
        ProgramCounter := pc
        LevelState := store t.LevelState 0
          { l0 with IfElseCounter := -1, LoopLevel := -1 } })[0]? = some
      { t with
        ProgramCounter := pc
        LevelState := store t.LevelState 0
          { l0 with IfElseCounter := -1, LoopLevel := -1 } } := by
    simp [List.getElem?_set, hlt]
  refine ⟨scriptDef.ScriptThreads.set 0
    { t with
      ProgramCounter := pc
      LevelState := store t.LevelState 0 { l0 with IfElseCounter := -1, LoopLevel := -1 } },
    _, { l0 with IfElseCounter := -1, LoopLevel := -1 },
    ?_, hpool, rfl, hrun, rfl, index_store_same _ _ _ _ hl0, rfl, rfl, rfl, rfl, rfl, rfl,
    ?_, ?_, ?_⟩
  · unfold ScriptEvtExec
    simp only [hnext]
    simp [(thread_ok_iff _ _ _).2 ht, hpc, hl0, bind, Except.bind, pure, Except.pure,
      ScriptDef.setThread, hrun]
  · simp
  · intro j hj
    simp [List.getElem?_set, Ne.symm hj]
  · intro hne heq
    rw [heq, ht] at hpool
    injection hpool with h
    exact hne (by rw [h])

theorem ScriptEvtExec_no_idle_thread_witness :
    (∀ u ∈ busyPool, u.RunStatus = true) ∧
    ∃ pool t1 l1, ScriptEvtExec sampleEnv [0x04, 0xff, 0, 1] gosubScript
        { ScriptThreads := busyPool } = .ok ({ ScriptThreads := pool }, 1) ∧
      pool[0]? = some t1 ∧
      t1 = { sampleThread true 100 with SubLevel := 1, StackIndex := 2 } ∧
      index t1.LevelState 0 = .ok l1 ∧ l1.IfElseCounter = -1 ∧ l1.LoopLevel = -1 ∧
      pool ≠ busyPool := by
  refine ⟨by decide, ?_⟩
  obtain ⟨pool, t1, l1, h, hp, ht1, _, _, hl1, hc, hn, _, _, _, _, _, _, hchg⟩ :=
    ScriptEvtExec_no_idle_thread sampleEnv [0x04, 0xff, 0, 1] gosubScript
      { ScriptThreads := busyPool }
      { sampleThread true 50 with SubLevel := 1, StackIndex := 2 } (idleLevel 8 4) 100
      (by decide) (by decide) (by decide) (by decide) (by decide)
  exact ⟨pool, t1, l1, h, hp, by rw [ht1]; decide, hl1, hc, hn, hchg (by decide)⟩

end OpenBiohazard2
